import Mathlib

/-! # libdbp `PatcherPaths`: resolution registry, matching and component factory

A shallow embedding of `MultiBootPatcher/libdbp/patcherpaths.cpp`.

* `std::string` is `String`, `std::vector<T>` is `List T`, a pointer that may be
  `nullptr` is an `Option`.
* A range-`for` loop with `break` / `continue` / `return` is a structurally
  recursive function over the list it walks; the constructor of the result says
  which exit was taken.
* The regex engine (`boost::regex_search (subject, boost::regex (pattern))`) and
  the path library (`boost::filesystem::path (p).filename ()`) are libraries the
  repository links against; they are parameters `regex_search` and `filename`
  of the functions that call them. `regex_search` yields `Outcome.regex_error` for a
  pattern `boost::regex` rejects: the exception is not caught in this file, so it is
  one of the ways `findMatchingPatchInfo` ends.
* `Log::log` only writes to the process-wide log and is not part of the state; the
  one message kept is the exception that `loadPatchInfos` logs at line 632.
* The file system is a parameter (`FileSystem`): the walk of a directory, the
  extension of a path, and the document `xmlReadFile` returns for a path.
-/

namespace PatcherPaths

/-! ## Collaborator value types (`device.h`, `patchinfo.h`, `partitionconfig.h`) -/

/-- Security-policy mode of a device (`Device::SelinuxPermissive`, `Device::SelinuxUnchanged`). -/
inductive Selinux where
  | SelinuxPermissive
  | SelinuxUnchanged
deriving DecidableEq, Repr

/-- Logical partition roles (`Device::SystemPartition`, ...). -/
inductive PartitionRole where
  | SystemPartition
  | CachePartition
  | DataPartition
deriving DecidableEq, Repr

/-- Modelled from the spec: `Device` (device.h is not among the sources), a record of
identifier, display name, security-policy mode and role-to-partition mapping, written
through `setCodename`, `setName`, `setSelinux`, `setPartition`. -/
structure Device where
  codename : String := ""
  name : String := ""
  selinux : Selinux := Selinux.SelinuxUnchanged
  partitions : List (PartitionRole × String) := []
deriving DecidableEq, Repr

/-- The function `Device::setPartition`: the entry for `role` is replaced. -/
def Device.setPartition (d : Device) (role : PartitionRole) (p : String) : Device :=
  { d with partitions := d.partitions.filter (fun e => e.1 != role) ++ [(role, p)] }

/-- Argument mapping of one auto-patcher invocation (`PatchInfo::AutoPatcherArgs`,
an `unordered_map<string, string>`): association list with unique keys. -/
abbrev AutoPatcherArgs := List (String × String)

/-- Sequence of (auto-patcher identifier, arguments) pairs (`PatchInfo::AutoPatcherItems`). -/
abbrev AutoPatcherItems := List (String × AutoPatcherArgs)

/-- Modelled from the spec: `PatchInfo` (patchinfo.h is not among the sources). The
descriptor holds its identifier, display name, the selection-regex and the
exclusion-regex sequence, the not-matched flag, and one value per type tag for each
Rule-Bundle field; the per-tag maps are association lists from the type tag to the
value. -/
structure PatchInfo where
  id : String := ""
  name : String := ""
  regexes : List String := []
  excludeRegexes : List String := []
  hasNotMatched : Bool := false
  hasBootImageMap : List (String × Bool) := []
  ramdiskMap : List (String × String) := []
  patchedInitMap : List (String × String) := []
  autoPatchersMap : List (String × AutoPatcherItems) := []
  deviceCheckMap : List (String × Bool) := []
  supportedConfigsMap : List (String × List String) := []
deriving DecidableEq, Repr

/-- Write `v` under `key` in a per-type-tag map (`map[key] = v`). -/
def mapSet {α : Type} (m : List (String × α)) (key : String) (v : α) : List (String × α) :=
  (key, v) :: m.filter (fun e => e.1 != key)

/-- Read `key` from a per-type-tag map, `dflt` when the key is absent. -/
def mapGet {α : Type} (m : List (String × α)) (key : String) (dflt : α) : α :=
  match m.lookup key with
  | some v => v
  | none => dflt

/-- Modelled from the spec: `PatchInfo::supportedConfigs (type)`, the token sequence of
the bundle with that type tag (bundles are independent, an unset one is empty). -/
def PatchInfo.supportedConfigs (info : PatchInfo) (type : String) : List String :=
  mapGet info.supportedConfigsMap type []

/-- Modelled from the spec: `PatchInfo::setSupportedConfigs (type, configs)`. -/
def PatchInfo.setSupportedConfigs (info : PatchInfo) (type : String)
    (configs : List String) : PatchInfo :=
  { info with supportedConfigsMap := mapSet info.supportedConfigsMap type configs }

/-- Modelled from the spec: `PartitionConfig`, an identifier plus fields that this
file never reads. -/
structure PartitionConfig where
  id : String := ""
deriving DecidableEq, Repr

/-- Error codes of `PatcherError` that this file raises. -/
inductive ErrorCode where
  | NoError
  | XmlParseFileError
deriving DecidableEq, Repr

/-- Modelled from the spec: `PatcherError`, the last recorded error (code and the file
it names); `PatcherError::createXmlError (code, path)` is `⟨code, path⟩`. -/
structure PatcherError where
  code : ErrorCode := ErrorCode.NoError
  filename : String := ""
deriving DecidableEq, Repr

/-! ## Registry state (`PatcherPaths::Impl`) -/

/-- The class `PatcherPaths::Impl` (lines 53-99): the data members. -/
structure Impl where
  binariesDir : String := ""
  dataDir : String := ""
  initsDir : String := ""
  patchesDir : String := ""
  patchInfosDir : String := ""
  scriptsDir : String := ""
  version : String := ""
  devices : List Device := []
  patchinfoIncludeDirs : List String := []
  patchInfos : List PatchInfo := []
  partConfigs : List PartitionConfig := []
  loadedConfig : Bool := false
  error : PatcherError := {}
deriving DecidableEq, Repr

/-- The call `boost::starts_with (input, test)`: `test` is a leading segment of `input`. -/
def starts_with (input test : String) : Bool :=
  test.data.isPrefixOf input.data

/-! ## Applicability filtering and matching (lines 297-355) -/

/-- Lines 307-312: the loop over `patchinfoIncludeDirs` for one descriptor; `true`
when the descriptor was pushed (the loop then breaks). -/
def includeDirsLoop (info : PatchInfo) : List String → Bool
  | [] => false
  | includeDir :: rest =>
    if starts_with info.id includeDir then true else includeDirsLoop info rest

/-- Lines 301-313: the loop over the registry's descriptors, appending to `l`. -/
def patchInfosLoop (device : Device) (includeDirs : List String) :
    List PatchInfo → List PatchInfo → List PatchInfo
  | [], l => l
  | info :: rest, l =>
    if starts_with info.id device.codename then
      patchInfosLoop device includeDirs rest (l ++ [info])
    else if includeDirsLoop info includeDirs then
      patchInfosLoop device includeDirs rest (l ++ [info])
    else
      patchInfosLoop device includeDirs rest l

/-- The method `PatcherPaths::patchInfos (const Device *)` (lines 297-316). -/
def patchInfos (impl : Impl) (device : Device) : List PatchInfo :=
  patchInfosLoop device impl.patchinfoIncludeDirs impl.patchInfos []

/-- How a piece of the matching code ends: it yields a value, or the exception
`boost::regex_error` leaves it. `findMatchingPatchInfo` has no `try` block, so an
exception raised at line 333 or 339 leaves every enclosing loop and the method. -/
inductive Outcome (α : Type) where
  | returned : α → Outcome α
  | regex_error : Outcome α
deriving DecidableEq, Repr

/-- Lines 338-343: the loop over the exclusion regexes; the value is `skipCurInfo`.
`regex_search s p` is the expression `boost::regex_search (s, boost::regex (p))` of
line 339, which raises when `p` is not a well-formed pattern. -/
def excludeLoop (regex_search : String → String → Outcome Bool) (noPath : String) :
    List String → Outcome Bool
  | [] => Outcome.returned false
  | excludeRegex :: rest =>
    match regex_search noPath excludeRegex with
    | Outcome.regex_error => Outcome.regex_error
    | Outcome.returned true => Outcome.returned true
    | Outcome.returned false => excludeLoop regex_search noPath rest

/-- Lines 332-351: the loop over `info->regexes ()`. `returned (some info)` is
`return info`; `returned none` is leaving the loop, at its end or through the `break`
of line 346 (`skipCurInfo`); `regex_error` is the exception of line 333 or 339. -/
def regexLoop (regex_search : String → String → Outcome Bool) (noPath : String)
    (info : PatchInfo) : List String → Outcome (Option PatchInfo)
  | [] => Outcome.returned none
  | regex :: rest =>
    match regex_search noPath regex with
    | Outcome.regex_error => Outcome.regex_error
    | Outcome.returned true =>
      match excludeLoop regex_search noPath info.excludeRegexes with
      | Outcome.regex_error => Outcome.regex_error
      | Outcome.returned true => Outcome.returned none
      | Outcome.returned false => Outcome.returned (some info)
    | Outcome.returned false => regexLoop regex_search noPath info rest

/-- Lines 331-354: the loop over `patchInfos (device)`; `returned none` is
`return nullptr`. -/
def infoLoop (regex_search : String → String → Outcome Bool) (noPath : String) :
    List PatchInfo → Outcome (Option PatchInfo)
  | [] => Outcome.returned none
  | info :: rest =>
    match regexLoop regex_search noPath info info.regexes with
    | Outcome.regex_error => Outcome.regex_error
    | Outcome.returned (some found) => Outcome.returned (some found)
    | Outcome.returned none => infoLoop regex_search noPath rest

/-- The method `PatcherPaths::findMatchingPatchInfo` (lines 318-355). `regex_search s p`
is `boost::regex_search (s, boost::regex (p))`, with `regex_error` when the pattern is
malformed, and `filename p` is `boost::filesystem::path (p).filename ().string ()`. -/
def findMatchingPatchInfo (regex_search : String → String → Outcome Bool)
    (filename : String → String) (impl : Impl) (device : Option Device)
    (fileName : String) : Outcome (Option PatchInfo) :=
  match device with
  | none => Outcome.returned none
  | some dev =>
    if fileName = "" then Outcome.returned none
    else
      let noPath := filename fileName
      infoLoop regex_search noPath (patchInfos impl dev)

/-! ### The matching procedure as section 4.2 of the specification words it -/

/-- Section 4.2, one descriptor: for a selection regex that searches the base name the
exclusion regexes are checked in declared order, and on a veto the search "continues
with the next selection regex (not the next descriptor, unless all its selection
regexes are exhausted)". A pattern is compiled when it is tried, as in the code. -/
def specRegexLoop (regex_search : String → String → Outcome Bool) (noPath : String)
    (info : PatchInfo) : List String → Outcome (Option PatchInfo)
  | [] => Outcome.returned none
  | regex :: rest =>
    match regex_search noPath regex with
    | Outcome.regex_error => Outcome.regex_error
    | Outcome.returned true =>
      match excludeLoop regex_search noPath info.excludeRegexes with
      | Outcome.regex_error => Outcome.regex_error
      | Outcome.returned true => specRegexLoop regex_search noPath info rest
      | Outcome.returned false => Outcome.returned (some info)
    | Outcome.returned false => specRegexLoop regex_search noPath info rest

/-- Section 4.2: iterate the applicable descriptors in registry order. -/
def specInfoLoop (regex_search : String → String → Outcome Bool) (noPath : String) :
    List PatchInfo → Outcome (Option PatchInfo)
  | [] => Outcome.returned none
  | info :: rest =>
    match specRegexLoop regex_search noPath info info.regexes with
    | Outcome.regex_error => Outcome.regex_error
    | Outcome.returned (some found) => Outcome.returned (some found)
    | Outcome.returned none => specInfoLoop regex_search noPath rest

/-- Section 4.2, `findMatchingDescriptor (device, fileName)` as the specification
describes it, over the same applicable descriptors. -/
def specFindMatchingDescriptor (regex_search : String → String → Outcome Bool)
    (filename : String → String) (impl : Impl) (device : Option Device)
    (fileName : String) : Outcome (Option PatchInfo) :=
  match device with
  | none => Outcome.returned none
  | some dev =>
    if fileName = "" then Outcome.returned none
    else specInfoLoop regex_search (filename fileName) (patchInfos impl dev)

/-- Whether a descriptor is selected for a base name: some selection regex searches
it and no exclusion regex does. -/
def selects (regex_search : String → String → Outcome Bool) (noPath : String)
    (info : PatchInfo) : Bool :=
  info.regexes.any (fun r => decide (regex_search noPath r = Outcome.returned true)) &&
    !info.excludeRegexes.any (fun e => decide (regex_search noPath e = Outcome.returned true))

/-- Whether every selection and exclusion regex of a descriptor is a pattern that
`boost::regex` compiles, so that no comparison against the base name raises. -/
def wellFormedPatterns (regex_search : String → String → Outcome Bool) (noPath : String)
    (info : PatchInfo) : Prop :=
  (∀ r ∈ info.regexes, regex_search noPath r ≠ Outcome.regex_error) ∧
    ∀ e ∈ info.excludeRegexes, regex_search noPath e ≠ Outcome.regex_error

/-! ## Construction (lines 139-148, 357-429) -/

/-- The method `PatcherPaths::loadDefaultDevices` (lines 357-418): the seven built-in
devices are appended to the device list. -/
def loadDefaultDevices (impl : Impl) : Impl :=
  let jflte : Device :=
    (((({ codename := "jflte", name := "Samsung Galaxy S 4",
          selinux := Selinux.SelinuxPermissive } : Device).setPartition
        PartitionRole.SystemPartition "mmcblk0p16").setPartition
        PartitionRole.CachePartition "mmcblk0p18").setPartition
        PartitionRole.DataPartition "mmcblk0p29")
  let klte : Device :=
    (((({ codename := "klte", name := "Samsung Galaxy S 5",
          selinux := Selinux.SelinuxPermissive } : Device).setPartition
        PartitionRole.SystemPartition "mmcblk0p23").setPartition
        PartitionRole.CachePartition "mmcblk0p24").setPartition
        PartitionRole.DataPartition "mmcblk0p26")
  let hlte : Device :=
    (((({ codename := "hlte", name := "Samsung Galaxy Note 3",
          selinux := Selinux.SelinuxPermissive } : Device).setPartition
        PartitionRole.SystemPartition "mmcblk0p23").setPartition
        PartitionRole.CachePartition "mmcblk0p24").setPartition
        PartitionRole.DataPartition "mmcblk0p26")
  let hammerhead : Device :=
    { codename := "hammerhead", name := "Google/LG Nexus 5",
      selinux := Selinux.SelinuxUnchanged }
  let bacon : Device :=
    { codename := "bacon", name := "OnePlus One", selinux := Selinux.SelinuxUnchanged }
  let d800 : Device :=
    { codename := "d800", name := "LG G2", selinux := Selinux.SelinuxUnchanged }
  let falcon : Device :=
    { codename := "falcon", name := "Motorola Moto G", selinux := Selinux.SelinuxUnchanged }
  { impl with devices := impl.devices ++ [jflte, klte, hlte, hammerhead, bacon, d800, falcon] }

/-- The method `PatcherPaths::loadDefaultPatchers` (lines 420-429). `configs1` and
`configs2` are what `MultiBootPatcher::partConfigs ()` and
`PrimaryUpgradePatcher::partConfigs ()` return. -/
def loadDefaultPatchers (configs1 configs2 : List PartitionConfig) (impl : Impl) : Impl :=
  { impl with partConfigs := (impl.partConfigs ++ configs1) ++ configs2 }

/-- The constructor `PatcherPaths::PatcherPaths` (lines 139-148) on a fresh `Impl`;
`libdbpVersion` is the value of the build macro `LIBDBP_VERSION`. -/
def new (libdbpVersion : String) (configs1 configs2 : List PartitionConfig) : Impl :=
  let impl := loadDefaultPatchers configs1 configs2 (loadDefaultDevices {})
  let impl := { impl with patchinfoIncludeDirs := impl.patchinfoIncludeDirs ++ ["Google_Apps"] }
  let impl := { impl with patchinfoIncludeDirs := impl.patchinfoIncludeDirs ++ ["Other"] }
  { impl with version := libdbpVersion }

/-! ## Description-file trees (`libxml/tree.h`) -/

/-- The node kinds of `xmlElementType` that the loader tells apart; every other kind
(comment, CDATA section, processing instruction, ...) is `XML_OTHER_NODE`. -/
inductive xmlElementType where
  | XML_ELEMENT_NODE
  | XML_TEXT_NODE
  | XML_OTHER_NODE
deriving DecidableEq, Repr

/-- A node of a parsed document (`xmlNode`): kind, name, content (a pointer that may
be null), attributes in document order (`properties`), and the `children` chain. -/
inductive xmlNode where
  | mk (type : xmlElementType) (name : String) (content : Option String)
      (properties : List (String × String)) (children : List xmlNode)

/-- The field `node->type`. -/
def xmlNode.type : xmlNode → xmlElementType
  | mk t _ _ _ _ => t

/-- The field `node->name`. -/
def xmlNode.name : xmlNode → String
  | mk _ n _ _ _ => n

/-- The field `node->content`. -/
def xmlNode.content : xmlNode → Option String
  | mk _ _ c _ _ => c

/-- The field `node->properties`. -/
def xmlNode.properties : xmlNode → List (String × String)
  | mk _ _ _ p _ => p

/-- The chain `node->children`, `->next`, ... as a list. -/
def xmlNode.children : xmlNode → List xmlNode
  | mk _ _ _ _ c => c

/-- The function `xmlStringToStdString` (lines 675-681). -/
def xmlStringToStdString (xmlString : Option String) : String :=
  match xmlString with
  | some s => s
  | none => ""

/-- A text node with the given content. -/
def textNode (content : String) : xmlNode :=
  xmlNode.mk xmlElementType.XML_TEXT_NODE "text" (some content) [] []

/-- An element `<tag>text</tag>` without attributes: its only child is one text node. -/
def textElement (tag text : String) : xmlNode :=
  xmlNode.mk xmlElementType.XML_ELEMENT_NODE tag none [] [textNode text]

/-! ## Tag names (lines 117-137) -/

/-- Line 117. -/
def PatchInfoTagPatchinfo : String := "patchinfo"
/-- Line 118. -/
def PatchInfoTagMatches : String := "matches"
/-- Line 119. -/
def PatchInfoTagNotMatched : String := "not-matched"
/-- Line 120. -/
def PatchInfoTagName : String := "name"
/-- Line 121. -/
def PatchInfoTagRegex : String := "regex"
/-- Line 122. -/
def PatchInfoTagExcludeRegex : String := "exclude-regex"
/-- Line 123. -/
def PatchInfoTagRegexes : String := "regexes"
/-- Line 124. -/
def PatchInfoTagHasBootImage : String := "has-boot-image"
/-- Line 125. -/
def PatchInfoTagRamdisk : String := "ramdisk"
/-- Line 126. -/
def PatchInfoTagPatchedInit : String := "patched-init"
/-- Line 127. -/
def PatchInfoTagAutopatchers : String := "autopatchers"
/-- Line 128. -/
def PatchInfoTagAutopatcher : String := "autopatcher"
/-- Line 129. -/
def PatchInfoTagDeviceCheck : String := "device-check"
/-- Line 130. -/
def PatchInfoTagPartconfigs : String := "partconfigs"
/-- Line 131. -/
def PatchInfoTagInclude : String := "include"
/-- Line 132. -/
def PatchInfoTagExclude : String := "exclude"
/-- Line 134. -/
def PatchInfoAttrRegex : String := "regex"
/-- Line 136. -/
def XmlTextTrue : String := "true"
/-- Line 137. -/
def XmlTextFalse : String := "false"

/-! ## Partition-config tokens (lines 1054-1158) -/

/-- Lines 1098-1113, the body of the loop of `parsePatchInfoTagExclude` on the local
vector `configs`: `std::find` and `erase` of the first `text`, then of the first
`negated`, then `push_back (negated)`. -/
def excludeTokens (text : String) (configs : List String) : List String :=
  let negated := "!" ++ text
  let configs := configs.erase text
  let configs := configs.erase negated
  configs ++ [negated]

/-- Lines 1136-1151, the body of the loop of `parsePatchInfoTagInclude` on the local
vector `configs`; the last step is `push_back (text)`. -/
def includeTokens (text : String) (configs : List String) : List String :=
  let negated := "!" ++ text
  let configs := configs.erase text
  let configs := configs.erase negated
  configs ++ [text]

/-- The method `PatcherPaths::Impl::parsePatchInfoTagExclude` (lines 1084-1120): one
step for each text-node child. -/
def parsePatchInfoTagExclude (node : xmlNode) (info : PatchInfo) (type : String) :
    PatchInfo :=
  node.children.foldl (fun info curNode =>
    if curNode.type ≠ xmlElementType.XML_TEXT_NODE then info
    else
      let text := xmlStringToStdString curNode.content
      info.setSupportedConfigs type (excludeTokens text (info.supportedConfigs type))) info

/-- The method `PatcherPaths::Impl::parsePatchInfoTagInclude` (lines 1122-1158). -/
def parsePatchInfoTagInclude (node : xmlNode) (info : PatchInfo) (type : String) :
    PatchInfo :=
  node.children.foldl (fun info curNode =>
    if curNode.type ≠ xmlElementType.XML_TEXT_NODE then info
    else
      let text := xmlStringToStdString curNode.content
      info.setSupportedConfigs type (includeTokens text (info.supportedConfigs type))) info

/-- Lines 1060-1063 of `parsePatchInfoTagPartconfigs` on the local vector `configs`:
an empty sequence is seeded with `all`. -/
def seedTokens (configs : List String) : List String :=
  if configs.isEmpty then configs ++ ["all"] else configs

/-- The method `PatcherPaths::Impl::parsePatchInfoTagPartconfigs` (lines 1054-1082). -/
def parsePatchInfoTagPartconfigs (node : xmlNode) (info : PatchInfo) (type : String) :
    PatchInfo :=
  let info := info.setSupportedConfigs type (seedTokens (info.supportedConfigs type))
  node.children.foldl (fun info curNode =>
    if curNode.type ≠ xmlElementType.XML_ELEMENT_NODE then info
    else if curNode.name = PatchInfoTagPartconfigs then info
    else if curNode.name = PatchInfoTagExclude then parsePatchInfoTagExclude curNode info type
    else if curNode.name = PatchInfoTagInclude then parsePatchInfoTagInclude curNode info type
    else info) info

/-- The token sequences that the loader can have built for one bundle: the empty
sequence of a new `PatchInfo`, and what seeding (a partition-config list tag), an
exclude step and an include step make of such a sequence. -/
inductive LoaderTokens : List String → Prop where
  | fresh : LoaderTokens []
  | seed {configs : List String} :
      LoaderTokens configs → LoaderTokens (seedTokens configs)
  | excludeStep (text : String) {configs : List String} :
      LoaderTokens configs → LoaderTokens (excludeTokens text configs)
  | includeStep (text : String) {configs : List String} :
      LoaderTokens configs → LoaderTokens (includeTokens text configs)

/-! ## Component factory (lines 431-563) -/

/-- The `Id` and `Name` constants of the patcher classes (`MultiBootPatcher::Id`,
`MultiBootPatcher::Name`, ...). Their headers are not among the sources, so the
values are parameters of the factory. -/
structure PatcherConstants where
  MultiBootPatcher_Id : String
  MultiBootPatcher_Name : String
  PrimaryUpgradePatcher_Id : String
  PrimaryUpgradePatcher_Name : String
  SyncdaemonUpdatePatcher_Id : String
  SyncdaemonUpdatePatcher_Name : String
  JflteDalvikCachePatcher_Id : String
  JflteGoogleEditionPatcher_Id : String
  JflteSlimAromaBundledMount_Id : String
  JflteImperiumPatcher_Id : String
  JflteNegaliteNoWipeData_Id : String
  JflteTriForceFixAroma_Id : String
  JflteTriForceFixUpdate_Id : String
  NoobdevMultiBoot_Id : String
  NoobdevSystemProp_Id : String
  PatchFilePatcher_Id : String
  StandardPatcher_Id : String
  BaconRamdiskPatcher_Id : String
  D800RamdiskPatcher_Id : String
  FalconRamdiskPatcher_Id : String
  HammerheadAOSPRamdiskPatcher_Id : String
  HammerheadNoobdevRamdiskPatcher_Id : String
  HlteAOSPRamdiskPatcher_Id : String
  JflteAOSPRamdiskPatcher_Id : String
  JflteGoogleEditionRamdiskPatcher_Id : String
  JflteNoobdevRamdiskPatcher_Id : String
  JflteTouchWizRamdiskPatcher_Id : String
  KlteAOSPRamdiskPatcher_Id : String
  KlteTouchWizRamdiskPatcher_Id : String
deriving DecidableEq, Repr

/-- What a non-empty `std::shared_ptr<Patcher>` of `createPatcher` points to: the
class constructed and its constructor argument (`this`, the registry). -/
inductive Patcher where
  | MultiBootPatcher (pp : Impl)
  | PrimaryUpgradePatcher (pp : Impl)
  | SyncdaemonUpdatePatcher (pp : Impl)
deriving DecidableEq, Repr

/-- What a non-empty `std::shared_ptr<AutoPatcher>` points to; `FileInfo` is the
caller's file context. -/
inductive AutoPatcher (FileInfo : Type) where
  | JflteDalvikCachePatcher (pp : Impl) (info : FileInfo)
  | JflteGoogleEditionPatcher (pp : Impl) (info : FileInfo)
  | JflteSlimAromaBundledMount (pp : Impl) (info : FileInfo)
  | JflteImperiumPatcher (pp : Impl) (info : FileInfo)
  | JflteNegaliteNoWipeData (pp : Impl) (info : FileInfo)
  | JflteTriForceFixAroma (pp : Impl) (info : FileInfo)
  | JflteTriForceFixUpdate (pp : Impl) (info : FileInfo)
  | NoobdevMultiBoot (pp : Impl) (info : FileInfo)
  | NoobdevSystemProp (pp : Impl) (info : FileInfo)
  | PatchFilePatcher (pp : Impl) (info : FileInfo) (args : AutoPatcherArgs)
  | StandardPatcher (pp : Impl) (info : FileInfo) (args : AutoPatcherArgs)
deriving DecidableEq, Repr

/-- What a non-empty `std::shared_ptr<RamdiskPatcher>` points to; `CpioFile` is the
caller's archive handle. -/
inductive RamdiskPatcher (FileInfo CpioFile : Type) where
  | BaconRamdiskPatcher (pp : Impl) (info : FileInfo) (cpio : CpioFile)
  | D800RamdiskPatcher (pp : Impl) (info : FileInfo) (cpio : CpioFile)
  | FalconRamdiskPatcher (pp : Impl) (info : FileInfo) (cpio : CpioFile)
  | HammerheadAOSPRamdiskPatcher (pp : Impl) (info : FileInfo) (cpio : CpioFile)
  | HammerheadNoobdevRamdiskPatcher (pp : Impl) (info : FileInfo) (cpio : CpioFile)
  | HlteAOSPRamdiskPatcher (pp : Impl) (info : FileInfo) (cpio : CpioFile)
  | JflteAOSPRamdiskPatcher (pp : Impl) (info : FileInfo) (cpio : CpioFile)
  | JflteGoogleEditionRamdiskPatcher (pp : Impl) (info : FileInfo) (cpio : CpioFile)
  | JflteNoobdevRamdiskPatcher (pp : Impl) (info : FileInfo) (cpio : CpioFile)
  | JflteTouchWizRamdiskPatcher (pp : Impl) (info : FileInfo) (cpio : CpioFile)
  | KlteAOSPRamdiskPatcher (pp : Impl) (info : FileInfo) (cpio : CpioFile)
  | KlteTouchWizRamdiskPatcher (pp : Impl) (info : FileInfo) (cpio : CpioFile)
deriving DecidableEq, Repr

/-- The method `PatcherPaths::patchers` (lines 431-438). -/
def patchers (K : PatcherConstants) : List String :=
  [K.MultiBootPatcher_Id, K.PrimaryUpgradePatcher_Id, K.SyncdaemonUpdatePatcher_Id]

/-- The method `PatcherPaths::autoPatchers` (lines 440-455). -/
def autoPatchers (K : PatcherConstants) : List String :=
  [K.JflteDalvikCachePatcher_Id, K.JflteGoogleEditionPatcher_Id,
    K.JflteSlimAromaBundledMount_Id, K.JflteImperiumPatcher_Id,
    K.JflteNegaliteNoWipeData_Id, K.JflteTriForceFixAroma_Id,
    K.JflteTriForceFixUpdate_Id, K.NoobdevMultiBoot_Id, K.NoobdevSystemProp_Id,
    K.PatchFilePatcher_Id, K.StandardPatcher_Id]

/-- The method `PatcherPaths::ramdiskPatchers` (lines 457-473). -/
def ramdiskPatchers (K : PatcherConstants) : List String :=
  [K.BaconRamdiskPatcher_Id, K.D800RamdiskPatcher_Id, K.FalconRamdiskPatcher_Id,
    K.HammerheadAOSPRamdiskPatcher_Id, K.HammerheadNoobdevRamdiskPatcher_Id,
    K.HlteAOSPRamdiskPatcher_Id, K.JflteAOSPRamdiskPatcher_Id,
    K.JflteGoogleEditionRamdiskPatcher_Id, K.JflteNoobdevRamdiskPatcher_Id,
    K.JflteTouchWizRamdiskPatcher_Id, K.KlteAOSPRamdiskPatcher_Id,
    K.KlteTouchWizRamdiskPatcher_Id]

/-- The method `PatcherPaths::createPatcher` (lines 475-486); `none` is the empty
`shared_ptr` of line 485. -/
def createPatcher (K : PatcherConstants) (pp : Impl) (id : String) : Option Patcher :=
  if id = K.MultiBootPatcher_Id then some (Patcher.MultiBootPatcher pp)
  else if id = K.PrimaryUpgradePatcher_Id then some (Patcher.PrimaryUpgradePatcher pp)
  else if id = K.SyncdaemonUpdatePatcher_Id then some (Patcher.SyncdaemonUpdatePatcher pp)
  else none

/-- The method `PatcherPaths::createAutoPatcher` (lines 488-517). -/
def createAutoPatcher {FileInfo : Type} (K : PatcherConstants) (pp : Impl) (id : String)
    (info : FileInfo) (args : AutoPatcherArgs) : Option (AutoPatcher FileInfo) :=
  if id = K.JflteDalvikCachePatcher_Id then
    some (AutoPatcher.JflteDalvikCachePatcher pp info)
  else if id = K.JflteGoogleEditionPatcher_Id then
    some (AutoPatcher.JflteGoogleEditionPatcher pp info)
  else if id = K.JflteSlimAromaBundledMount_Id then
    some (AutoPatcher.JflteSlimAromaBundledMount pp info)
  else if id = K.JflteImperiumPatcher_Id then
    some (AutoPatcher.JflteImperiumPatcher pp info)
  else if id = K.JflteNegaliteNoWipeData_Id then
    some (AutoPatcher.JflteNegaliteNoWipeData pp info)
  else if id = K.JflteTriForceFixAroma_Id then
    some (AutoPatcher.JflteTriForceFixAroma pp info)
  else if id = K.JflteTriForceFixUpdate_Id then
    some (AutoPatcher.JflteTriForceFixUpdate pp info)
  else if id = K.NoobdevMultiBoot_Id then
    some (AutoPatcher.NoobdevMultiBoot pp info)
  else if id = K.NoobdevSystemProp_Id then
    some (AutoPatcher.NoobdevSystemProp pp info)
  else if id = K.PatchFilePatcher_Id then
    some (AutoPatcher.PatchFilePatcher pp info args)
  else if id = K.StandardPatcher_Id then
    some (AutoPatcher.StandardPatcher pp info args)
  else none

/-- The method `PatcherPaths::createRamdiskPatcher` (lines 519-550). -/
def createRamdiskPatcher {FileInfo CpioFile : Type} (K : PatcherConstants) (pp : Impl)
    (id : String) (info : FileInfo) (cpio : CpioFile) :
    Option (RamdiskPatcher FileInfo CpioFile) :=
  if id = K.BaconRamdiskPatcher_Id then
    some (RamdiskPatcher.BaconRamdiskPatcher pp info cpio)
  else if id = K.D800RamdiskPatcher_Id then
    some (RamdiskPatcher.D800RamdiskPatcher pp info cpio)
  else if id = K.FalconRamdiskPatcher_Id then
    some (RamdiskPatcher.FalconRamdiskPatcher pp info cpio)
  else if id = K.HammerheadAOSPRamdiskPatcher_Id then
    some (RamdiskPatcher.HammerheadAOSPRamdiskPatcher pp info cpio)
  else if id = K.HammerheadNoobdevRamdiskPatcher_Id then
    some (RamdiskPatcher.HammerheadNoobdevRamdiskPatcher pp info cpio)
  else if id = K.HlteAOSPRamdiskPatcher_Id then
    some (RamdiskPatcher.HlteAOSPRamdiskPatcher pp info cpio)
  else if id = K.JflteAOSPRamdiskPatcher_Id then
    some (RamdiskPatcher.JflteAOSPRamdiskPatcher pp info cpio)
  else if id = K.JflteGoogleEditionRamdiskPatcher_Id then
    some (RamdiskPatcher.JflteGoogleEditionRamdiskPatcher pp info cpio)
  else if id = K.JflteNoobdevRamdiskPatcher_Id then
    some (RamdiskPatcher.JflteNoobdevRamdiskPatcher pp info cpio)
  else if id = K.JflteTouchWizRamdiskPatcher_Id then
    some (RamdiskPatcher.JflteTouchWizRamdiskPatcher pp info cpio)
  else if id = K.KlteAOSPRamdiskPatcher_Id then
    some (RamdiskPatcher.KlteAOSPRamdiskPatcher pp info cpio)
  else if id = K.KlteTouchWizRamdiskPatcher_Id then
    some (RamdiskPatcher.KlteTouchWizRamdiskPatcher pp info cpio)
  else none

/-- The method `PatcherPaths::patcherName` (lines 552-563). -/
def patcherName (K : PatcherConstants) (id : String) : String :=
  if id = K.MultiBootPatcher_Id then K.MultiBootPatcher_Name
  else if id = K.PrimaryUpgradePatcher_Id then K.PrimaryUpgradePatcher_Name
  else if id = K.SyncdaemonUpdatePatcher_Id then K.SyncdaemonUpdatePatcher_Name
  else ""

/-! ## Directory configuration, reset and lookups (lines 102-106, 176-290, 565-579) -/

/-- Line 102. -/
def BinariesDirName : String := "binaries"
/-- Line 103. -/
def InitsDirName : String := "inits"
/-- Line 104. -/
def PatchesDirName : String := "patches"
/-- Line 105. -/
def PatchInfosDirName : String := "patchinfos"
/-- Line 106. -/
def ScriptsDirName : String := "scripts"

/-- The method `PatcherPaths::dataDirectory` (lines 185-188). -/
def dataDirectory (impl : Impl) : String :=
  impl.dataDir

/-- The method `PatcherPaths::binariesDirectory` (lines 176-183). -/
def binariesDirectory (impl : Impl) : String :=
  if impl.binariesDir = "" then dataDirectory impl ++ "/" ++ BinariesDirName
  else impl.binariesDir

/-- The method `PatcherPaths::initsDirectory` (lines 190-197). -/
def initsDirectory (impl : Impl) : String :=
  if impl.initsDir = "" then dataDirectory impl ++ "/" ++ InitsDirName
  else impl.initsDir

/-- The method `PatcherPaths::patchesDirectory` (lines 199-206). -/
def patchesDirectory (impl : Impl) : String :=
  if impl.patchesDir = "" then dataDirectory impl ++ "/" ++ PatchesDirName
  else impl.patchesDir

/-- The method `PatcherPaths::patchInfosDirectory` (lines 208-215). -/
def patchInfosDirectory (impl : Impl) : String :=
  if impl.patchInfosDir = "" then dataDirectory impl ++ "/" ++ PatchInfosDirName
  else impl.patchInfosDir

/-- The method `PatcherPaths::scriptsDirectory` (lines 217-224). -/
def scriptsDirectory (impl : Impl) : String :=
  if impl.scriptsDir = "" then dataDirectory impl ++ "/" ++ ScriptsDirName
  else impl.scriptsDir

/-- The method `PatcherPaths::setBinariesDirectory` (lines 226-229). -/
def setBinariesDirectory (impl : Impl) (path : String) : Impl :=
  { impl with binariesDir := path }

/-- The method `PatcherPaths::setDataDirectory` (lines 231-234). -/
def setDataDirectory (impl : Impl) (path : String) : Impl :=
  { impl with dataDir := path }

/-- The method `PatcherPaths::setInitsDirectory` (lines 236-239). -/
def setInitsDirectory (impl : Impl) (path : String) : Impl :=
  { impl with initsDir := path }

/-- The method `PatcherPaths::setPatchesDirectory` (lines 241-244). -/
def setPatchesDirectory (impl : Impl) (path : String) : Impl :=
  { impl with patchesDir := path }

/-- The method `PatcherPaths::setPatchInfosDirectory` (lines 246-249). -/
def setPatchInfosDirectory (impl : Impl) (path : String) : Impl :=
  { impl with patchInfosDir := path }

/-- The method `PatcherPaths::setScriptsDirectory` (lines 251-254). -/
def setScriptsDirectory (impl : Impl) (path : String) : Impl :=
  { impl with scriptsDir := path }

/-- The method `PatcherPaths::reset` (lines 256-269): `dataDir`, `initsDir`,
`patchesDir` and `patchInfosDir` are cleared, the devices are deleted and the device
list is cleared. No other member is written. -/
def reset (impl : Impl) : Impl :=
  { impl with
    dataDir := ""
    initsDir := ""
    patchesDir := ""
    patchInfosDir := ""
    devices := [] }

/-- Lines 283-289: the loop of `deviceFromCodename`; `none` is `return nullptr`. -/
def deviceFromCodenameLoop (codename : String) : List Device → Option Device
  | [] => none
  | device :: rest =>
    if device.codename = codename then some device
    else deviceFromCodenameLoop codename rest

/-- The method `PatcherPaths::deviceFromCodename` (lines 281-290). -/
def deviceFromCodename (impl : Impl) (codename : String) : Option Device :=
  deviceFromCodenameLoop codename impl.devices

/-- Lines 572-578: the loop of `partitionConfig`; `none` is `return nullptr`. -/
def partitionConfigLoop (id : String) : List PartitionConfig → Option PartitionConfig
  | [] => none
  | config :: rest =>
    if config.id = id then some config
    else partitionConfigLoop id rest

/-- The method `PatcherPaths::partitionConfig` (lines 570-579). -/
def partitionConfig (impl : Impl) (id : String) : Option PartitionConfig :=
  partitionConfigLoop id impl.partConfigs

/-! ## Descriptor accessors used by the loader (`patchinfo.h`) -/

/-- The values of the constants `PatchInfo::Default` and `PatchInfo::NotMatched`, the
type tags of the default and of the fallback bundle. Their header is not among the
sources, so the values are parameters of the loader. -/
structure PatchInfoKeys where
  Default : String
  NotMatched : String
deriving DecidableEq, Repr

/-- Modelled from the spec: `PatchInfo::setId`. -/
def PatchInfo.setId (info : PatchInfo) (id : String) : PatchInfo :=
  { info with id := id }

/-- Modelled from the spec: `PatchInfo::setName`. -/
def PatchInfo.setName (info : PatchInfo) (name : String) : PatchInfo :=
  { info with name := name }

/-- Modelled from the spec: `PatchInfo::setRegexes`. -/
def PatchInfo.setRegexes (info : PatchInfo) (regexes : List String) : PatchInfo :=
  { info with regexes := regexes }

/-- Modelled from the spec: `PatchInfo::setExcludeRegexes`. -/
def PatchInfo.setExcludeRegexes (info : PatchInfo) (regexes : List String) : PatchInfo :=
  { info with excludeRegexes := regexes }

/-- Modelled from the spec: `PatchInfo::condRegexes` (patchinfo.cpp is not among the
sources). The Patch Descriptor of the specification holds a selection-regex and an
exclusion-regex sequence and no third one, and the regex of an override-by-match tag
"is also appended to the descriptor's selection-regex sequence": the sequence this
accessor reads, and `setCondRegexes` writes, is the selection-regex sequence. -/
def PatchInfo.condRegexes (info : PatchInfo) : List String :=
  info.regexes

/-- Modelled from the spec: `PatchInfo::setCondRegexes`, the writer of the sequence
`PatchInfo.condRegexes` reads. -/
def PatchInfo.setCondRegexes (info : PatchInfo) (regexes : List String) : PatchInfo :=
  { info with regexes := regexes }

/-- Modelled from the spec: `PatchInfo::setHasNotMatched`. -/
def PatchInfo.setHasNotMatched (info : PatchInfo) (b : Bool) : PatchInfo :=
  { info with hasNotMatched := b }

/-- Modelled from the spec: `PatchInfo::setHasBootImage (type, b)`. -/
def PatchInfo.setHasBootImage (info : PatchInfo) (type : String) (b : Bool) : PatchInfo :=
  { info with hasBootImageMap := mapSet info.hasBootImageMap type b }

/-- Modelled from the spec: `PatchInfo::ramdisk (type)`, empty when unset. -/
def PatchInfo.ramdisk (info : PatchInfo) (type : String) : String :=
  mapGet info.ramdiskMap type ""

/-- Modelled from the spec: `PatchInfo::setRamdisk (type, ramdisk)`. -/
def PatchInfo.setRamdisk (info : PatchInfo) (type : String) (ramdisk : String) : PatchInfo :=
  { info with ramdiskMap := mapSet info.ramdiskMap type ramdisk }

/-- Modelled from the spec: `PatchInfo::patchedInit (type)`, empty when unset. -/
def PatchInfo.patchedInit (info : PatchInfo) (type : String) : String :=
  mapGet info.patchedInitMap type ""

/-- Modelled from the spec: `PatchInfo::setPatchedInit (type, init)`. -/
def PatchInfo.setPatchedInit (info : PatchInfo) (type : String) (init : String) : PatchInfo :=
  { info with patchedInitMap := mapSet info.patchedInitMap type init }

/-- Modelled from the spec: `PatchInfo::autoPatchers (type)`, empty when unset. -/
def PatchInfo.autoPatchers (info : PatchInfo) (type : String) : AutoPatcherItems :=
  mapGet info.autoPatchersMap type []

/-- Modelled from the spec: `PatchInfo::setAutoPatchers (type, aps)`. -/
def PatchInfo.setAutoPatchers (info : PatchInfo) (type : String) (aps : AutoPatcherItems) :
    PatchInfo :=
  { info with autoPatchersMap := mapSet info.autoPatchersMap type aps }

/-- Modelled from the spec: `PatchInfo::setDeviceCheck (type, b)`. -/
def PatchInfo.setDeviceCheck (info : PatchInfo) (type : String) (b : Bool) : PatchInfo :=
  { info with deviceCheckMap := mapSet info.deviceCheckMap type b }

/-- The assignment `args[name] = value` on an argument mapping: the entry for `name`
is replaced, a new name is added after the others. -/
def argsInsert (args : AutoPatcherArgs) (name value : String) : AutoPatcherArgs :=
  if args.any (fun e => e.1 == name) then
    args.map (fun e => if e.1 == name then (name, value) else e)
  else args ++ [(name, value)]

/-- The call `xmlGetProp (node, name)`: the value of the attribute, `none` for `NULL`. -/
def xmlGetProp (node : xmlNode) (name : String) : Option String :=
  node.properties.lookup name

/-! ## Description-file parser (lines 683-1052) -/

/-- The method `PatcherPaths::Impl::parsePatchInfoTagName` (lines 801-823). -/
def parsePatchInfoTagName (node : xmlNode) (info : PatchInfo) : PatchInfo :=
  node.children.foldl (fun info curNode =>
    if curNode.type ≠ xmlElementType.XML_TEXT_NODE then info
    else if info.name = "" then info.setName (xmlStringToStdString curNode.content)
    else info) info

/-- The method `PatcherPaths::Impl::parsePatchInfoTagRegex` (lines 825-845). -/
def parsePatchInfoTagRegex (node : xmlNode) (info : PatchInfo) : PatchInfo :=
  node.children.foldl (fun info curNode =>
    if curNode.type ≠ xmlElementType.XML_TEXT_NODE then info
    else info.setRegexes (info.regexes ++ [xmlStringToStdString curNode.content])) info

/-- The method `PatcherPaths::Impl::parsePatchInfoTagExcludeRegex` (lines 847-867). -/
def parsePatchInfoTagExcludeRegex (node : xmlNode) (info : PatchInfo) : PatchInfo :=
  node.children.foldl (fun info curNode =>
    if curNode.type ≠ xmlElementType.XML_TEXT_NODE then info
    else
      info.setExcludeRegexes
        (info.excludeRegexes ++ [xmlStringToStdString curNode.content])) info

/-- The method `PatcherPaths::Impl::parsePatchInfoTagRegexes` (lines 869-890). -/
def parsePatchInfoTagRegexes (node : xmlNode) (info : PatchInfo) : PatchInfo :=
  node.children.foldl (fun info curNode =>
    if curNode.type ≠ xmlElementType.XML_ELEMENT_NODE then info
    else if curNode.name = PatchInfoTagRegexes then info
    else if curNode.name = PatchInfoTagRegex then parsePatchInfoTagRegex curNode info
    else if curNode.name = PatchInfoTagExcludeRegex then
      parsePatchInfoTagExcludeRegex curNode info
    else info) info

/-- The method `PatcherPaths::Impl::parsePatchInfoTagHasBootImage` (lines 892-918);
`xmlStrcmp` of a null content with a literal is non-zero. -/
def parsePatchInfoTagHasBootImage (node : xmlNode) (info : PatchInfo) (type : String) :
    PatchInfo :=
  node.children.foldl (fun info curNode =>
    if curNode.type ≠ xmlElementType.XML_TEXT_NODE then info
    else if curNode.content = some XmlTextTrue then info.setHasBootImage type true
    else if curNode.content = some XmlTextFalse then info.setHasBootImage type false
    else info) info

/-- The method `PatcherPaths::Impl::parsePatchInfoTagRamdisk` (lines 920-943). -/
def parsePatchInfoTagRamdisk (node : xmlNode) (info : PatchInfo) (type : String) :
    PatchInfo :=
  node.children.foldl (fun info curNode =>
    if curNode.type ≠ xmlElementType.XML_TEXT_NODE then info
    else if info.ramdisk type = "" then
      info.setRamdisk type (xmlStringToStdString curNode.content)
    else info) info

/-- The method `PatcherPaths::Impl::parsePatchInfoTagPatchedInit` (lines 945-968). -/
def parsePatchInfoTagPatchedInit (node : xmlNode) (info : PatchInfo) (type : String) :
    PatchInfo :=
  node.children.foldl (fun info curNode =>
    if curNode.type ≠ xmlElementType.XML_TEXT_NODE then info
    else if info.patchedInit type = "" then
      info.setPatchedInit type (xmlStringToStdString curNode.content)
    else info) info

/-- The method `PatcherPaths::Impl::parsePatchInfoTagAutopatcher` (lines 992-1024):
the attributes are collected into `args`, then every text-node child appends a pair. -/
def parsePatchInfoTagAutopatcher (node : xmlNode) (info : PatchInfo) (type : String) :
    PatchInfo :=
  let args : AutoPatcherArgs :=
    node.properties.foldl (fun args attr =>
      argsInsert args attr.1 (xmlStringToStdString (xmlGetProp node attr.1))) []
  node.children.foldl (fun info curNode =>
    if curNode.type ≠ xmlElementType.XML_TEXT_NODE then info
    else
      info.setAutoPatchers type
        (info.autoPatchers type ++ [(xmlStringToStdString curNode.content, args)])) info

/-- The method `PatcherPaths::Impl::parsePatchInfoTagAutopatchers` (lines 970-990). -/
def parsePatchInfoTagAutopatchers (node : xmlNode) (info : PatchInfo) (type : String) :
    PatchInfo :=
  node.children.foldl (fun info curNode =>
    if curNode.type ≠ xmlElementType.XML_ELEMENT_NODE then info
    else if curNode.name = PatchInfoTagAutopatchers then info
    else if curNode.name = PatchInfoTagAutopatcher then
      parsePatchInfoTagAutopatcher curNode info type
    else info) info

/-- The method `PatcherPaths::Impl::parsePatchInfoTagDeviceCheck` (lines 1026-1052). -/
def parsePatchInfoTagDeviceCheck (node : xmlNode) (info : PatchInfo) (type : String) :
    PatchInfo :=
  node.children.foldl (fun info curNode =>
    if curNode.type ≠ xmlElementType.XML_TEXT_NODE then info
    else if curNode.content = some XmlTextTrue then info.setDeviceCheck type true
    else if curNode.content = some XmlTextFalse then info.setDeviceCheck type false
    else info) info

/-- The method `PatcherPaths::Impl::parsePatchInfoTagMatches` (lines 724-766): without
a `regex` attribute the tag is left at once; with one, lines 738-740 append the regex
through `condRegexes ()` and `setCondRegexes ()`. -/
def parsePatchInfoTagMatches (node : xmlNode) (info : PatchInfo) : PatchInfo :=
  match xmlGetProp node PatchInfoAttrRegex with
  | none => info
  | some value =>
    let regex := value
    let info := info.setCondRegexes (info.condRegexes ++ [regex])
    node.children.foldl (fun info curNode =>
      if curNode.type ≠ xmlElementType.XML_ELEMENT_NODE then info
      else if curNode.name = PatchInfoTagMatches then info
      else if curNode.name = PatchInfoTagHasBootImage then
        parsePatchInfoTagHasBootImage curNode info regex
      else if curNode.name = PatchInfoTagRamdisk then
        parsePatchInfoTagRamdisk curNode info regex
      else if curNode.name = PatchInfoTagPatchedInit then
        parsePatchInfoTagPatchedInit curNode info regex
      else if curNode.name = PatchInfoTagAutopatchers then
        parsePatchInfoTagAutopatchers curNode info regex
      else if curNode.name = PatchInfoTagDeviceCheck then
        parsePatchInfoTagDeviceCheck curNode info regex
      else if curNode.name = PatchInfoTagPartconfigs then
        parsePatchInfoTagPartconfigs curNode info regex
      else info) info

/-- The method `PatcherPaths::Impl::parsePatchInfoTagNotMatched` (lines 768-799). -/
def parsePatchInfoTagNotMatched (keys : PatchInfoKeys) (node : xmlNode) (info : PatchInfo) :
    PatchInfo :=
  let info := info.setHasNotMatched true
  node.children.foldl (fun info curNode =>
    if curNode.type ≠ xmlElementType.XML_ELEMENT_NODE then info
    else if curNode.name = PatchInfoTagNotMatched then info
    else if curNode.name = PatchInfoTagHasBootImage then
      parsePatchInfoTagHasBootImage curNode info keys.NotMatched
    else if curNode.name = PatchInfoTagRamdisk then
      parsePatchInfoTagRamdisk curNode info keys.NotMatched
    else if curNode.name = PatchInfoTagPatchedInit then
      parsePatchInfoTagPatchedInit curNode info keys.NotMatched
    else if curNode.name = PatchInfoTagAutopatchers then
      parsePatchInfoTagAutopatchers curNode info keys.NotMatched
    else if curNode.name = PatchInfoTagDeviceCheck then
      parsePatchInfoTagDeviceCheck curNode info keys.NotMatched
    else if curNode.name = PatchInfoTagPartconfigs then
      parsePatchInfoTagPartconfigs curNode info keys.NotMatched
    else info) info

/-- The method `PatcherPaths::Impl::parsePatchInfoTagPatchinfo` (lines 683-722). -/
def parsePatchInfoTagPatchinfo (keys : PatchInfoKeys) (node : xmlNode) (info : PatchInfo) :
    PatchInfo :=
  node.children.foldl (fun info curNode =>
    if curNode.type ≠ xmlElementType.XML_ELEMENT_NODE then info
    else if curNode.name = PatchInfoTagPatchinfo then info
    else if curNode.name = PatchInfoTagMatches then parsePatchInfoTagMatches curNode info
    else if curNode.name = PatchInfoTagNotMatched then
      parsePatchInfoTagNotMatched keys curNode info
    else if curNode.name = PatchInfoTagName then parsePatchInfoTagName curNode info
    else if curNode.name = PatchInfoTagRegex then parsePatchInfoTagRegex curNode info
    else if curNode.name = PatchInfoTagRegexes then parsePatchInfoTagRegexes curNode info
    else if curNode.name = PatchInfoTagHasBootImage then
      parsePatchInfoTagHasBootImage curNode info keys.Default
    else if curNode.name = PatchInfoTagRamdisk then
      parsePatchInfoTagRamdisk curNode info keys.Default
    else if curNode.name = PatchInfoTagPatchedInit then
      parsePatchInfoTagPatchedInit curNode info keys.Default
    else if curNode.name = PatchInfoTagAutopatchers then
      parsePatchInfoTagAutopatchers curNode info keys.Default
    else if curNode.name = PatchInfoTagDeviceCheck then
      parsePatchInfoTagDeviceCheck curNode info keys.Default
    else if curNode.name = PatchInfoTagPartconfigs then
      parsePatchInfoTagPartconfigs curNode info keys.Default
    else info) info

/-! ## Descriptor loader (lines 607-673) -/

/-- A parsed document (`xmlDoc`), seen through the loop of `loadPatchInfoXml`: the
node `xmlDocGetRootElement (doc)` followed by its `next` siblings. -/
structure xmlDoc where
  rootChain : List xmlNode

/-- What a document that `xmlReadFile` accepts looks like from its root element on:
one element node, the root, followed only by nodes that are no elements (comments,
processing instructions). -/
def xmlDoc.wellFormed (doc : xmlDoc) : Bool :=
  match doc.rootChain with
  | [] => false
  | root :: misc =>
    decide (root.type = xmlElementType.XML_ELEMENT_NODE) &&
      misc.all (fun n => decide (n.type ≠ xmlElementType.XML_ELEMENT_NODE))

/-- Whether the root element of a parsed document is the `patchinfo` tag. -/
def rootIsPatchinfo (doc : Option xmlDoc) : Bool :=
  match doc with
  | none => false
  | some d =>
    match d.rootChain with
    | [] => false
    | root :: _ => decide (root.name = PatchInfoTagPatchinfo)

/-- Removal of the first occurrence of `search` from a character list. -/
def eraseFirstChars : List Char → List Char → List Char
  | [], _ => []
  | c :: rest, search =>
    if search.isPrefixOf (c :: rest) then (c :: rest).drop search.length
    else c :: eraseFirstChars rest search

/-- The call `boost::erase_first (input, search)`: the first occurrence of `search`
in `input` is removed, wherever it is. -/
def erase_first (input search : String) : String :=
  String.mk (eraseFirstChars input.data search.data)

/-- The call `boost::erase_tail (input, n)`: the last `n` characters are removed, all
of them when there are fewer. -/
def erase_tail (input : String) (n : Nat) : String :=
  String.mk (input.data.take (input.data.length - n))

/-- One position of a `recursive_directory_iterator`: `it->path ().string ()` and
`is_regular_file (it->status ())`. -/
structure DirectoryEntry where
  path : String
  isRegularFile : Bool
deriving DecidableEq, Repr

/-- A walk of a `recursive_directory_iterator`: the entries it yields, and the
`what ()` of the exception that ends it, `none` when it reaches the end. -/
structure DirectoryWalk where
  entries : List DirectoryEntry
  failure : Option String
deriving DecidableEq, Repr

/-- The file system and the libraries that read it: the walk from a directory, the
call `path (p).extension ()`, and `xmlReadFile (p)` with `none` for a null document. -/
structure FileSystem where
  walk : String → DirectoryWalk
  extension : String → String
  xmlReadFile : String → Option xmlDoc

/-- Line 616-617: the entry is a description file. -/
def isDescriptionFile (fs : FileSystem) (entry : DirectoryEntry) : Bool :=
  entry.isRegularFile && decide (fs.extension entry.path = ".xml")

/-- Lines 654-667: one step of the loop from the root element along `next`. -/
def loadPatchInfoXmlStep (keys : PatchInfoKeys) (pathId : String) (impl : Impl)
    (curNode : xmlNode) : Impl :=
  if curNode.type ≠ xmlElementType.XML_ELEMENT_NODE then impl
  else if curNode.name = PatchInfoTagPatchinfo then
    let info : PatchInfo := {}
    let info := parsePatchInfoTagPatchinfo keys curNode info
    let info := info.setId pathId
    { impl with patchInfos := impl.patchInfos ++ [info] }
  else impl

/-- The method `PatcherPaths::Impl::loadPatchInfoXml` (lines 638-673): the new state
and the returned `bool`. -/
def loadPatchInfoXml (keys : PatchInfoKeys) (fs : FileSystem) (path pathId : String)
    (impl : Impl) : Impl × Bool :=
  match fs.xmlReadFile path with
  | none =>
    ({ impl with error := { code := ErrorCode.XmlParseFileError, filename := path } }, false)
  | some doc =>
    (doc.rootChain.foldl (loadPatchInfoXmlStep keys pathId) impl, true)

/-- What a call of `loadPatchInfos` leaves: the state, the returned `bool`, and the
message that line 632 logs as a warning, if it is reached. -/
structure LoadResult where
  impl : Impl
  ok : Bool
  warning : Option String
deriving DecidableEq, Repr

/-- Lines 615-633: the loop over the walk. At the end of the entries the walk either
is over (`return true`) or raises, which the `catch` logs before line 635 returns
`false`. -/
def loadPatchInfosLoop (keys : PatchInfoKeys) (fs : FileSystem) (dir : String)
    (failure : Option String) : List DirectoryEntry → Impl → LoadResult
  | [], impl =>
    match failure with
    | none => { impl := impl, ok := true, warning := none }
    | some what => { impl := impl, ok := false, warning := some what }
  | entry :: rest, impl =>
    if isDescriptionFile fs entry then
      let id := erase_tail (erase_first entry.path dir) 4
      match loadPatchInfoXml keys fs entry.path id impl with
      | (impl, false) =>
        { impl := { impl with error :=
            { code := ErrorCode.XmlParseFileError, filename := entry.path } },
          ok := false, warning := none }
      | (impl, true) => loadPatchInfosLoop keys fs dir failure rest impl
    else loadPatchInfosLoop keys fs dir failure rest impl

/-- The method `PatcherPaths::loadPatchInfos` (lines 607-636). -/
def loadPatchInfos (keys : PatchInfoKeys) (fs : FileSystem) (impl : Impl) : LoadResult :=
  let dir := patchInfosDirectory impl ++ "/"
  loadPatchInfosLoop keys fs dir (fs.walk dir).failure (fs.walk dir).entries impl

/-- The descriptors that `loadPatchInfoXml` appends for a well-formed document: the
parsed root with the path identifier when the root is a `patchinfo` tag, none
otherwise. -/
def descriptorsOf (keys : PatchInfoKeys) (pathId : String) (doc : xmlDoc) : List PatchInfo :=
  match doc.rootChain with
  | [] => []
  | root :: _ =>
    if root.name = PatchInfoTagPatchinfo then
      [(parsePatchInfoTagPatchinfo keys root {}).setId pathId]
    else []

/-! ## Views of a descriptor, for stating what a tag changes -/

/-- The contents of the text-node children of a node, in document order. -/
def textContents (node : xmlNode) : List String :=
  (node.children.filter (fun n => decide (n.type = xmlElementType.XML_TEXT_NODE))).map
    (fun n => xmlStringToStdString n.content)

/-- The descriptor-level members: identifier, display name, selection regexes,
exclusion regexes and the not-matched flag. -/
def PatchInfo.header (info : PatchInfo) :
    String × String × List String × List String × Bool :=
  (info.id, info.name, info.regexes, info.excludeRegexes, info.hasNotMatched)

/-- The Rule Bundle stored under one type tag: boot-image flag, ramdisk identifier,
patched-init path, auto-patcher sequence, device-check flag and partition-config
tokens; an unset flag is `none`. -/
def PatchInfo.bundle (info : PatchInfo) (type : String) :
    Option Bool × String × String × AutoPatcherItems × Option Bool × List String :=
  (info.hasBootImageMap.lookup type, info.ramdisk type, info.patchedInit type,
    info.autoPatchers type, info.deviceCheckMap.lookup type, info.supportedConfigs type)

/-- An element with the given tag, attributes and children. -/
def element (tag : String) (properties : List (String × String))
    (children : List xmlNode) : xmlNode :=
  xmlNode.mk xmlElementType.XML_ELEMENT_NODE tag none properties children

/-- A comment node. -/
def commentNode (content : String) : xmlNode :=
  xmlNode.mk xmlElementType.XML_OTHER_NODE "comment" (some content) [] []

/-- Lines 998-1007 of `parsePatchInfoTagAutopatcher`: the argument mapping collected
from the attributes of the entry. -/
def attributeArgs (node : xmlNode) : AutoPatcherArgs :=
  node.properties.foldl (fun args attr =>
    argsInsert args attr.1 (xmlStringToStdString (xmlGetProp node attr.1))) []

/-- The value of a boolean tag's text: `true` and `false` exactly, nothing else. -/
def literalValue (text : String) : Option Bool :=
  if text = XmlTextTrue then some true
  else if text = XmlTextFalse then some false
  else none

/-- A token sequence is a well-formed signed set: no token occurs twice, no token
begins with `!!`, and no identifier occurs both plain and negated. -/
def SignedSet (configs : List String) : Prop :=
  configs.Nodup ∧
    (∀ u v : String, "!" ++ u ∈ configs → u ≠ "!" ++ v) ∧
    ∀ X : String, X ∈ configs → "!" ++ X ∉ configs

/-! ## Instances of the library parameters, for evaluating on concrete inputs -/

/-- Substring search on character lists. -/
def searchChars : List Char → List Char → Bool
  | [], pattern => pattern.isPrefixOf []
  | c :: rest, pattern => pattern.isPrefixOf (c :: rest) || searchChars rest pattern

/-- A `regex_search` for patterns without metacharacters, which search a subject
exactly when they occur in it, and for the pattern `(`, a group that is opened and
never closed, which `boost::regex` rejects with `regex_error`. -/
def literalSearch (subject pattern : String) : Outcome Bool :=
  if pattern = "(" then Outcome.regex_error
  else Outcome.returned (searchChars subject.data pattern.data)

/-- The characters after the last `/`, all of them when there is none. -/
def lastComponentChars : List Char → List Char
  | [] => []
  | c :: rest =>
    if rest.contains '/' then lastComponentChars rest
    else if c = '/' then rest
    else c :: rest

/-- A `filename` for paths that do not end in a separator: the last component. -/
def lastComponent (path : String) : String :=
  String.mk (lastComponentChars path.data)

/-! ## Example data -/

/-- A descriptor of device `jflte` selecting names that contain `rom`. -/
def exampleRom : PatchInfo :=
  { id := "jflte/Rom", regexes := ["rom"] }

/-- A descriptor of device `jflte` selecting names that contain `zip`, except
those that contain `nightly`. -/
def exampleZip : PatchInfo :=
  { id := "jflte/Zip", regexes := ["zip"], excludeRegexes := ["nightly"] }

/-- A descriptor of the shared group `Google_Apps`, without selection regexes. -/
def exampleGapps : PatchInfo :=
  { id := "Google_Apps/gapps", excludeRegexes := ["nightly"] }

/-- A descriptor of another device. -/
def exampleKlte : PatchInfo :=
  { id := "klte/Rom", regexes := ["rom"] }

/-- The built-in device `jflte`, with its codename only. -/
def exampleDevice : Device := { codename := "jflte" }

/-- A registry as constructed, holding the example descriptors. -/
def exampleImpl : Impl :=
  { new "1.0" [] [] with patchInfos := [exampleKlte, exampleGapps, exampleZip, exampleRom] }

/-- An assignment of pairwise distinct identifiers and of display names to the
patcher classes, for evaluating the factory. -/
def exampleConstants : PatcherConstants :=
  { MultiBootPatcher_Id := "MultiBootPatcher"
    MultiBootPatcher_Name := "Multi Boot Patcher"
    PrimaryUpgradePatcher_Id := "PrimaryUpgradePatcher"
    PrimaryUpgradePatcher_Name := "Primary Upgrade Patcher"
    SyncdaemonUpdatePatcher_Id := "SyncdaemonUpdatePatcher"
    SyncdaemonUpdatePatcher_Name := "Syncdaemon Update Patcher"
    JflteDalvikCachePatcher_Id := "DalvikCachePatcher"
    JflteGoogleEditionPatcher_Id := "GoogleEditionPatcher"
    JflteSlimAromaBundledMount_Id := "SlimAromaBundledMount"
    JflteImperiumPatcher_Id := "ImperiumPatcher"
    JflteNegaliteNoWipeData_Id := "NegaliteNoWipeData"
    JflteTriForceFixAroma_Id := "TriForceFixAroma"
    JflteTriForceFixUpdate_Id := "TriForceFixUpdate"
    NoobdevMultiBoot_Id := "NoobdevMultiBoot"
    NoobdevSystemProp_Id := "NoobdevSystemProp"
    PatchFilePatcher_Id := "PatchFile"
    StandardPatcher_Id := "StandardPatcher"
    BaconRamdiskPatcher_Id := "bacon/AOSP/AOSP"
    D800RamdiskPatcher_Id := "d800/AOSP/AOSP"
    FalconRamdiskPatcher_Id := "falcon/AOSP/AOSP"
    HammerheadAOSPRamdiskPatcher_Id := "hammerhead/AOSP/AOSP"
    HammerheadNoobdevRamdiskPatcher_Id := "hammerhead/AOSP/cxl"
    HlteAOSPRamdiskPatcher_Id := "hlte/AOSP/AOSP"
    JflteAOSPRamdiskPatcher_Id := "jflte/AOSP/AOSP"
    JflteGoogleEditionRamdiskPatcher_Id := "jflte/GoogleEdition/GoogleEdition"
    JflteNoobdevRamdiskPatcher_Id := "jflte/AOSP/cxl"
    JflteTouchWizRamdiskPatcher_Id := "jflte/TouchWiz/TouchWiz"
    KlteAOSPRamdiskPatcher_Id := "klte/AOSP/AOSP"
    KlteTouchWizRamdiskPatcher_Id := "klte/TouchWiz/TouchWiz" }

/-- Type tags for evaluating the loader. -/
def exampleKeys : PatchInfoKeys :=
  { Default := "default", NotMatched := "notmatched" }

/-- An `extension` for file names with at most one dot: `.xml` for paths that end in
`.xml`. -/
def exampleExtension (path : String) : String :=
  if ".xml".data.isSuffixOf path.data then ".xml" else ""

/-- A description file `<patchinfo><regex>rom</regex></patchinfo>`. -/
def examplePatchinfoDoc : xmlDoc :=
  { rootChain := [xmlNode.mk xmlElementType.XML_ELEMENT_NODE "patchinfo" none []
      [textElement "regex" "rom"]] }

/-- A parseable file whose root element is `<device>`, not `<patchinfo>`. -/
def exampleForeignDoc : xmlDoc :=
  { rootChain := [xmlNode.mk xmlElementType.XML_ELEMENT_NODE "device" none [] []] }

/-- A file system whose directory `/patchinfos/` holds one description file,
`jflte/Default.xml`, beside a directory and a text file. -/
def exampleFileSystem : FileSystem :=
  { walk := fun dir =>
      if dir = "/patchinfos/" then
        { entries := [{ path := "/patchinfos/jflte", isRegularFile := false },
            { path := "/patchinfos/jflte/Default.xml", isRegularFile := true },
            { path := "/patchinfos/README.txt", isRegularFile := true }],
          failure := none }
      else { entries := [], failure := some "No such file or directory" }
    extension := exampleExtension
    xmlReadFile := fun path =>
      if path = "/patchinfos/jflte/Default.xml" then some examplePatchinfoDoc else none }

/-- The same directory, where `jflte/Default.xml` has the root element `<device>`. -/
def exampleForeignFileSystem : FileSystem :=
  { exampleFileSystem with
    xmlReadFile := fun path =>
      if path = "/patchinfos/jflte/Default.xml" then some exampleForeignDoc else none }

/-- A directory with two description files of which the second cannot be parsed. -/
def exampleBrokenFileSystem : FileSystem :=
  { walk := fun _ =>
      { entries := [{ path := "/patchinfos/jflte/Default.xml", isRegularFile := true },
          { path := "/patchinfos/klte/Broken.xml", isRegularFile := true },
          { path := "/patchinfos/klte/Later.xml", isRegularFile := true }],
        failure := none }
    extension := exampleExtension
    xmlReadFile := fun path =>
      if path = "/patchinfos/jflte/Default.xml" then some examplePatchinfoDoc
      else if path = "/patchinfos/klte/Later.xml" then some examplePatchinfoDoc
      else none }

/-- A file system without the description-file directory. -/
def exampleMissingFileSystem : FileSystem :=
  { walk := fun _ => { entries := [], failure := some "No such file or directory" }
    extension := exampleExtension
    xmlReadFile := fun _ => none }

/-- A directory `/patchinfos/` with the description file `x/patchinfos/b.xml`, whose
relative path holds the directory string `/patchinfos/` again. -/
def exampleNestedFileSystem : FileSystem :=
  { walk := fun _ =>
      { entries := [{ path := "/patchinfos/x/patchinfos/b.xml", isRegularFile := true }],
        failure := none }
    extension := exampleExtension
    xmlReadFile := fun _ => some examplePatchinfoDoc }

/-- A `regex_search` for the patterns of the scenarios: the pattern `.*\.zip` searches
a subject exactly when `.zip` occurs in it, a pattern without metacharacters exactly
when the pattern occurs in it, and the pattern `(` is rejected. -/
def exampleRegexSearch (subject pattern : String) : Outcome Bool :=
  if pattern = ".*\\.zip" then literalSearch subject ".zip"
  else literalSearch subject pattern

/-- The file `<patchinfo><regex>.*\.zip</regex></patchinfo>`. -/
def exampleZipDoc : xmlDoc :=
  { rootChain := [element "patchinfo" [] [textElement "regex" ".*\\.zip"]] }

/-- The file
`<patchinfo><regex>.*\.zip</regex><exclude-regex>nightly</exclude-regex></patchinfo>`,
with the exclusion tag directly in the top-level container. -/
def exampleTopLevelExcludeDoc : xmlDoc :=
  { rootChain := [element "patchinfo" []
      [textElement "regex" ".*\\.zip", textElement "exclude-regex" "nightly"]] }

/-- The file `<patchinfo><regex>.*\.zip</regex><regexes><exclude-regex>nightly
</exclude-regex></regexes></patchinfo>`, with the exclusion tag in the grouping tag. -/
def exampleGroupedExcludeDoc : xmlDoc :=
  { rootChain := [element "patchinfo" []
      [textElement "regex" ".*\\.zip",
        element "regexes" [] [textElement "exclude-regex" "nightly"]]] }

/-- A file system whose directory `/patchinfos/` holds the one description file
`jflte/Default.xml`, with the given document. -/
def singleFileSystem (doc : xmlDoc) : FileSystem :=
  { walk := fun _ =>
      { entries := [{ path := "/patchinfos/jflte/Default.xml", isRegularFile := true }],
        failure := none }
    extension := exampleExtension
    xmlReadFile := fun _ => some doc }

/-- The file `<patchinfo><matches regex="rom"><ramdisk>jflte/AOSP/AOSP</ramdisk>
</matches></patchinfo>`, whose only regex is declared by the override-by-match tag. -/
def exampleMatchesDoc : xmlDoc :=
  { rootChain := [element "patchinfo" []
      [element "matches" [("regex", "rom")] [textElement "ramdisk" "jflte/AOSP/AOSP"]]] }

/-- A directory `/patchinfos/` with three description files in two subdirectories,
beside a subdirectory entry and a text file. -/
def exampleTreeFileSystem : FileSystem :=
  { walk := fun _ =>
      { entries := [{ path := "/patchinfos/jflte", isRegularFile := false },
          { path := "/patchinfos/jflte/Default.xml", isRegularFile := true },
          { path := "/patchinfos/jflte/Rom.xml", isRegularFile := true },
          { path := "/patchinfos/README.txt", isRegularFile := true },
          { path := "/patchinfos/klte/Default.xml", isRegularFile := true }],
        failure := none }
    extension := exampleExtension
    xmlReadFile := fun path =>
      if path = "/patchinfos/jflte/Rom.xml" then some exampleZipDoc
      else some examplePatchinfoDoc }

/-- A descriptor of device `jflte` whose one selection regex, `(`, is not a
well-formed pattern. -/
def exampleUnclosed : PatchInfo :=
  { id := "jflte/Broken", regexes := ["("] }

/-- A descriptor of device `jflte` selecting names that contain `rom`, except those
that contain `nightly`, whose second selection regex is not a well-formed pattern. -/
def exampleVetoed : PatchInfo :=
  { id := "jflte/A", regexes := ["rom", "("], excludeRegexes := ["nightly"] }

/-- A descriptor of device `jflte` selecting names that contain `rom` or `zip`, except
those that contain `nightly`. -/
def exampleTwoRegexes : PatchInfo :=
  { id := "jflte/A2", regexes := ["rom", "zip"], excludeRegexes := ["nightly"] }

/-- A descriptor of device `jflte` selecting names that contain `zip`. -/
def examplePlainZip : PatchInfo :=
  { id := "jflte/B", regexes := ["zip"] }

/-- A descriptor of device `jflte` selecting names that contain `zip`, whose first
exclusion regex is not a well-formed pattern and whose second is `nightly`. -/
def exampleUnclosedExclude : PatchInfo :=
  { id := "jflte/C", regexes := ["zip"], excludeRegexes := ["(", "nightly"] }

end PatcherPaths

/-! # Theorems -/

namespace PatcherPaths

/-! ## Loop lemmas -/

theorem includeDirsLoop_eq_any (info : PatchInfo) (dirs : List String) :
    includeDirsLoop info dirs = dirs.any (fun d => starts_with info.id d) := by
  induction dirs with
  | nil => rfl
  | cons d rest ih =>
    simp only [includeDirsLoop, List.any_cons, ih]
    cases starts_with info.id d <;> simp

theorem patchInfosLoop_eq_filter (device : Device) (dirs : List String)
    (infos l : List PatchInfo) :
    patchInfosLoop device dirs infos l =
      l ++ infos.filter (fun info =>
        starts_with info.id device.codename || dirs.any (fun d => starts_with info.id d)) := by
  induction infos generalizing l with
  | nil => simp [patchInfosLoop]
  | cons info rest ih =>
    simp only [patchInfosLoop, includeDirsLoop_eq_any, List.filter_cons]
    by_cases h1 : starts_with info.id device.codename = true
    · simp [h1, ih]
    · by_cases h2 : (dirs.any fun d => starts_with info.id d) = true
      · simp only [h1, h2, ih]
        simp
      · simp only [h1, h2, ih]
        simp

theorem excludeLoop_cases (regex_search : String → String → Outcome Bool) (noPath : String)
    (l : List String) :
    excludeLoop regex_search noPath l = Outcome.regex_error ∨
      excludeLoop regex_search noPath l = Outcome.returned
        (l.any (fun e => decide (regex_search noPath e = Outcome.returned true))) := by
  induction l with
  | nil => exact Or.inr rfl
  | cons e rest ih =>
    unfold excludeLoop
    cases h : regex_search noPath e with
    | regex_error => exact Or.inl rfl
    | returned b =>
      cases b with
      | true => right; simp [h]
      | false =>
        rcases ih with ih | ih
        · exact Or.inl ih
        · right; simp [h, ih]

theorem excludeLoop_wellFormed (regex_search : String → String → Outcome Bool)
    (noPath : String) (l : List String)
    (hwell : ∀ e ∈ l, regex_search noPath e ≠ Outcome.regex_error) :
    excludeLoop regex_search noPath l ≠ Outcome.regex_error := by
  induction l with
  | nil => simp [excludeLoop]
  | cons e rest ih =>
    unfold excludeLoop
    have he := hwell e (List.mem_cons_self _ _)
    cases h : regex_search noPath e with
    | regex_error => exact absurd h he
    | returned b =>
      cases b with
      | true => simp
      | false => exact ih (fun x hx => hwell x (List.mem_cons_of_mem _ hx))

theorem regexLoop_cases (regex_search : String → String → Outcome Bool) (noPath : String)
    (info : PatchInfo) (l : List String) :
    regexLoop regex_search noPath info l = Outcome.regex_error ∨
      regexLoop regex_search noPath info l = Outcome.returned
        (if (l.any (fun r => decide (regex_search noPath r = Outcome.returned true)) &&
            !info.excludeRegexes.any
              (fun e => decide (regex_search noPath e = Outcome.returned true))) = true
          then some info else none) := by
  induction l with
  | nil => right; simp [regexLoop]
  | cons r rest ih =>
    unfold regexLoop
    cases h : regex_search noPath r with
    | regex_error => exact Or.inl rfl
    | returned b =>
      cases b with
      | true =>
        rcases excludeLoop_cases regex_search noPath info.excludeRegexes with hx | hx
        · left; simp [hx]
        · right
          rw [hx]
          cases (info.excludeRegexes.any
            (fun e => decide (regex_search noPath e = Outcome.returned true))) <;> simp [h]
      | false =>
        rcases ih with ih | ih
        · exact Or.inl ih
        · right; simp [h, ih]

theorem regexLoop_wellFormed (regex_search : String → String → Outcome Bool)
    (noPath : String) (info : PatchInfo) (l : List String)
    (hwell : ∀ r ∈ l, regex_search noPath r ≠ Outcome.regex_error)
    (hexclude : ∀ e ∈ info.excludeRegexes, regex_search noPath e ≠ Outcome.regex_error) :
    regexLoop regex_search noPath info l ≠ Outcome.regex_error := by
  induction l with
  | nil => simp [regexLoop]
  | cons r rest ih =>
    unfold regexLoop
    have hr := hwell r (List.mem_cons_self _ _)
    cases h : regex_search noPath r with
    | regex_error => exact absurd h hr
    | returned b =>
      cases b with
      | true =>
        have hx := excludeLoop_wellFormed regex_search noPath info.excludeRegexes hexclude
        cases hx2 : excludeLoop regex_search noPath info.excludeRegexes with
        | regex_error => exact absurd hx2 hx
        | returned c => cases c <;> simp
      | false => exact ih (fun x hx => hwell x (List.mem_cons_of_mem _ hx))

theorem infoLoop_cases (regex_search : String → String → Outcome Bool) (noPath : String)
    (l : List PatchInfo) :
    infoLoop regex_search noPath l = Outcome.regex_error ∨
      infoLoop regex_search noPath l =
        Outcome.returned (l.find? (selects regex_search noPath)) := by
  induction l with
  | nil => exact Or.inr rfl
  | cons info rest ih =>
    unfold infoLoop
    rcases regexLoop_cases regex_search noPath info info.regexes with h | h
    · left; simp [h]
    · rw [h, List.find?_cons]
      by_cases hs : selects regex_search noPath info = true
      · right
        have hs2 := hs
        unfold selects at hs2
        simp only [hs2, if_true, hs]
      · have hs3 : selects regex_search noPath info = false := by simpa using hs
        have hs2 := hs3
        unfold selects at hs2
        simp only [hs2, hs3]
        exact ih

theorem infoLoop_wellFormed (regex_search : String → String → Outcome Bool)
    (noPath : String) (l : List PatchInfo)
    (hwell : ∀ x ∈ l, wellFormedPatterns regex_search noPath x) :
    infoLoop regex_search noPath l ≠ Outcome.regex_error := by
  induction l with
  | nil => simp [infoLoop]
  | cons info rest ih =>
    unfold infoLoop
    have hi := hwell info (List.mem_cons_self _ _)
    have hx := regexLoop_wellFormed regex_search noPath info info.regexes hi.1 hi.2
    cases hx2 : regexLoop regex_search noPath info info.regexes with
    | regex_error => exact absurd hx2 hx
    | returned o =>
      cases o with
      | some found => simp
      | none => exact ih (fun x hx => hwell x (List.mem_cons_of_mem _ hx))

theorem infoLoop_returned (regex_search : String → String → Outcome Bool)
    (noPath : String) (l : List PatchInfo) (o : Option PatchInfo)
    (h : infoLoop regex_search noPath l = Outcome.returned o) :
    l.find? (selects regex_search noPath) = o := by
  rcases infoLoop_cases regex_search noPath l with hc | hc
  · rw [hc] at h; cases h
  · rw [hc] at h; exact Outcome.returned.inj h

theorem infoLoop_eq_find (regex_search : String → String → Outcome Bool)
    (noPath : String) (l : List PatchInfo)
    (hwell : ∀ x ∈ l, wellFormedPatterns regex_search noPath x) :
    infoLoop regex_search noPath l =
      Outcome.returned (l.find? (selects regex_search noPath)) := by
  rcases infoLoop_cases regex_search noPath l with hc | hc
  · exact absurd hc (infoLoop_wellFormed regex_search noPath l hwell)
  · exact hc

theorem selects_iff (regex_search : String → String → Outcome Bool) (noPath : String)
    (info : PatchInfo) :
    selects regex_search noPath info = true ↔
      (∃ r ∈ info.regexes, regex_search noPath r = Outcome.returned true) ∧
        ∀ e ∈ info.excludeRegexes, regex_search noPath e ≠ Outcome.returned true := by
  simp [selects, List.any_eq_true]

theorem excludeLoop_veto_specRegexLoop (regex_search : String → String → Outcome Bool)
    (noPath : String) (info : PatchInfo) (l : List String) (o : Option PatchInfo)
    (hveto : excludeLoop regex_search noPath info.excludeRegexes = Outcome.returned true)
    (h : specRegexLoop regex_search noPath info l = Outcome.returned o) : o = none := by
  induction l with
  | nil =>
    simp only [specRegexLoop] at h
    exact (Outcome.returned.inj h).symm
  | cons r rest ih =>
    unfold specRegexLoop at h
    cases hr : regex_search noPath r with
    | regex_error => rw [hr] at h; cases h
    | returned b =>
      rw [hr] at h
      cases b with
      | true =>
        rw [hveto] at h
        exact ih h
      | false => exact ih h

theorem specRegexLoop_returned (regex_search : String → String → Outcome Bool)
    (noPath : String) (info : PatchInfo) (l : List String) (o : Option PatchInfo)
    (h : specRegexLoop regex_search noPath info l = Outcome.returned o) :
    regexLoop regex_search noPath info l = Outcome.returned o := by
  induction l with
  | nil => exact h
  | cons r rest ih =>
    unfold specRegexLoop at h
    unfold regexLoop
    cases hr : regex_search noPath r with
    | regex_error => rw [hr] at h; cases h
    | returned b =>
      rw [hr] at h
      cases b with
      | true =>
        cases hx : excludeLoop regex_search noPath info.excludeRegexes with
        | regex_error => rw [hx] at h; cases h
        | returned c =>
          rw [hx] at h
          cases c with
          | true =>
            have := excludeLoop_veto_specRegexLoop regex_search noPath info rest o hx h
            rw [this]
          | false => exact h
      | false => exact ih h

theorem specInfoLoop_returned (regex_search : String → String → Outcome Bool)
    (noPath : String) (l : List PatchInfo) (o : Option PatchInfo)
    (h : specInfoLoop regex_search noPath l = Outcome.returned o) :
    infoLoop regex_search noPath l = Outcome.returned o := by
  induction l with
  | nil => exact h
  | cons info rest ih =>
    unfold specInfoLoop at h
    unfold infoLoop
    cases hs : specRegexLoop regex_search noPath info info.regexes with
    | regex_error => rw [hs] at h; cases h
    | returned found =>
      rw [hs] at h
      rw [specRegexLoop_returned regex_search noPath info info.regexes found hs]
      cases found with
      | some f => exact h
      | none => exact ih h

theorem specRegexLoop_wellFormed (regex_search : String → String → Outcome Bool)
    (noPath : String) (info : PatchInfo) (l : List String)
    (hwell : ∀ r ∈ l, regex_search noPath r ≠ Outcome.regex_error)
    (hexclude : ∀ e ∈ info.excludeRegexes, regex_search noPath e ≠ Outcome.regex_error) :
    specRegexLoop regex_search noPath info l ≠ Outcome.regex_error := by
  induction l with
  | nil => simp [specRegexLoop]
  | cons r rest ih =>
    unfold specRegexLoop
    have hr := hwell r (List.mem_cons_self _ _)
    have hrest := ih (fun x hx => hwell x (List.mem_cons_of_mem _ hx))
    cases h : regex_search noPath r with
    | regex_error => exact absurd h hr
    | returned b =>
      cases b with
      | true =>
        have hx := excludeLoop_wellFormed regex_search noPath info.excludeRegexes hexclude
        cases hx2 : excludeLoop regex_search noPath info.excludeRegexes with
        | regex_error => exact absurd hx2 hx
        | returned c =>
          cases c with
          | true => exact hrest
          | false => simp
      | false => exact hrest

theorem specInfoLoop_wellFormed (regex_search : String → String → Outcome Bool)
    (noPath : String) (l : List PatchInfo)
    (hwell : ∀ x ∈ l, wellFormedPatterns regex_search noPath x) :
    specInfoLoop regex_search noPath l ≠ Outcome.regex_error := by
  induction l with
  | nil => simp [specInfoLoop]
  | cons info rest ih =>
    unfold specInfoLoop
    have hi := hwell info (List.mem_cons_self _ _)
    have hx := specRegexLoop_wellFormed regex_search noPath info info.regexes hi.1 hi.2
    cases hx2 : specRegexLoop regex_search noPath info info.regexes with
    | regex_error => exact absurd hx2 hx
    | returned o =>
      cases o with
      | some found => simp
      | none => exact ih (fun x hx => hwell x (List.mem_cons_of_mem _ hx))

theorem findMatchingPatchInfo_cases (regex_search : String → String → Outcome Bool)
    (filename : String → String) (impl : Impl) (device : Device) (fileName : String)
    (hname : fileName ≠ "") :
    findMatchingPatchInfo regex_search filename impl (some device) fileName =
        Outcome.regex_error ∨
      findMatchingPatchInfo regex_search filename impl (some device) fileName =
        Outcome.returned
          ((patchInfos impl device).find? (selects regex_search (filename fileName))) := by
  simp only [findMatchingPatchInfo, hname, if_false]
  exact infoLoop_cases regex_search (filename fileName) (patchInfos impl device)

theorem find?_eq_some_iff_first (p : PatchInfo → Bool) (l : List PatchInfo) (d : PatchInfo) :
    l.find? p = some d ↔
      ∃ before after : List PatchInfo,
        l = before ++ d :: after ∧ p d = true ∧ ∀ x ∈ before, ¬ p x = true := by
  rw [List.find?_eq_some]
  constructor
  · rintro ⟨hd, before, after, hsplit, hbefore⟩
    refine ⟨before, after, hsplit, hd, fun x hx hsel => ?_⟩
    have := hbefore x hx
    rw [hsel] at this
    exact absurd this (by decide)
  · rintro ⟨before, after, hsplit, hd, hbefore⟩
    refine ⟨hd, before, after, hsplit, fun x hx => ?_⟩
    cases hsel : p x
    · rfl
    · exact absurd hsel (hbefore x hx)

theorem find?_selects_eq_some (regex_search : String → String → Outcome Bool)
    (noPath : String) (l : List PatchInfo) (d : PatchInfo) :
    l.find? (selects regex_search noPath) = some d ↔
      ∃ before after : List PatchInfo,
        l = before ++ d :: after ∧
        ((∃ r ∈ d.regexes, regex_search noPath r = Outcome.returned true) ∧
          ∀ e ∈ d.excludeRegexes, regex_search noPath e ≠ Outcome.returned true) ∧
        ∀ x ∈ before,
          ¬((∃ r ∈ x.regexes, regex_search noPath r = Outcome.returned true) ∧
            ∀ e ∈ x.excludeRegexes, regex_search noPath e ≠ Outcome.returned true) := by
  rw [find?_eq_some_iff_first]
  constructor
  · rintro ⟨before, after, hsplit, hd, hbefore⟩
    exact ⟨before, after, hsplit, (selects_iff _ _ _).1 hd,
      fun x hx hsel => hbefore x hx ((selects_iff _ _ _).2 hsel)⟩
  · rintro ⟨before, after, hsplit, hd, hbefore⟩
    exact ⟨before, after, hsplit, (selects_iff _ _ _).2 hd,
      fun x hx hsel => hbefore x hx ((selects_iff _ _ _).1 hsel)⟩

theorem find?_selects_eq_none (regex_search : String → String → Outcome Bool)
    (noPath : String) (l : List PatchInfo) :
    l.find? (selects regex_search noPath) = none ↔
      ∀ x ∈ l,
        ¬((∃ r ∈ x.regexes, regex_search noPath r = Outcome.returned true) ∧
          ∀ e ∈ x.excludeRegexes, regex_search noPath e ≠ Outcome.returned true) := by
  rw [List.find?_eq_none]
  constructor
  · intro h x hx hsel
    exact h x hx ((selects_iff _ _ _).2 hsel)
  · intro h x hx hsel
    exact h x hx ((selects_iff _ _ _).1 hsel)

theorem starts_with_iff (input test : String) :
    starts_with input test = true ↔ ∃ rest : String, input = test ++ rest := by
  unfold starts_with
  rw [List.isPrefixOf_iff_prefix]
  constructor
  · rintro ⟨t, ht⟩
    exact ⟨String.mk t, by rw [String.ext_iff, String.data_append, ← ht]⟩
  · rintro ⟨rest, rfl⟩
    exact ⟨rest.data, by rw [String.data_append]⟩

/-! ## Applicability filtering and matching -/

/-- C3: for a registry whose shared include prefixes are those the constructor
installs (`Google_Apps`, `Other`), `patchInfos (device)` is the registry's descriptor
list filtered, in registry order, by "the identifier starts with the device codename,
or with `Google_Apps`, or with `Other`"; an entry passing several tests is kept once. -/
theorem patchInfos_eq_filter (impl : Impl) (device : Device)
    (hdirs : impl.patchinfoIncludeDirs = ["Google_Apps", "Other"]) :
    patchInfos impl device =
      impl.patchInfos.filter (fun info =>
        starts_with info.id device.codename ||
          (starts_with info.id "Google_Apps" || starts_with info.id "Other")) := by
  unfold patchInfos
  rw [patchInfosLoop_eq_filter, hdirs]
  simp

theorem patchInfos_eq_filter_witness :
    exampleImpl.patchinfoIncludeDirs = ["Google_Apps", "Other"] ∧
      patchInfos exampleImpl exampleDevice = [exampleGapps, exampleZip, exampleRom] :=
  ⟨by decide, by rw [patchInfos_eq_filter exampleImpl exampleDevice (by decide)]; decide⟩

/-- C1 (as stated, refuted): the registry holds, for device `jflte`, a descriptor whose
selection regex `(` is malformed and then the descriptor `jflte/Rom`, whose selection
regex `rom` searches the base name `rom.zip` and which has no exclusion regex. The
first descriptor that has a searching selection regex is `jflte/Rom`, yet
`findMatchingPatchInfo` returns neither it nor `nullptr`: the `regex_error` raised for
`(` at line 333 leaves the method. -/
theorem findMatchingPatchInfo_malformed_pattern_raises :
    patchInfos { new "1.0" [] [] with patchInfos := [exampleUnclosed, exampleRom] }
        exampleDevice = [exampleUnclosed, exampleRom] ∧
      literalSearch (lastComponent "rom.zip") "(" ≠ Outcome.returned true ∧
      literalSearch (lastComponent "rom.zip") "rom" = Outcome.returned true ∧
      exampleRom.excludeRegexes = [] ∧
      findMatchingPatchInfo literalSearch lastComponent
        { new "1.0" [] [] with patchInfos := [exampleUnclosed, exampleRom] }
        (some exampleDevice) "rom.zip" = Outcome.regex_error := by
  decide

/-- C1 (amended): for a non-null device and a non-empty file name, whenever
`findMatchingPatchInfo` returns `d`, `d` is the first entry of `patchInfos (device)`
that has a selection regex searching the base name and no exclusion regex searching it,
and whenever it returns `nullptr` no entry is such; and when every selection and
exclusion regex of the entries of `patchInfos (device)` is a well-formed pattern, the
call returns: the first such entry when there is one, `nullptr` when there is none. -/
theorem findMatchingPatchInfo_first_selected
    (regex_search : String → String → Outcome Bool)
    (filename : String → String) (impl : Impl) (device : Device) (fileName : String)
    (hname : fileName ≠ "") :
    (∀ d : PatchInfo,
      findMatchingPatchInfo regex_search filename impl (some device) fileName =
          Outcome.returned (some d) →
        ∃ before after : List PatchInfo,
          patchInfos impl device = before ++ d :: after ∧
          ((∃ r ∈ d.regexes, regex_search (filename fileName) r = Outcome.returned true) ∧
            ∀ e ∈ d.excludeRegexes,
              regex_search (filename fileName) e ≠ Outcome.returned true) ∧
          ∀ x ∈ before,
            ¬((∃ r ∈ x.regexes, regex_search (filename fileName) r = Outcome.returned true) ∧
              ∀ e ∈ x.excludeRegexes,
                regex_search (filename fileName) e ≠ Outcome.returned true)) ∧
    (findMatchingPatchInfo regex_search filename impl (some device) fileName =
        Outcome.returned none →
      ∀ x ∈ patchInfos impl device,
        ¬((∃ r ∈ x.regexes, regex_search (filename fileName) r = Outcome.returned true) ∧
          ∀ e ∈ x.excludeRegexes,
            regex_search (filename fileName) e ≠ Outcome.returned true)) ∧
    ((∀ x ∈ patchInfos impl device,
        (∀ r ∈ x.regexes, regex_search (filename fileName) r ≠ Outcome.regex_error) ∧
          ∀ e ∈ x.excludeRegexes,
            regex_search (filename fileName) e ≠ Outcome.regex_error) →
      (∀ d : PatchInfo,
        (∃ before after : List PatchInfo,
          patchInfos impl device = before ++ d :: after ∧
          ((∃ r ∈ d.regexes, regex_search (filename fileName) r = Outcome.returned true) ∧
            ∀ e ∈ d.excludeRegexes,
              regex_search (filename fileName) e ≠ Outcome.returned true) ∧
          ∀ x ∈ before,
            ¬((∃ r ∈ x.regexes, regex_search (filename fileName) r = Outcome.returned true) ∧
              ∀ e ∈ x.excludeRegexes,
                regex_search (filename fileName) e ≠ Outcome.returned true)) →
        findMatchingPatchInfo regex_search filename impl (some device) fileName =
          Outcome.returned (some d)) ∧
      ((∀ x ∈ patchInfos impl device,
          ¬((∃ r ∈ x.regexes, regex_search (filename fileName) r = Outcome.returned true) ∧
            ∀ e ∈ x.excludeRegexes,
              regex_search (filename fileName) e ≠ Outcome.returned true)) →
        findMatchingPatchInfo regex_search filename impl (some device) fileName =
          Outcome.returned none)) := by
  have hret : ∀ o : Option PatchInfo,
      findMatchingPatchInfo regex_search filename impl (some device) fileName =
          Outcome.returned o →
        (patchInfos impl device).find? (selects regex_search (filename fileName)) = o := by
    intro o ho
    simp only [findMatchingPatchInfo, hname, if_false] at ho
    exact infoLoop_returned regex_search (filename fileName) _ o ho
  refine ⟨fun d hd => (find?_selects_eq_some _ _ _ d).1 (hret _ hd),
    fun hn => (find?_selects_eq_none _ _ _).1 (hret _ hn), fun hwell => ?_⟩
  have hres : findMatchingPatchInfo regex_search filename impl (some device) fileName =
      Outcome.returned
        ((patchInfos impl device).find? (selects regex_search (filename fileName))) := by
    simp only [findMatchingPatchInfo, hname, if_false]
    exact infoLoop_eq_find regex_search (filename fileName) _ hwell
  refine ⟨fun d hd => ?_, fun hn => ?_⟩
  · rw [hres, (find?_selects_eq_some _ _ _ d).2 hd]
  · rw [hres, (find?_selects_eq_none _ _ _).2 hn]

theorem findMatchingPatchInfo_first_selected_witness :
    "a/rom.zip" ≠ "" ∧
      findMatchingPatchInfo literalSearch lastComponent exampleImpl (some exampleDevice)
        "a/rom.zip" = Outcome.returned (some exampleZip) :=
  ⟨by decide,
    (((findMatchingPatchInfo_first_selected literalSearch lastComponent exampleImpl
      exampleDevice "a/rom.zip" (by decide)).2.2 (by decide)).1 exampleZip)
      ⟨[exampleGapps], [exampleRom], by decide, by decide, by decide⟩⟩

/-- C2 (as stated, refuted): descriptor `jflte/A` has the selection regexes `rom` and
`(` and the exclusion regex `nightly`, descriptor `jflte/B` the selection regex `zip`.
For `rom-nightly.zip` the regex `rom` of `jflte/A` searches and `nightly` vetoes it:
`findMatchingPatchInfo` leaves `jflte/A` and returns `jflte/B`, while the procedure of
section 4.2 goes on with the next selection regex of `jflte/A`, the malformed `(`, and
ends in `regex_error`. -/
theorem findMatchingPatchInfo_veto_skips_descriptor :
    patchInfos { new "1.0" [] [] with patchInfos := [exampleVetoed, examplePlainZip] }
        exampleDevice = [exampleVetoed, examplePlainZip] ∧
      findMatchingPatchInfo literalSearch lastComponent
        { new "1.0" [] [] with patchInfos := [exampleVetoed, examplePlainZip] }
        (some exampleDevice) "rom-nightly.zip" = Outcome.returned (some examplePlainZip) ∧
      specFindMatchingDescriptor literalSearch lastComponent
        { new "1.0" [] [] with patchInfos := [exampleVetoed, examplePlainZip] }
        (some exampleDevice) "rom-nightly.zip" = Outcome.regex_error := by
  decide

/-- C2 (amended): after a veto `findMatchingPatchInfo` leaves the descriptor through the
`break` of line 346, whatever selection regexes follow, and goes on with the next
descriptor. Its result is that of the procedure of section 4.2 whenever that procedure
returns, and so for every registry whose applicable descriptors hold well-formed
patterns only. -/
theorem findMatchingPatchInfo_eq_spec_of_returned
    (regex_search : String → String → Outcome Bool)
    (filename : String → String) (impl : Impl) (device : Option Device)
    (fileName : String) :
    (∀ (info : PatchInfo) (regex : String) (rest : List String),
      regex_search (filename fileName) regex = Outcome.returned true →
      excludeLoop regex_search (filename fileName) info.excludeRegexes =
        Outcome.returned true →
      regexLoop regex_search (filename fileName) info (regex :: rest) =
        Outcome.returned none) ∧
    (∀ o : Option PatchInfo,
      specFindMatchingDescriptor regex_search filename impl device fileName =
          Outcome.returned o →
        findMatchingPatchInfo regex_search filename impl device fileName =
          Outcome.returned o) ∧
    ((∀ dev, device = some dev → ∀ x ∈ patchInfos impl dev,
        (∀ r ∈ x.regexes, regex_search (filename fileName) r ≠ Outcome.regex_error) ∧
          ∀ e ∈ x.excludeRegexes,
            regex_search (filename fileName) e ≠ Outcome.regex_error) →
      findMatchingPatchInfo regex_search filename impl device fileName =
        specFindMatchingDescriptor regex_search filename impl device fileName) := by
  have hsound : ∀ o : Option PatchInfo,
      specFindMatchingDescriptor regex_search filename impl device fileName =
          Outcome.returned o →
        findMatchingPatchInfo regex_search filename impl device fileName =
          Outcome.returned o := by
    intro o ho
    cases device with
    | none => exact ho
    | some dev =>
      by_cases hname : fileName = ""
      · simp only [specFindMatchingDescriptor, hname, if_true] at ho
        simp only [findMatchingPatchInfo, hname, if_true]
        exact ho
      · simp only [specFindMatchingDescriptor, hname, if_false] at ho
        simp only [findMatchingPatchInfo, hname, if_false]
        exact specInfoLoop_returned regex_search _ _ o ho
  refine ⟨fun info regex rest hr hx => ?_, hsound, fun hwell => ?_⟩
  · simp only [regexLoop, hr, hx]
  · cases hs : specFindMatchingDescriptor regex_search filename impl device fileName with
    | returned o => exact hsound o hs
    | regex_error =>
      exfalso
      cases device with
      | none => simp [specFindMatchingDescriptor] at hs
      | some dev =>
        by_cases hname : fileName = ""
        · simp [specFindMatchingDescriptor, hname] at hs
        · simp only [specFindMatchingDescriptor, hname, if_false] at hs
          exact specInfoLoop_wellFormed regex_search _ _ (hwell dev rfl) hs

theorem findMatchingPatchInfo_eq_spec_of_returned_witness :
    specFindMatchingDescriptor literalSearch lastComponent
        { new "1.0" [] [] with patchInfos := [exampleTwoRegexes, examplePlainZip] }
        (some exampleDevice) "rom-nightly.zip" = Outcome.returned (some examplePlainZip) ∧
      findMatchingPatchInfo literalSearch lastComponent
        { new "1.0" [] [] with patchInfos := [exampleTwoRegexes, examplePlainZip] }
        (some exampleDevice) "rom-nightly.zip" = Outcome.returned (some examplePlainZip) ∧
      regexLoop literalSearch (lastComponent "rom-nightly.zip") exampleTwoRegexes
        ("rom" :: ["zip"]) = Outcome.returned none :=
  ⟨by decide,
    (findMatchingPatchInfo_eq_spec_of_returned literalSearch lastComponent
      { new "1.0" [] [] with patchInfos := [exampleTwoRegexes, examplePlainZip] }
      (some exampleDevice) "rom-nightly.zip").2.1 (some examplePlainZip) (by decide),
    (findMatchingPatchInfo_eq_spec_of_returned literalSearch lastComponent
      { new "1.0" [] [] with patchInfos := [exampleTwoRegexes, examplePlainZip] }
      (some exampleDevice) "rom-nightly.zip").1 exampleTwoRegexes "rom" ["zip"]
      (by decide) (by decide)⟩

/-- C4 (as stated, refuted): descriptor `jflte/C` is the only applicable descriptor; its
selection regex `zip` and its exclusion regex `nightly` both search the base name
`rom-nightly.zip`, but its first exclusion regex is the malformed `(`: the result is
not `nullptr`, the `regex_error` of line 339 leaves the method. -/
theorem findMatchingPatchInfo_veto_behind_malformed_exclusion :
    patchInfos { new "1.0" [] [] with patchInfos := [exampleUnclosedExclude] }
        exampleDevice = [exampleUnclosedExclude] ∧
      (∃ e ∈ exampleUnclosedExclude.excludeRegexes,
        literalSearch (lastComponent "rom-nightly.zip") e = Outcome.returned true) ∧
      (∃ r ∈ exampleUnclosedExclude.regexes,
        literalSearch (lastComponent "rom-nightly.zip") r = Outcome.returned true) ∧
      findMatchingPatchInfo literalSearch lastComponent
        { new "1.0" [] [] with patchInfos := [exampleUnclosedExclude] }
        (some exampleDevice) "rom-nightly.zip" = Outcome.regex_error :=
  ⟨by decide, ⟨"nightly", by decide, by decide⟩, ⟨"zip", by decide, by decide⟩, by decide⟩

/-- C4 (amended): a descriptor one of whose exclusion regexes searches the base name is
never the result of `findMatchingPatchInfo` for that file name; when it is the only
applicable descriptor the call returns `nullptr` or leaves with `regex_error`, and it
returns `nullptr` when all selection and exclusion regexes of the descriptor are
well-formed patterns. -/
theorem findMatchingPatchInfo_exclusion_veto (regex_search : String → String → Outcome Bool)
    (filename : String → String) (impl : Impl) (device : Option Device)
    (fileName : String) (d : PatchInfo)
    (hveto : ∃ e ∈ d.excludeRegexes,
      regex_search (filename fileName) e = Outcome.returned true) :
    findMatchingPatchInfo regex_search filename impl device fileName ≠
        Outcome.returned (some d) ∧
      ((∀ dev, device = some dev → patchInfos impl dev = [d]) →
        (findMatchingPatchInfo regex_search filename impl device fileName =
            Outcome.returned none ∨
          findMatchingPatchInfo regex_search filename impl device fileName =
            Outcome.regex_error) ∧
        (((∀ r ∈ d.regexes, regex_search (filename fileName) r ≠ Outcome.regex_error) ∧
            ∀ e ∈ d.excludeRegexes,
              regex_search (filename fileName) e ≠ Outcome.regex_error) →
          findMatchingPatchInfo regex_search filename impl device fileName =
            Outcome.returned none)) := by
  have hnot : selects regex_search (filename fileName) d = false := by
    obtain ⟨e, he, hs⟩ := hveto
    cases hsel : selects regex_search (filename fileName) d
    · rfl
    · exact absurd hs (((selects_iff _ _ _).1 hsel).2 e he)
  cases device with
  | none =>
    exact ⟨by simp [findMatchingPatchInfo], fun _ => ⟨Or.inl rfl, fun _ => rfl⟩⟩
  | some dev =>
    by_cases hname : fileName = ""
    · simp [findMatchingPatchInfo, hname]
    · rcases findMatchingPatchInfo_cases regex_search filename impl dev fileName hname
        with hc | hc
      · rw [hc]
        refine ⟨by simp, fun honly => ⟨Or.inr rfl, fun hwell => ?_⟩⟩
        exfalso
        simp only [findMatchingPatchInfo, hname, if_false] at hc
        refine infoLoop_wellFormed regex_search (filename fileName) _ ?_ hc
        rw [honly dev rfl]
        intro x hx
        rw [List.mem_singleton.1 hx]
        exact hwell
      · rw [hc]
        constructor
        · intro h
          have hfind := Outcome.returned.inj h
          have := (List.find?_eq_some.1 hfind).1
          rw [hnot] at this
          exact absurd this (by decide)
        · intro honly
          rw [honly dev rfl]
          simp [List.find?_cons, hnot]

theorem findMatchingPatchInfo_exclusion_veto_witness :
    (∃ e ∈ exampleZip.excludeRegexes,
        literalSearch (lastComponent "rom-nightly.zip") e = Outcome.returned true) ∧
      findMatchingPatchInfo literalSearch lastComponent
        { exampleImpl with patchInfos := [exampleZip] } (some exampleDevice)
        "rom-nightly.zip" = Outcome.returned none :=
  ⟨⟨"nightly", by decide, by decide⟩,
    ((findMatchingPatchInfo_exclusion_veto literalSearch lastComponent
      { exampleImpl with patchInfos := [exampleZip] } (some exampleDevice)
      "rom-nightly.zip" exampleZip ⟨"nightly", by decide, by decide⟩).2
      (fun dev hdev => by cases hdev; decide)).2 (by decide)⟩

/-- C5: for a non-empty file name whose base name is non-empty and is its own base
name, `findMatchingPatchInfo` ends for the full file name as it ends for the base name
alone. -/
theorem findMatchingPatchInfo_base_name (regex_search : String → String → Outcome Bool)
    (filename : String → String) (impl : Impl) (device : Option Device)
    (fileName : String) (hname : fileName ≠ "") (hbase : filename fileName ≠ "")
    (hidem : filename (filename fileName) = filename fileName) :
    findMatchingPatchInfo regex_search filename impl device fileName =
      findMatchingPatchInfo regex_search filename impl device (filename fileName) := by
  cases device with
  | none => rfl
  | some dev => simp [findMatchingPatchInfo, hname, hbase, hidem]

theorem findMatchingPatchInfo_base_name_witness :
    findMatchingPatchInfo literalSearch lastComponent exampleImpl (some exampleDevice)
        "a/b/rom.zip" =
      findMatchingPatchInfo literalSearch lastComponent exampleImpl (some exampleDevice)
        "rom.zip" :=
  findMatchingPatchInfo_base_name literalSearch lastComponent exampleImpl
    (some exampleDevice) "a/b/rom.zip" (by decide) (by decide) (by decide)

/-- C6: `findMatchingPatchInfo` returns `nullptr` when the device is `nullptr` and
when the file name is empty, whatever the registry holds. -/
theorem findMatchingPatchInfo_null_or_empty (regex_search : String → String → Outcome Bool)
    (filename : String → String) (impl : Impl) (device : Option Device)
    (fileName : String) :
    findMatchingPatchInfo regex_search filename impl none fileName = Outcome.returned none ∧
      findMatchingPatchInfo regex_search filename impl device "" = Outcome.returned none := by
  refine ⟨rfl, ?_⟩
  cases device with
  | none => rfl
  | some dev => simp [findMatchingPatchInfo]

/-- C7: a descriptor whose selection-regex sequence is empty is never the result of
`findMatchingPatchInfo`, whatever its other fields hold. -/
theorem findMatchingPatchInfo_no_regexes (regex_search : String → String → Outcome Bool)
    (filename : String → String) (impl : Impl) (device : Option Device)
    (fileName : String) (d : PatchInfo) (hempty : d.regexes = []) :
    findMatchingPatchInfo regex_search filename impl device fileName ≠
      Outcome.returned (some d) := by
  have hnot : selects regex_search (filename fileName) d = false := by
    simp [selects, hempty]
  cases device with
  | none => simp [findMatchingPatchInfo]
  | some dev =>
    by_cases hname : fileName = ""
    · simp [findMatchingPatchInfo, hname]
    · intro h
      simp only [findMatchingPatchInfo, hname, if_false] at h
      have hfind := infoLoop_returned regex_search (filename fileName) _ _ h
      have := (List.find?_eq_some.1 hfind).1
      rw [hnot] at this
      exact absurd this (by decide)

theorem findMatchingPatchInfo_no_regexes_witness :
    exampleGapps.regexes = [] ∧
      findMatchingPatchInfo literalSearch lastComponent exampleImpl (some exampleDevice)
        "rom.zip" ≠ Outcome.returned (some exampleGapps) :=
  ⟨rfl, findMatchingPatchInfo_no_regexes literalSearch lastComponent exampleImpl
    (some exampleDevice) "rom.zip" exampleGapps rfl⟩

/-! ## Partition-config tokens -/

theorem mapGet_mapSet_same {α : Type} (m : List (String × α)) (key : String) (v dflt : α) :
    mapGet (mapSet m key v) key dflt = v := by
  simp [mapGet, mapSet, List.lookup_cons]

theorem lookup_filter_ne {α : Type} (m : List (String × α)) (key other : String)
    (h : other ≠ key) :
    (m.filter (fun e => e.1 != key)).lookup other = m.lookup other := by
  induction m with
  | nil => rfl
  | cons e rest ih =>
    obtain ⟨k, v⟩ := e
    by_cases hk : k = key
    · subst hk
      have hne : (other == k) = false := by simpa using h
      simp [List.filter_cons, List.lookup_cons, hne, ih]
    · have hk2 : (k != key) = true := by simpa using hk
      simp only [List.filter_cons, hk2, if_true, List.lookup_cons, ih]

theorem mapGet_mapSet_other {α : Type} (m : List (String × α)) (key other : String)
    (v dflt : α) (h : other ≠ key) :
    mapGet (mapSet m key v) other dflt = mapGet m other dflt := by
  have hne : (other == key) = false := by simpa using h
  simp [mapGet, mapSet, List.lookup_cons, hne, lookup_filter_ne m key other h]

theorem supportedConfigs_setSupportedConfigs (info : PatchInfo) (type : String)
    (configs : List String) :
    (info.setSupportedConfigs type configs).supportedConfigs type = configs := by
  simp [PatchInfo.supportedConfigs, PatchInfo.setSupportedConfigs, mapGet_mapSet_same]

theorem supportedConfigs_setSupportedConfigs_other (info : PatchInfo) (type other : String)
    (configs : List String) (h : other ≠ type) :
    (info.setSupportedConfigs type configs).supportedConfigs other =
      info.supportedConfigs other := by
  simp [PatchInfo.supportedConfigs, PatchInfo.setSupportedConfigs,
    mapGet_mapSet_other _ _ _ _ _ h]

theorem negated_ne (text : String) : "!" ++ text ≠ text := by
  intro h
  have := congrArg String.length h
  simp only [String.length_append, add_left_eq_self] at this
  exact absurd this (by decide)

theorem erase_erase_eq_filter (text : String) (configs : List String)
    (hnodup : configs.Nodup) :
    (configs.erase text).erase ("!" ++ text) =
      configs.filter (fun t => t != text && t != "!" ++ text) := by
  rw [hnodup.erase_eq_filter, (hnodup.filter _).erase_eq_filter, List.filter_filter]
  congr 1
  funext t
  exact Bool.and_comm _ _

theorem excludeTokens_eq_filter (text : String) (configs : List String)
    (hnodup : configs.Nodup) :
    excludeTokens text configs =
      configs.filter (fun t => t != text && t != "!" ++ text) ++ ["!" ++ text] := by
  simp only [excludeTokens, erase_erase_eq_filter text configs hnodup]

theorem includeTokens_eq_filter (text : String) (configs : List String)
    (hnodup : configs.Nodup) :
    includeTokens text configs =
      configs.filter (fun t => t != text && t != "!" ++ text) ++ [text] := by
  simp only [includeTokens, erase_erase_eq_filter text configs hnodup]

theorem excludeTokens_nodup (text : String) (configs : List String)
    (hnodup : configs.Nodup) : (excludeTokens text configs).Nodup := by
  rw [excludeTokens_eq_filter text configs hnodup]
  refine List.nodup_append.2 ⟨hnodup.filter _, List.nodup_singleton _, ?_⟩
  intro t ht hs
  rw [List.mem_singleton] at hs
  subst hs
  simp [List.mem_filter] at ht

theorem includeTokens_nodup (text : String) (configs : List String)
    (hnodup : configs.Nodup) : (includeTokens text configs).Nodup := by
  rw [includeTokens_eq_filter text configs hnodup]
  refine List.nodup_append.2 ⟨hnodup.filter _, List.nodup_singleton _, ?_⟩
  intro t ht hs
  rw [List.mem_singleton] at hs
  subst hs
  simp [List.mem_filter] at ht

theorem LoaderTokens.nodup {configs : List String} (h : LoaderTokens configs) :
    configs.Nodup := by
  induction h with
  | fresh => exact List.nodup_nil
  | @seed configs _ ih =>
    unfold seedTokens
    cases configs with
    | nil => simp
    | cons a rest => simpa using ih
  | excludeStep text _ ih => exact excludeTokens_nodup text _ ih
  | includeStep text _ ih => exact includeTokens_nodup text _ ih

theorem parsePatchInfoTagExclude_textElement (tag text : String) (info : PatchInfo)
    (type : String) :
    (parsePatchInfoTagExclude (textElement tag text) info type).supportedConfigs type =
      excludeTokens text (info.supportedConfigs type) := by
  simp [parsePatchInfoTagExclude, textElement, textNode, xmlNode.children, xmlNode.type,
    xmlNode.content, xmlStringToStdString, supportedConfigs_setSupportedConfigs]

theorem parsePatchInfoTagInclude_textElement (tag text : String) (info : PatchInfo)
    (type : String) :
    (parsePatchInfoTagInclude (textElement tag text) info type).supportedConfigs type =
      includeTokens text (info.supportedConfigs type) := by
  simp [parsePatchInfoTagInclude, textElement, textNode, xmlNode.children, xmlNode.type,
    xmlNode.content, xmlStringToStdString, supportedConfigs_setSupportedConfigs]

theorem parsePatchInfoTagExclude_loaderTokens (node : xmlNode) (info : PatchInfo)
    (type other : String) (h : LoaderTokens (info.supportedConfigs other)) :
    LoaderTokens ((parsePatchInfoTagExclude node info type).supportedConfigs other) := by
  unfold parsePatchInfoTagExclude
  generalize node.children = nodes
  induction nodes generalizing info with
  | nil => exact h
  | cons curNode rest ih =>
    rw [List.foldl_cons]
    apply ih
    by_cases htext : curNode.type = xmlElementType.XML_TEXT_NODE
    · simp only [htext, ne_eq, not_true_eq_false, if_false]
      by_cases hkey : other = type
      · subst hkey
        rw [supportedConfigs_setSupportedConfigs]
        exact LoaderTokens.excludeStep _ h
      · rw [supportedConfigs_setSupportedConfigs_other _ _ _ _ hkey]
        exact h
    · simpa [htext] using h

theorem parsePatchInfoTagInclude_loaderTokens (node : xmlNode) (info : PatchInfo)
    (type other : String) (h : LoaderTokens (info.supportedConfigs other)) :
    LoaderTokens ((parsePatchInfoTagInclude node info type).supportedConfigs other) := by
  unfold parsePatchInfoTagInclude
  generalize node.children = nodes
  induction nodes generalizing info with
  | nil => exact h
  | cons curNode rest ih =>
    rw [List.foldl_cons]
    apply ih
    by_cases htext : curNode.type = xmlElementType.XML_TEXT_NODE
    · simp only [htext, ne_eq, not_true_eq_false, if_false]
      by_cases hkey : other = type
      · subst hkey
        rw [supportedConfigs_setSupportedConfigs]
        exact LoaderTokens.includeStep _ h
      · rw [supportedConfigs_setSupportedConfigs_other _ _ _ _ hkey]
        exact h
    · simpa [htext] using h

/-- Every partition-config list tag keeps each bundle's token sequence among the
sequences described by `LoaderTokens`. -/
theorem parsePatchInfoTagPartconfigs_loaderTokens (node : xmlNode) (info : PatchInfo)
    (type other : String) (h : LoaderTokens (info.supportedConfigs other)) :
    LoaderTokens ((parsePatchInfoTagPartconfigs node info type).supportedConfigs other) := by
  unfold parsePatchInfoTagPartconfigs
  have hseed : LoaderTokens ((info.setSupportedConfigs type
      (seedTokens (info.supportedConfigs type))).supportedConfigs other) := by
    by_cases hkey : other = type
    · subst hkey
      rw [supportedConfigs_setSupportedConfigs]
      exact LoaderTokens.seed h
    · rw [supportedConfigs_setSupportedConfigs_other _ _ _ _ hkey]
      exact h
  simp only []
  generalize info.setSupportedConfigs type (seedTokens (info.supportedConfigs type)) = start
    at hseed ⊢
  generalize node.children = nodes
  induction nodes generalizing start with
  | nil => exact hseed
  | cons curNode rest ih =>
    rw [List.foldl_cons]
    apply ih
    split
    · exact hseed
    · split
      · exact hseed
      · split
        · exact parsePatchInfoTagExclude_loaderTokens _ _ _ _ hseed
        · split
          · exact parsePatchInfoTagInclude_loaderTokens _ _ _ _ hseed
          · exact hseed

theorem excludeTokens_idem (text : String) (configs : List String)
    (hnodup : configs.Nodup) :
    excludeTokens text (excludeTokens text configs) = excludeTokens text configs := by
  rw [excludeTokens_eq_filter text _ (excludeTokens_nodup text configs hnodup),
    excludeTokens_eq_filter text configs hnodup]
  simp [List.filter_append, List.filter_filter]

theorem includeTokens_idem (text : String) (configs : List String)
    (hnodup : configs.Nodup) :
    includeTokens text (includeTokens text configs) = includeTokens text configs := by
  rw [includeTokens_eq_filter text _ (includeTokens_nodup text configs hnodup),
    includeTokens_eq_filter text configs hnodup]
  simp [List.filter_append, List.filter_filter]

theorem count_filter_append_last (token text : String) (configs : List String)
    (hne : (token != text && token != "!" ++ text) = false) :
    (configs.filter (fun t => t != text && t != "!" ++ text) ++ [token]).count token = 1 := by
  have hnot : token ∉ configs.filter (fun t => t != text && t != "!" ++ text) := by
    intro hmem
    have := (List.mem_filter.1 hmem).2
    rw [hne] at this
    exact absurd this (by decide)
  rw [List.count_append, List.count_eq_zero.2 hnot]
  simp

/-- C8: on a token sequence that the loader can have built, an include entry with
text `X` leaves the other tokens in their order followed by `X`, with `X` once and
`!X` absent; an exclude entry leaves the other tokens in their order followed by `!X`,
with `!X` once and `X` absent; after include `X` then exclude `X` the sequence holds
`!X` and no `X`. -/
theorem include_exclude_last_writer_wins (info : PatchInfo) (type X : String)
    (hbuilt : LoaderTokens (info.supportedConfigs type)) :
    ((parsePatchInfoTagInclude (textElement PatchInfoTagInclude X) info type).supportedConfigs
          type =
        (info.supportedConfigs type).filter (fun t => t != X && t != "!" ++ X) ++ [X] ∧
      ((parsePatchInfoTagInclude (textElement PatchInfoTagInclude X) info
          type).supportedConfigs type).count X = 1 ∧
      "!" ++ X ∉ (parsePatchInfoTagInclude (textElement PatchInfoTagInclude X) info
          type).supportedConfigs type) ∧
    ((parsePatchInfoTagExclude (textElement PatchInfoTagExclude X) info type).supportedConfigs
          type =
        (info.supportedConfigs type).filter (fun t => t != X && t != "!" ++ X) ++ ["!" ++ X] ∧
      ((parsePatchInfoTagExclude (textElement PatchInfoTagExclude X) info
          type).supportedConfigs type).count ("!" ++ X) = 1 ∧
      X ∉ (parsePatchInfoTagExclude (textElement PatchInfoTagExclude X) info
          type).supportedConfigs type) ∧
    ("!" ++ X ∈ (parsePatchInfoTagExclude (textElement PatchInfoTagExclude X)
          (parsePatchInfoTagInclude (textElement PatchInfoTagInclude X) info type)
          type).supportedConfigs type ∧
      X ∉ (parsePatchInfoTagExclude (textElement PatchInfoTagExclude X)
          (parsePatchInfoTagInclude (textElement PatchInfoTagInclude X) info type)
          type).supportedConfigs type) := by
  have hnodup := hbuilt.nodup
  have hneg := negated_ne X
  have hexcl : ∀ configs : List String, configs.Nodup →
      X ∉ configs.filter (fun t => t != X && t != "!" ++ X) ++ ["!" ++ X] := by
    intro configs _ hmem
    rcases List.mem_append.1 hmem with h | h
    · simpa using (List.mem_filter.1 h).2
    · exact hneg (List.mem_singleton.1 h).symm
  refine ⟨?_, ?_, ?_⟩
  · rw [parsePatchInfoTagInclude_textElement, includeTokens_eq_filter X _ hnodup]
    refine ⟨rfl, count_filter_append_last X X _ (by simp), ?_⟩
    intro hmem
    rcases List.mem_append.1 hmem with h | h
    · simpa using (List.mem_filter.1 h).2
    · exact hneg (List.mem_singleton.1 h)
  · rw [parsePatchInfoTagExclude_textElement, excludeTokens_eq_filter X _ hnodup]
    exact ⟨rfl, count_filter_append_last ("!" ++ X) X _ (by simp), hexcl _ hnodup⟩
  · have hnodup2 := includeTokens_nodup X _ hnodup
    rw [parsePatchInfoTagExclude_textElement, parsePatchInfoTagInclude_textElement,
      excludeTokens_eq_filter X _ hnodup2]
    exact ⟨List.mem_append.2 (Or.inr (List.mem_singleton.2 rfl)), hexcl _ hnodup2⟩

theorem include_exclude_last_writer_wins_witness :
    LoaderTokens (({ supportedConfigsMap := [("default", ["all", "dual"])] } :
        PatchInfo).supportedConfigs "default") ∧
      (parsePatchInfoTagExclude (textElement PatchInfoTagExclude "dual")
        { supportedConfigsMap := [("default", ["all", "dual"])] }
        "default").supportedConfigs "default" = ["all", "!dual"] := by
  have hbuilt : LoaderTokens (({ supportedConfigsMap := [("default", ["all", "dual"])] } :
      PatchInfo).supportedConfigs "default") :=
    LoaderTokens.includeStep "dual" (LoaderTokens.seed LoaderTokens.fresh)
  refine ⟨hbuilt, ?_⟩
  rw [(include_exclude_last_writer_wins _ "default" "dual" hbuilt).2.1.1]
  decide

/-- C9: on a token sequence that the loader can have built, the exclude entry for `X`
applied twice gives the token sequence of applying it once, which ends in `!X` and
holds `!X` once; likewise the include entry for `X`, with `X`. -/
theorem repeated_directive_idempotent (info : PatchInfo) (type X : String)
    (hbuilt : LoaderTokens (info.supportedConfigs type)) :
    ((parsePatchInfoTagExclude (textElement PatchInfoTagExclude X)
          (parsePatchInfoTagExclude (textElement PatchInfoTagExclude X) info type)
          type).supportedConfigs type =
        (parsePatchInfoTagExclude (textElement PatchInfoTagExclude X) info
          type).supportedConfigs type ∧
      ((parsePatchInfoTagExclude (textElement PatchInfoTagExclude X)
          (parsePatchInfoTagExclude (textElement PatchInfoTagExclude X) info type)
          type).supportedConfigs type).getLast? = some ("!" ++ X) ∧
      ((parsePatchInfoTagExclude (textElement PatchInfoTagExclude X)
          (parsePatchInfoTagExclude (textElement PatchInfoTagExclude X) info type)
          type).supportedConfigs type).count ("!" ++ X) = 1) ∧
    ((parsePatchInfoTagInclude (textElement PatchInfoTagInclude X)
          (parsePatchInfoTagInclude (textElement PatchInfoTagInclude X) info type)
          type).supportedConfigs type =
        (parsePatchInfoTagInclude (textElement PatchInfoTagInclude X) info
          type).supportedConfigs type ∧
      ((parsePatchInfoTagInclude (textElement PatchInfoTagInclude X)
          (parsePatchInfoTagInclude (textElement PatchInfoTagInclude X) info type)
          type).supportedConfigs type).getLast? = some X ∧
      ((parsePatchInfoTagInclude (textElement PatchInfoTagInclude X)
          (parsePatchInfoTagInclude (textElement PatchInfoTagInclude X) info type)
          type).supportedConfigs type).count X = 1) := by
  have hnodup := hbuilt.nodup
  constructor
  · simp only [parsePatchInfoTagExclude_textElement, excludeTokens_idem X _ hnodup]
    rw [excludeTokens_eq_filter X _ hnodup]
    exact ⟨trivial, by simp, count_filter_append_last ("!" ++ X) X _ (by simp)⟩
  · simp only [parsePatchInfoTagInclude_textElement, includeTokens_idem X _ hnodup]
    rw [includeTokens_eq_filter X _ hnodup]
    exact ⟨trivial, by simp, count_filter_append_last X X _ (by simp)⟩

theorem repeated_directive_idempotent_witness :
    LoaderTokens (({ supportedConfigsMap := [("default", ["all"])] } :
        PatchInfo).supportedConfigs "default") ∧
      (parsePatchInfoTagExclude (textElement PatchInfoTagExclude "dual")
        (parsePatchInfoTagExclude (textElement PatchInfoTagExclude "dual")
          { supportedConfigsMap := [("default", ["all"])] } "default")
        "default").supportedConfigs "default" = ["all", "!dual"] := by
  have hbuilt : LoaderTokens (({ supportedConfigsMap := [("default", ["all"])] } :
      PatchInfo).supportedConfigs "default") := LoaderTokens.seed LoaderTokens.fresh
  refine ⟨hbuilt, ?_⟩
  rw [(repeated_directive_idempotent _ "default" "dual" hbuilt).1.1]
  decide

/-! ## Component factory -/

/-- C10: for an identifier that `patchers ()` does not list, `createPatcher` returns
the empty pointer and `patcherName` the empty string; for one that `autoPatchers ()`
does not list, `createAutoPatcher` returns the empty pointer; for one that
`ramdiskPatchers ()` does not list, `createRamdiskPatcher` returns the empty pointer.
The three functions only return a pointer: there is no error value to return or store. -/
theorem create_unknown_id_empty {FileInfo CpioFile : Type} (K : PatcherConstants)
    (pp : Impl) (id : String) (info : FileInfo) (args : AutoPatcherArgs) (cpio : CpioFile) :
    (id ∉ patchers K → createPatcher K pp id = none ∧ patcherName K id = "") ∧
    (id ∉ autoPatchers K → createAutoPatcher K pp id info args = none) ∧
    (id ∉ ramdiskPatchers K → createRamdiskPatcher K pp id info cpio = none) := by
  refine ⟨fun h => ?_, fun h => ?_, fun h => ?_⟩
  · simp only [patchers, List.mem_cons, List.mem_singleton, List.not_mem_nil, or_false,
      not_or] at h
    simp [createPatcher, patcherName, h]
  · simp only [autoPatchers, List.mem_cons, List.mem_singleton, List.not_mem_nil, or_false,
      not_or] at h
    simp [createAutoPatcher, h]
  · simp only [ramdiskPatchers, List.mem_cons, List.mem_singleton, List.not_mem_nil,
      or_false, not_or] at h
    simp [createRamdiskPatcher, h]

theorem create_unknown_id_empty_witness :
    "NoSuchPatcher" ∉ patchers exampleConstants ∧
      createPatcher exampleConstants exampleImpl "NoSuchPatcher" = none ∧
      patcherName exampleConstants "NoSuchPatcher" = "" ∧
      createAutoPatcher exampleConstants exampleImpl "MultiBootPatcher" () [] = none ∧
      createRamdiskPatcher exampleConstants exampleImpl "StandardPatcher" () () = none :=
  have h := create_unknown_id_empty exampleConstants exampleImpl "NoSuchPatcher" () [] ()
  ⟨by decide, (h.1 (by decide)).1, (h.1 (by decide)).2,
    (create_unknown_id_empty exampleConstants exampleImpl "MultiBootPatcher" () []
      ()).2.1 (by decide),
    (create_unknown_id_empty exampleConstants exampleImpl "StandardPatcher" () []
      ()).2.2 (by decide)⟩

/-- C11: the factory dispatch and the listing methods cover the same identifiers:
`createPatcher (id)` is non-empty exactly when `patchers ()` lists `id`,
`createAutoPatcher (id, ..)` exactly when `autoPatchers ()` lists it, and
`createRamdiskPatcher (id, ..)` exactly when `ramdiskPatchers ()` lists it. -/
theorem create_nonempty_iff_listed {FileInfo CpioFile : Type} (K : PatcherConstants)
    (pp : Impl) (id : String) (info : FileInfo) (args : AutoPatcherArgs) (cpio : CpioFile) :
    (createPatcher K pp id ≠ none ↔ id ∈ patchers K) ∧
    (createAutoPatcher K pp id info args ≠ none ↔ id ∈ autoPatchers K) ∧
    (createRamdiskPatcher K pp id info cpio ≠ none ↔ id ∈ ramdiskPatchers K) := by
  refine ⟨?_, ?_, ?_⟩
  · by_cases h1 : id = K.MultiBootPatcher_Id
    · subst h1
      exact ⟨fun _ => by simp [patchers], fun _ => by simp [createPatcher]⟩
    by_cases h2 : id = K.PrimaryUpgradePatcher_Id
    · subst h2
      exact ⟨fun _ => by simp [patchers], fun _ => by simp [createPatcher, h1]⟩
    by_cases h3 : id = K.SyncdaemonUpdatePatcher_Id
    · subst h3
      exact ⟨fun _ => by simp [patchers], fun _ => by simp [createPatcher, h1, h2]⟩
    exact ⟨fun h => absurd (by simp [createPatcher, h1, h2, h3]) h,
      fun h => absurd h (by simp [patchers, h1, h2, h3])⟩
  · by_cases h1 : id = K.JflteDalvikCachePatcher_Id
    · subst h1
      exact ⟨fun _ => by simp [autoPatchers], fun _ => by simp [createAutoPatcher]⟩
    by_cases h2 : id = K.JflteGoogleEditionPatcher_Id
    · subst h2
      exact ⟨fun _ => by simp [autoPatchers], fun _ => by simp [createAutoPatcher, h1]⟩
    by_cases h3 : id = K.JflteSlimAromaBundledMount_Id
    · subst h3
      exact ⟨fun _ => by simp [autoPatchers], fun _ => by simp [createAutoPatcher, h1, h2]⟩
    by_cases h4 : id = K.JflteImperiumPatcher_Id
    · subst h4
      exact ⟨fun _ => by simp [autoPatchers], fun _ => by simp [createAutoPatcher, h1, h2, h3]⟩
    by_cases h5 : id = K.JflteNegaliteNoWipeData_Id
    · subst h5
      exact ⟨fun _ => by simp [autoPatchers], fun _ => by simp [createAutoPatcher, h1, h2, h3, h4]⟩
    by_cases h6 : id = K.JflteTriForceFixAroma_Id
    · subst h6
      exact ⟨fun _ => by simp [autoPatchers], fun _ => by simp [createAutoPatcher, h1, h2, h3, h4, h5]⟩
    by_cases h7 : id = K.JflteTriForceFixUpdate_Id
    · subst h7
      exact ⟨fun _ => by simp [autoPatchers], fun _ => by simp [createAutoPatcher, h1, h2, h3, h4, h5, h6]⟩
    by_cases h8 : id = K.NoobdevMultiBoot_Id
    · subst h8
      exact ⟨fun _ => by simp [autoPatchers], fun _ => by simp [createAutoPatcher, h1, h2, h3, h4, h5, h6, h7]⟩
    by_cases h9 : id = K.NoobdevSystemProp_Id
    · subst h9
      exact ⟨fun _ => by simp [autoPatchers], fun _ => by simp [createAutoPatcher, h1, h2, h3, h4, h5, h6, h7, h8]⟩
    by_cases h10 : id = K.PatchFilePatcher_Id
    · subst h10
      exact ⟨fun _ => by simp [autoPatchers], fun _ => by simp [createAutoPatcher, h1, h2, h3, h4, h5, h6, h7, h8, h9]⟩
    by_cases h11 : id = K.StandardPatcher_Id
    · subst h11
      exact ⟨fun _ => by simp [autoPatchers], fun _ => by simp [createAutoPatcher, h1, h2, h3, h4, h5, h6, h7, h8, h9, h10]⟩
    exact ⟨fun h => absurd (by simp [createAutoPatcher, h1, h2, h3, h4, h5, h6, h7, h8, h9, h10, h11]) h,
      fun h => absurd h (by simp [autoPatchers, h1, h2, h3, h4, h5, h6, h7, h8, h9, h10, h11])⟩
  · by_cases h1 : id = K.BaconRamdiskPatcher_Id
    · subst h1
      exact ⟨fun _ => by simp [ramdiskPatchers], fun _ => by simp [createRamdiskPatcher]⟩
    by_cases h2 : id = K.D800RamdiskPatcher_Id
    · subst h2
      exact ⟨fun _ => by simp [ramdiskPatchers], fun _ => by simp [createRamdiskPatcher, h1]⟩
    by_cases h3 : id = K.FalconRamdiskPatcher_Id
    · subst h3
      exact ⟨fun _ => by simp [ramdiskPatchers], fun _ => by simp [createRamdiskPatcher, h1, h2]⟩
    by_cases h4 : id = K.HammerheadAOSPRamdiskPatcher_Id
    · subst h4
      exact ⟨fun _ => by simp [ramdiskPatchers], fun _ => by simp [createRamdiskPatcher, h1, h2, h3]⟩
    by_cases h5 : id = K.HammerheadNoobdevRamdiskPatcher_Id
    · subst h5
      exact ⟨fun _ => by simp [ramdiskPatchers], fun _ => by simp [createRamdiskPatcher, h1, h2, h3, h4]⟩
    by_cases h6 : id = K.HlteAOSPRamdiskPatcher_Id
    · subst h6
      exact ⟨fun _ => by simp [ramdiskPatchers], fun _ => by simp [createRamdiskPatcher, h1, h2, h3, h4, h5]⟩
    by_cases h7 : id = K.JflteAOSPRamdiskPatcher_Id
    · subst h7
      exact ⟨fun _ => by simp [ramdiskPatchers], fun _ => by simp [createRamdiskPatcher, h1, h2, h3, h4, h5, h6]⟩
    by_cases h8 : id = K.JflteGoogleEditionRamdiskPatcher_Id
    · subst h8
      exact ⟨fun _ => by simp [ramdiskPatchers], fun _ => by simp [createRamdiskPatcher, h1, h2, h3, h4, h5, h6, h7]⟩
    by_cases h9 : id = K.JflteNoobdevRamdiskPatcher_Id
    · subst h9
      exact ⟨fun _ => by simp [ramdiskPatchers], fun _ => by simp [createRamdiskPatcher, h1, h2, h3, h4, h5, h6, h7, h8]⟩
    by_cases h10 : id = K.JflteTouchWizRamdiskPatcher_Id
    · subst h10
      exact ⟨fun _ => by simp [ramdiskPatchers], fun _ => by simp [createRamdiskPatcher, h1, h2, h3, h4, h5, h6, h7, h8, h9]⟩
    by_cases h11 : id = K.KlteAOSPRamdiskPatcher_Id
    · subst h11
      exact ⟨fun _ => by simp [ramdiskPatchers], fun _ => by simp [createRamdiskPatcher, h1, h2, h3, h4, h5, h6, h7, h8, h9, h10]⟩
    by_cases h12 : id = K.KlteTouchWizRamdiskPatcher_Id
    · subst h12
      exact ⟨fun _ => by simp [ramdiskPatchers], fun _ => by simp [createRamdiskPatcher, h1, h2, h3, h4, h5, h6, h7, h8, h9, h10, h11]⟩
    exact ⟨fun h => absurd (by simp [createRamdiskPatcher, h1, h2, h3, h4, h5, h6, h7, h8, h9, h10, h11, h12]) h,
      fun h => absurd h (by simp [ramdiskPatchers, h1, h2, h3, h4, h5, h6, h7, h8, h9, h10, h11, h12])⟩

/-! ## Directory configuration, reset and lookups -/

/-- C17: `reset ()` does not clear the binaries and the scripts overrides. After
`setBinariesDirectory ("/custom/bin")` and `reset ()`, `binariesDirectory ()` is still
`/custom/bin` and not the default `/binaries`; likewise for the scripts directory;
the inits, patches and patchinfos directories are back at their defaults. -/
theorem reset_keeps_binaries_and_scripts_overrides :
    binariesDirectory (reset (setBinariesDirectory (new "1.0" [] []) "/custom/bin")) =
        "/custom/bin" ∧
      binariesDirectory (reset (setBinariesDirectory (new "1.0" [] []) "/custom/bin")) ≠
        dataDirectory (reset (setBinariesDirectory (new "1.0" [] []) "/custom/bin")) ++
          "/" ++ BinariesDirName ∧
      scriptsDirectory (reset (setScriptsDirectory (new "1.0" [] []) "/custom/scripts")) =
        "/custom/scripts" ∧
      initsDirectory (reset (setInitsDirectory (new "1.0" [] []) "/custom/inits")) =
        "/inits" ∧
      patchesDirectory (reset (setPatchesDirectory (new "1.0" [] []) "/custom/patches")) =
        "/patches" ∧
      patchInfosDirectory (reset (setPatchInfosDirectory (new "1.0" [] []) "/custom/pi")) =
        "/patchinfos" := by
  decide

theorem deviceFromCodenameLoop_eq_find (codename : String) (devices : List Device) :
    deviceFromCodenameLoop codename devices =
      devices.find? (fun d => decide (d.codename = codename)) := by
  induction devices with
  | nil => rfl
  | cons d rest ih =>
    by_cases h : d.codename = codename <;>
      simp [deviceFromCodenameLoop, List.find?_cons, h, ih]

theorem partitionConfigLoop_eq_find (id : String) (configs : List PartitionConfig) :
    partitionConfigLoop id configs = configs.find? (fun c => decide (c.id = id)) := by
  induction configs with
  | nil => rfl
  | cons c rest ih =>
    by_cases h : c.id = id <;>
      simp [partitionConfigLoop, List.find?_cons, h, ih]

/-- C18: `reset ()` empties the device list, so `deviceFromCodename` then returns
`nullptr` for every codename, and it leaves the descriptor list and the partition
config list as they were. -/
theorem reset_clears_devices_only (impl : Impl) (codename : String) :
    (reset impl).devices = [] ∧
      deviceFromCodename (reset impl) codename = none ∧
      (reset impl).patchInfos = impl.patchInfos ∧
      (reset impl).partConfigs = impl.partConfigs :=
  ⟨rfl, rfl, rfl, rfl⟩

/-- C19: each of the five directory getters returns its override when that is
non-empty and otherwise `dataDirectory () + "/" +` its fixed name; a directory setter
changes the result of no getter of another directory. -/
theorem directory_getters_and_setters (impl : Impl) (path : String) :
    (binariesDirectory impl =
        if impl.binariesDir ≠ "" then impl.binariesDir
        else dataDirectory impl ++ "/" ++ "binaries") ∧
    (initsDirectory impl =
        if impl.initsDir ≠ "" then impl.initsDir
        else dataDirectory impl ++ "/" ++ "inits") ∧
    (patchesDirectory impl =
        if impl.patchesDir ≠ "" then impl.patchesDir
        else dataDirectory impl ++ "/" ++ "patches") ∧
    (patchInfosDirectory impl =
        if impl.patchInfosDir ≠ "" then impl.patchInfosDir
        else dataDirectory impl ++ "/" ++ "patchinfos") ∧
    (scriptsDirectory impl =
        if impl.scriptsDir ≠ "" then impl.scriptsDir
        else dataDirectory impl ++ "/" ++ "scripts") ∧
    ((setBinariesDirectory impl path).binariesDir = path ∧
      (setInitsDirectory impl path).initsDir = path ∧
      (setPatchesDirectory impl path).patchesDir = path ∧
      (setPatchInfosDirectory impl path).patchInfosDir = path ∧
      (setScriptsDirectory impl path).scriptsDir = path) ∧
    (initsDirectory (setBinariesDirectory impl path) = initsDirectory impl ∧
      patchesDirectory (setBinariesDirectory impl path) = patchesDirectory impl ∧
      patchInfosDirectory (setBinariesDirectory impl path) = patchInfosDirectory impl ∧
      scriptsDirectory (setBinariesDirectory impl path) = scriptsDirectory impl) ∧
    (binariesDirectory (setInitsDirectory impl path) = binariesDirectory impl ∧
      patchesDirectory (setInitsDirectory impl path) = patchesDirectory impl ∧
      patchInfosDirectory (setInitsDirectory impl path) = patchInfosDirectory impl ∧
      scriptsDirectory (setInitsDirectory impl path) = scriptsDirectory impl) ∧
    (binariesDirectory (setPatchesDirectory impl path) = binariesDirectory impl ∧
      initsDirectory (setPatchesDirectory impl path) = initsDirectory impl ∧
      patchInfosDirectory (setPatchesDirectory impl path) = patchInfosDirectory impl ∧
      scriptsDirectory (setPatchesDirectory impl path) = scriptsDirectory impl) ∧
    (binariesDirectory (setPatchInfosDirectory impl path) = binariesDirectory impl ∧
      initsDirectory (setPatchInfosDirectory impl path) = initsDirectory impl ∧
      patchesDirectory (setPatchInfosDirectory impl path) = patchesDirectory impl ∧
      scriptsDirectory (setPatchInfosDirectory impl path) = scriptsDirectory impl) ∧
    (binariesDirectory (setScriptsDirectory impl path) = binariesDirectory impl ∧
      initsDirectory (setScriptsDirectory impl path) = initsDirectory impl ∧
      patchesDirectory (setScriptsDirectory impl path) = patchesDirectory impl ∧
      patchInfosDirectory (setScriptsDirectory impl path) = patchInfosDirectory impl) := by
  refine ⟨?_, ?_, ?_, ?_, ?_, ⟨rfl, rfl, rfl, rfl, rfl⟩, ⟨rfl, rfl, rfl, rfl⟩,
    ⟨rfl, rfl, rfl, rfl⟩, ⟨rfl, rfl, rfl, rfl⟩, ⟨rfl, rfl, rfl, rfl⟩, ⟨rfl, rfl, rfl, rfl⟩⟩
  · unfold binariesDirectory BinariesDirName
    by_cases h : impl.binariesDir = "" <;> simp [h]
  · unfold initsDirectory InitsDirName
    by_cases h : impl.initsDir = "" <;> simp [h]
  · unfold patchesDirectory PatchesDirName
    by_cases h : impl.patchesDir = "" <;> simp [h]
  · unfold patchInfosDirectory PatchInfosDirName
    by_cases h : impl.patchInfosDir = "" <;> simp [h]
  · unfold scriptsDirectory ScriptsDirName
    by_cases h : impl.scriptsDir = "" <;> simp [h]

/-- C20: `deviceFromCodename (c)` returns `d` exactly when `d` is the first device of
the list whose codename is `c`, and `nullptr` exactly when no device has codename `c`;
`partitionConfig (id)` does the same over the partition configs and their identifiers.
Both are total: a miss is the null result. -/
theorem lookups_first_match_or_null (impl : Impl) (key : String) :
    (∀ d : Device, deviceFromCodename impl key = some d ↔
      ∃ before after : List Device, impl.devices = before ++ d :: after ∧
        d.codename = key ∧ ∀ x ∈ before, x.codename ≠ key) ∧
    (deviceFromCodename impl key = none ↔ ∀ x ∈ impl.devices, x.codename ≠ key) ∧
    (∀ c : PartitionConfig, partitionConfig impl key = some c ↔
      ∃ before after : List PartitionConfig, impl.partConfigs = before ++ c :: after ∧
        c.id = key ∧ ∀ x ∈ before, x.id ≠ key) ∧
    (partitionConfig impl key = none ↔ ∀ x ∈ impl.partConfigs, x.id ≠ key) := by
  unfold deviceFromCodename partitionConfig
  rw [deviceFromCodenameLoop_eq_find, partitionConfigLoop_eq_find]
  refine ⟨fun d => ?_, ?_, fun c => ?_, ?_⟩
  · rw [List.find?_eq_some]
    constructor
    · rintro ⟨hd, before, after, hsplit, hbefore⟩
      exact ⟨before, after, hsplit, by simpa using hd,
        fun x hx => by simpa using hbefore x hx⟩
    · rintro ⟨before, after, hsplit, hd, hbefore⟩
      exact ⟨by simpa using hd, before, after, hsplit,
        fun x hx => by simpa using hbefore x hx⟩
  · simp [List.find?_eq_none]
  · rw [List.find?_eq_some]
    constructor
    · rintro ⟨hc, before, after, hsplit, hbefore⟩
      exact ⟨before, after, hsplit, by simpa using hc,
        fun x hx => by simpa using hbefore x hx⟩
    · rintro ⟨before, after, hsplit, hc, hbefore⟩
      exact ⟨by simpa using hc, before, after, hsplit,
        fun x hx => by simpa using hbefore x hx⟩
  · simp [List.find?_eq_none]

/-! ## Descriptor loader -/

theorem eraseFirstChars_append (search rest : List Char) :
    eraseFirstChars (search ++ rest) search = rest := by
  cases h : search ++ rest with
  | nil =>
    have hrest : rest = [] := (List.append_eq_nil.1 h).2
    simp [eraseFirstChars, hrest]
  | cons c tail =>
    have hpre : search.isPrefixOf (c :: tail) = true := by
      rw [← h, List.isPrefixOf_iff_prefix]
      exact List.prefix_append _ _
    simp only [eraseFirstChars, hpre, if_true]
    rw [← h, List.drop_left]

theorem erase_first_append (search rest : String) :
    erase_first (search ++ rest) search = rest := by
  simp [erase_first, String.data_append, eraseFirstChars_append]

theorem erase_tail_append_xml (rel : String) : erase_tail (rel ++ ".xml") 4 = rel := by
  have hlen : (".xml" : String).data.length = 4 := by decide
  simp [erase_tail, String.data_append, hlen]

/-- The identifier that line 618-620 computes for the path `dir ++ rel ++ ".xml"`. -/
theorem pathId_eq (dir rel : String) :
    erase_tail (erase_first (dir ++ rel ++ ".xml") dir) 4 = rel := by
  rw [String.append_assoc, erase_first_append, erase_tail_append_xml]

theorem loadPatchInfoXmlStep_misc (keys : PatchInfoKeys) (pathId : String)
    (misc : List xmlNode) (impl : Impl)
    (hmisc : ∀ n ∈ misc, n.type ≠ xmlElementType.XML_ELEMENT_NODE) :
    misc.foldl (loadPatchInfoXmlStep keys pathId) impl = impl := by
  induction misc generalizing impl with
  | nil => rfl
  | cons n rest ih =>
    have hn : n.type ≠ xmlElementType.XML_ELEMENT_NODE := hmisc n (List.mem_cons_self _ _)
    rw [List.foldl_cons]
    have hstep : loadPatchInfoXmlStep keys pathId impl n = impl := by
      simp [loadPatchInfoXmlStep, hn]
    rw [hstep]
    exact ih impl (fun m hm => hmisc m (List.mem_cons_of_mem _ hm))

theorem loadPatchInfoXml_wellFormed (keys : PatchInfoKeys) (fs : FileSystem)
    (path pathId : String) (impl : Impl) (doc : xmlDoc)
    (hdoc : fs.xmlReadFile path = some doc) (hwf : doc.wellFormed = true) :
    loadPatchInfoXml keys fs path pathId impl =
      ({ impl with patchInfos := impl.patchInfos ++ descriptorsOf keys pathId doc }, true) := by
  unfold loadPatchInfoXml
  rw [hdoc]
  obtain ⟨chain⟩ := doc
  cases chain with
  | nil => simp [xmlDoc.wellFormed] at hwf
  | cons root misc =>
    simp only [xmlDoc.wellFormed, Bool.and_eq_true, decide_eq_true_eq, List.all_eq_true] at hwf
    obtain ⟨hroot, hmisc⟩ := hwf
    simp only [List.foldl_cons, descriptorsOf]
    rw [loadPatchInfoXmlStep_misc keys pathId misc _ hmisc]
    by_cases hname : root.name = PatchInfoTagPatchinfo
    · simp [loadPatchInfoXmlStep, hroot, hname]
    · simp [loadPatchInfoXmlStep, hroot, hname]

theorem loadPatchInfoXml_none (keys : PatchInfoKeys) (fs : FileSystem)
    (path pathId : String) (impl : Impl) (hdoc : fs.xmlReadFile path = none) :
    loadPatchInfoXml keys fs path pathId impl =
      ({ impl with error := { code := ErrorCode.XmlParseFileError, filename := path } },
        false) := by
  unfold loadPatchInfoXml
  rw [hdoc]

theorem loadPatchInfoXmlStep_error (keys : PatchInfoKeys) (pathId : String)
    (nodes : List xmlNode) (impl : Impl) :
    (nodes.foldl (loadPatchInfoXmlStep keys pathId) impl).error = impl.error := by
  induction nodes generalizing impl with
  | nil => rfl
  | cons n rest ih =>
    rw [List.foldl_cons, ih]
    unfold loadPatchInfoXmlStep
    split
    · rfl
    · split <;> rfl

theorem loadPatchInfoXml_some (keys : PatchInfoKeys) (fs : FileSystem)
    (path pathId : String) (impl : Impl) (doc : xmlDoc)
    (hdoc : fs.xmlReadFile path = some doc) :
    (loadPatchInfoXml keys fs path pathId impl).2 = true ∧
      (loadPatchInfoXml keys fs path pathId impl).1.error = impl.error := by
  unfold loadPatchInfoXml
  rw [hdoc]
  exact ⟨rfl, loadPatchInfoXmlStep_error keys pathId _ impl⟩

theorem descriptorsOf_length (keys : PatchInfoKeys) (pathId : String) (doc : xmlDoc) :
    (descriptorsOf keys pathId doc).length =
      if rootIsPatchinfo (some doc) = true then 1 else 0 := by
  obtain ⟨chain⟩ := doc
  cases chain with
  | nil => simp [descriptorsOf, rootIsPatchinfo]
  | cons root misc =>
    by_cases hname : root.name = PatchInfoTagPatchinfo <;>
      simp [descriptorsOf, rootIsPatchinfo, hname]

theorem descriptorsOf_id (keys : PatchInfoKeys) (pathId : String) (doc : xmlDoc) :
    ∀ info ∈ descriptorsOf keys pathId doc, info.id = pathId := by
  obtain ⟨chain⟩ := doc
  cases chain with
  | nil => simp [descriptorsOf]
  | cons root misc =>
    by_cases hname : root.name = PatchInfoTagPatchinfo <;>
      simp [descriptorsOf, hname, PatchInfo.setId]

theorem loadPatchInfosLoop_cons_skip (keys : PatchInfoKeys) (fs : FileSystem) (dir : String)
    (failure : Option String) (entry : DirectoryEntry) (rest : List DirectoryEntry)
    (impl : Impl) (hfile : isDescriptionFile fs entry = false) :
    loadPatchInfosLoop keys fs dir failure (entry :: rest) impl =
      loadPatchInfosLoop keys fs dir failure rest impl := by
  simp [loadPatchInfosLoop, hfile]

theorem loadPatchInfosLoop_cons_none (keys : PatchInfoKeys) (fs : FileSystem) (dir : String)
    (failure : Option String) (entry : DirectoryEntry) (rest : List DirectoryEntry)
    (impl : Impl) (hfile : isDescriptionFile fs entry = true)
    (hdoc : fs.xmlReadFile entry.path = none) :
    loadPatchInfosLoop keys fs dir failure (entry :: rest) impl =
      { impl := { impl with error :=
          { code := ErrorCode.XmlParseFileError, filename := entry.path } },
        ok := false, warning := none } := by
  simp [loadPatchInfosLoop, hfile, loadPatchInfoXml_none _ _ _ _ _ hdoc]

theorem loadPatchInfosLoop_cons_some (keys : PatchInfoKeys) (fs : FileSystem) (dir : String)
    (failure : Option String) (entry : DirectoryEntry) (rest : List DirectoryEntry)
    (impl : Impl) (doc : xmlDoc) (hfile : isDescriptionFile fs entry = true)
    (hdoc : fs.xmlReadFile entry.path = some doc) :
    loadPatchInfosLoop keys fs dir failure (entry :: rest) impl =
      loadPatchInfosLoop keys fs dir failure rest
        (loadPatchInfoXml keys fs entry.path
          (erase_tail (erase_first entry.path dir) 4) impl).1 := by
  have hok := (loadPatchInfoXml_some keys fs entry.path
    (erase_tail (erase_first entry.path dir) 4) impl doc hdoc).1
  rw [loadPatchInfosLoop]
  simp only [hfile, if_true]
  generalize loadPatchInfoXml keys fs entry.path
    (erase_tail (erase_first entry.path dir) 4) impl = res at hok
  obtain ⟨impl2, ok⟩ := res
  simp only at hok
  subst hok
  rfl

theorem loadPatchInfosLoop_count (keys : PatchInfoKeys) (fs : FileSystem) (dir : String)
    (failure : Option String) (entries : List DirectoryEntry) (impl : Impl)
    (hwf : ∀ e ∈ entries, ∀ doc, fs.xmlReadFile e.path = some doc → doc.wellFormed = true) :
    (loadPatchInfosLoop keys fs dir failure entries impl).ok = false ∨
      ∃ added : List PatchInfo,
        (loadPatchInfosLoop keys fs dir failure entries impl).impl.patchInfos =
          impl.patchInfos ++ added ∧
        added.length =
          (entries.filter (fun e =>
            isDescriptionFile fs e && rootIsPatchinfo (fs.xmlReadFile e.path))).length := by
  induction entries generalizing impl with
  | nil =>
    cases failure with
    | none => exact Or.inr ⟨[], by simp [loadPatchInfosLoop], rfl⟩
    | some what => exact Or.inl rfl
  | cons e rest ih =>
    have hwfRest : ∀ x ∈ rest, ∀ doc, fs.xmlReadFile x.path = some doc →
        doc.wellFormed = true := fun x hx => hwf x (List.mem_cons_of_mem _ hx)
    by_cases hfile : isDescriptionFile fs e = true
    · cases hdoc : fs.xmlReadFile e.path with
      | none =>
        rw [loadPatchInfosLoop_cons_none keys fs dir failure e rest impl hfile hdoc]
        exact Or.inl rfl
      | some doc =>
        rw [loadPatchInfosLoop_cons_some keys fs dir failure e rest impl doc hfile hdoc,
          loadPatchInfoXml_wellFormed keys fs _ _ impl doc hdoc
            (hwf e (List.mem_cons_self _ _) doc hdoc)]
        rcases ih _ hwfRest with hfail | ⟨added, hadded, hlen⟩
        · exact Or.inl hfail
        · refine Or.inr
            ⟨descriptorsOf keys (erase_tail (erase_first e.path dir) 4) doc ++ added, ?_, ?_⟩
          · rw [hadded, List.append_assoc]
          · rw [List.length_append, hlen, descriptorsOf_length, List.filter_cons]
            by_cases hroot : rootIsPatchinfo (some doc) = true
            · simp [hfile, hroot, hdoc, Nat.add_comm]
            · simp [hfile, hroot, hdoc]
    · have hfile2 : isDescriptionFile fs e = false := by simpa using hfile
      rw [loadPatchInfosLoop_cons_skip keys fs dir failure e rest impl hfile2]
      rcases ih impl hwfRest with hfail | ⟨added, hadded, hlen⟩
      · exact Or.inl hfail
      · exact Or.inr ⟨added, hadded, by rw [hlen, List.filter_cons]; simp [hfile2]⟩

/-- C12 (as stated, refuted): a directory with one description file, parseable, whose
root element is `<device>`: the load succeeds and registers no descriptor. -/
theorem loadPatchInfos_foreign_root_registers_nothing :
    (loadPatchInfos exampleKeys exampleForeignFileSystem (new "1.0" [] [])).ok = true ∧
      (loadPatchInfos exampleKeys exampleForeignFileSystem
        (new "1.0" [] [])).impl.patchInfos.length = 0 ∧
      ((exampleForeignFileSystem.walk "/patchinfos/").entries.filter
        (isDescriptionFile exampleForeignFileSystem)).length = 1 := by
  decide

/-- C12 (amended): when every parsed document is well-formed, the load either fails or
appends exactly one descriptor for each description file whose root element is the
`patchinfo` tag, and none for the other description files. -/
theorem loadPatchInfos_one_per_patchinfo_root (keys : PatchInfoKeys) (fs : FileSystem)
    (impl : Impl)
    (hwf : ∀ e ∈ (fs.walk (patchInfosDirectory impl ++ "/")).entries,
      ∀ doc, fs.xmlReadFile e.path = some doc → doc.wellFormed = true) :
    (loadPatchInfos keys fs impl).ok = false ∨
      ∃ added : List PatchInfo,
        (loadPatchInfos keys fs impl).impl.patchInfos = impl.patchInfos ++ added ∧
        added.length =
          ((fs.walk (patchInfosDirectory impl ++ "/")).entries.filter (fun e =>
            isDescriptionFile fs e && rootIsPatchinfo (fs.xmlReadFile e.path))).length :=
  loadPatchInfosLoop_count keys fs _ _ _ impl hwf

theorem loadPatchInfos_one_per_patchinfo_root_witness :
    (loadPatchInfos exampleKeys exampleFileSystem (new "1.0" [] [])).ok = false ∨
      ∃ added : List PatchInfo,
        (loadPatchInfos exampleKeys exampleFileSystem (new "1.0" [] [])).impl.patchInfos =
          (new "1.0" [] []).patchInfos ++ added ∧
        added.length = 1 :=
  loadPatchInfos_one_per_patchinfo_root exampleKeys exampleFileSystem (new "1.0" [] [])
    (by
      intro e he doc hdoc
      have hcases : e.path = "/patchinfos/jflte" ∨ e.path = "/patchinfos/jflte/Default.xml" ∨
          e.path = "/patchinfos/README.txt" := by
        have hmem : e ∈ [({ path := "/patchinfos/jflte", isRegularFile := false } :
            DirectoryEntry),
            { path := "/patchinfos/jflte/Default.xml", isRegularFile := true },
            { path := "/patchinfos/README.txt", isRegularFile := true }] := he
        simp only [List.mem_cons, List.mem_singleton, List.not_mem_nil, or_false] at hmem
        rcases hmem with h | h | h <;> simp [h]
      rcases hcases with h | h | h
      · rw [h] at hdoc
        have hnone : exampleFileSystem.xmlReadFile "/patchinfos/jflte" = none := rfl
        rw [hnone] at hdoc
        cases hdoc
      · rw [h] at hdoc
        have hd : doc = examplePatchinfoDoc := by
          have : exampleFileSystem.xmlReadFile "/patchinfos/jflte/Default.xml" =
              some examplePatchinfoDoc := rfl
          rw [this] at hdoc
          exact (Option.some.inj hdoc).symm
        rw [hd]
        decide
      · rw [h] at hdoc
        have hnone : exampleFileSystem.xmlReadFile "/patchinfos/README.txt" = none := rfl
        rw [hnone] at hdoc
        cases hdoc)

theorem loadPatchInfosLoop_walk_irrelevant (keys : PatchInfoKeys) (fs : FileSystem)
    (walk : String → DirectoryWalk) (dir : String) (failure : Option String)
    (entries : List DirectoryEntry) (impl : Impl) :
    loadPatchInfosLoop keys { fs with walk := walk } dir failure entries impl =
      loadPatchInfosLoop keys fs dir failure entries impl := by
  induction entries generalizing impl with
  | nil => rfl
  | cons e rest ih =>
    have hfile : isDescriptionFile { fs with walk := walk } e = isDescriptionFile fs e := rfl
    have hxml : ∀ pathId, loadPatchInfoXml keys { fs with walk := walk } e.path pathId impl =
        loadPatchInfoXml keys fs e.path pathId impl := fun _ => rfl
    simp only [loadPatchInfosLoop, hfile, hxml, ih]

theorem loadPatchInfosLoop_parse_failure (keys : PatchInfoKeys) (fs : FileSystem)
    (dir : String) (failure : Option String) (before after : List DirectoryEntry)
    (e : DirectoryEntry) (impl : Impl)
    (hbefore : ∀ x ∈ before, isDescriptionFile fs x = true → fs.xmlReadFile x.path ≠ none)
    (hfile : isDescriptionFile fs e = true) (hbad : fs.xmlReadFile e.path = none) :
    loadPatchInfosLoop keys fs dir failure (before ++ e :: after) impl =
        { impl := { (loadPatchInfosLoop keys fs dir none before impl).impl with
            error := { code := ErrorCode.XmlParseFileError, filename := e.path } },
          ok := false, warning := none } ∧
      (loadPatchInfosLoop keys fs dir none before impl).ok = true := by
  induction before generalizing impl with
  | nil =>
    rw [List.nil_append, loadPatchInfosLoop_cons_none keys fs dir failure e after impl hfile hbad]
    exact ⟨rfl, rfl⟩
  | cons x rest ih =>
    have hrest : ∀ y ∈ rest, isDescriptionFile fs y = true → fs.xmlReadFile y.path ≠ none :=
      fun y hy => hbefore y (List.mem_cons_of_mem _ hy)
    rw [List.cons_append]
    by_cases hx : isDescriptionFile fs x = true
    · cases hdoc : fs.xmlReadFile x.path with
      | none => exact absurd hdoc (hbefore x (List.mem_cons_self _ _) hx)
      | some doc =>
        rw [loadPatchInfosLoop_cons_some keys fs dir failure x _ impl doc hx hdoc,
          loadPatchInfosLoop_cons_some keys fs dir none x _ impl doc hx hdoc]
        exact ih _ hrest
    · have hx2 : isDescriptionFile fs x = false := by simpa using hx
      rw [loadPatchInfosLoop_cons_skip keys fs dir failure x _ impl hx2,
        loadPatchInfosLoop_cons_skip keys fs dir none x _ impl hx2]
      exact ih impl hrest

/-- C13: when the walk is `before ++ e :: after`, every description file of `before`
parses and the document of the description file `e` cannot be parsed, `loadPatchInfos`
returns `false`, the recorded error is `XmlParseFileError` naming the path of `e`, and
the descriptor list is the one the load of the files of `before` alone leaves (which
succeeds): nothing of `e` or of `after` is registered. -/
theorem loadPatchInfos_parse_failure (keys : PatchInfoKeys) (fs : FileSystem) (impl : Impl)
    (before after : List DirectoryEntry) (e : DirectoryEntry) (failure : Option String)
    (hwalk : fs.walk (patchInfosDirectory impl ++ "/") =
      { entries := before ++ e :: after, failure := failure })
    (hbefore : ∀ x ∈ before, isDescriptionFile fs x = true → fs.xmlReadFile x.path ≠ none)
    (hfile : isDescriptionFile fs e = true) (hbad : fs.xmlReadFile e.path = none) :
    (loadPatchInfos keys fs impl).ok = false ∧
      (loadPatchInfos keys fs impl).impl.error =
        { code := ErrorCode.XmlParseFileError, filename := e.path } ∧
      (loadPatchInfos keys fs impl).impl.patchInfos =
        (loadPatchInfos keys
          { fs with walk := fun _ => { entries := before, failure := none } }
          impl).impl.patchInfos ∧
      (loadPatchInfos keys
          { fs with walk := fun _ => { entries := before, failure := none } }
          impl).ok = true := by
  have h := loadPatchInfosLoop_parse_failure keys fs (patchInfosDirectory impl ++ "/")
    failure before after e impl hbefore hfile hbad
  have hearlier : loadPatchInfos keys
      { fs with walk := fun _ => { entries := before, failure := none } } impl =
      loadPatchInfosLoop keys fs (patchInfosDirectory impl ++ "/") none before impl := by
    unfold loadPatchInfos
    exact loadPatchInfosLoop_walk_irrelevant keys fs _ _ _ _ impl
  have hload : loadPatchInfos keys fs impl =
      loadPatchInfosLoop keys fs (patchInfosDirectory impl ++ "/") failure
        (before ++ e :: after) impl := by
    simp only [loadPatchInfos, hwalk]
  rw [hearlier, hload, h.1]
  exact ⟨rfl, rfl, rfl, h.2⟩

theorem loadPatchInfos_parse_failure_witness :
    (loadPatchInfos exampleKeys exampleBrokenFileSystem (new "1.0" [] [])).ok = false ∧
      (loadPatchInfos exampleKeys exampleBrokenFileSystem (new "1.0" [] [])).impl.error =
        { code := ErrorCode.XmlParseFileError, filename := "/patchinfos/klte/Broken.xml" } ∧
      (loadPatchInfos exampleKeys exampleBrokenFileSystem
        (new "1.0" [] [])).impl.patchInfos.map (fun info => info.id) = ["jflte/Default"] := by
  have h := loadPatchInfos_parse_failure exampleKeys exampleBrokenFileSystem
    (new "1.0" [] [])
    [{ path := "/patchinfos/jflte/Default.xml", isRegularFile := true }]
    [{ path := "/patchinfos/klte/Later.xml", isRegularFile := true }]
    { path := "/patchinfos/klte/Broken.xml", isRegularFile := true } none rfl
    (by
      intro x hx _ hnone
      rw [List.mem_singleton.1 hx] at hnone
      have hsome : exampleBrokenFileSystem.xmlReadFile "/patchinfos/jflte/Default.xml" =
          some examplePatchinfoDoc := rfl
      exact Option.noConfusion (hsome.symm.trans hnone))
    (by decide) rfl
  refine ⟨h.1, h.2.1, ?_⟩
  rw [h.2.2.1]
  decide

theorem loadPatchInfosLoop_walk_failure (keys : PatchInfoKeys) (fs : FileSystem)
    (dir : String) (what : String) (entries : List DirectoryEntry) (impl : Impl)
    (hparse : ∀ x ∈ entries, isDescriptionFile fs x = true → fs.xmlReadFile x.path ≠ none) :
    (loadPatchInfosLoop keys fs dir (some what) entries impl).ok = false ∧
      (loadPatchInfosLoop keys fs dir (some what) entries impl).warning = some what ∧
      (loadPatchInfosLoop keys fs dir (some what) entries impl).impl.error = impl.error := by
  induction entries generalizing impl with
  | nil => exact ⟨rfl, rfl, rfl⟩
  | cons x rest ih =>
    have hrest : ∀ y ∈ rest, isDescriptionFile fs y = true → fs.xmlReadFile y.path ≠ none :=
      fun y hy => hparse y (List.mem_cons_of_mem _ hy)
    by_cases hx : isDescriptionFile fs x = true
    · cases hdoc : fs.xmlReadFile x.path with
      | none => exact absurd hdoc (hparse x (List.mem_cons_self _ _) hx)
      | some doc =>
        rw [loadPatchInfosLoop_cons_some keys fs dir _ x _ impl doc hx hdoc]
        have h := ih (loadPatchInfoXml keys fs x.path
          (erase_tail (erase_first x.path dir) 4) impl).1 hrest
        rw [(loadPatchInfoXml_some keys fs x.path _ impl doc hdoc).2] at h
        exact h
    · have hx2 : isDescriptionFile fs x = false := by simpa using hx
      rw [loadPatchInfosLoop_cons_skip keys fs dir _ x _ impl hx2]
      exact ih impl hrest

/-- C14 (as stated, refuted): without the description-file directory the walk raises,
and `loadPatchInfos` returns `false` to its caller. -/
theorem loadPatchInfos_missing_directory_returns_false :
    (exampleMissingFileSystem.walk
        (patchInfosDirectory (new "1.0" [] []) ++ "/")).failure =
        some "No such file or directory" ∧
      (loadPatchInfos exampleKeys exampleMissingFileSystem (new "1.0" [] [])).ok = false := by
  decide

/-- C14 (amended): when the walk of the description-file directory raises after
entries whose description files all parse, `loadPatchInfos` returns `false`, logs the
exception as a warning and records no error (the error member is as before); when the
walk raises at once, as for a missing directory, the whole state is as before, so no
descriptor is registered. -/
theorem loadPatchInfos_walk_failure (keys : PatchInfoKeys) (fs : FileSystem) (impl : Impl)
    (entries : List DirectoryEntry) (what : String)
    (hwalk : fs.walk (patchInfosDirectory impl ++ "/") =
      { entries := entries, failure := some what })
    (hparse : ∀ x ∈ entries, isDescriptionFile fs x = true → fs.xmlReadFile x.path ≠ none) :
    (loadPatchInfos keys fs impl).ok = false ∧
      (loadPatchInfos keys fs impl).warning = some what ∧
      (loadPatchInfos keys fs impl).impl.error = impl.error ∧
      (entries = [] → (loadPatchInfos keys fs impl).impl = impl) := by
  have hload : loadPatchInfos keys fs impl =
      loadPatchInfosLoop keys fs (patchInfosDirectory impl ++ "/") (some what) entries
        impl := by
    simp only [loadPatchInfos, hwalk]
  rw [hload]
  have h := loadPatchInfosLoop_walk_failure keys fs (patchInfosDirectory impl ++ "/") what
    entries impl hparse
  refine ⟨h.1, h.2.1, h.2.2, fun hnil => ?_⟩
  rw [hnil]
  rfl

theorem loadPatchInfos_walk_failure_witness :
    (loadPatchInfos exampleKeys exampleMissingFileSystem (new "1.0" [] [])).ok = false ∧
      (loadPatchInfos exampleKeys exampleMissingFileSystem (new "1.0" [] [])).warning =
        some "No such file or directory" ∧
      (loadPatchInfos exampleKeys exampleMissingFileSystem (new "1.0" [] [])).impl =
        new "1.0" [] [] :=
  have h := loadPatchInfos_walk_failure exampleKeys exampleMissingFileSystem
    (new "1.0" [] []) [] "No such file or directory" rfl
    (fun x hx => absurd hx (List.not_mem_nil x))
  ⟨h.1, h.2.1, h.2.2.2 rfl⟩

/-- C15: when the loop reaches a description file whose path is
`dir ++ rel ++ ".xml"` (`dir` is the root directory followed by `/`), whose document is
well-formed and has the `patchinfo` root, it registers exactly one descriptor, whose
identifier is `rel`, and goes on with the next entry; `rel` may hold `dir` again. -/
theorem loadPatchInfos_identifier_is_relative_path (keys : PatchInfoKeys) (fs : FileSystem)
    (dir rel : String) (failure : Option String) (e : DirectoryEntry)
    (rest : List DirectoryEntry) (impl : Impl) (doc : xmlDoc)
    (hpath : e.path = dir ++ rel ++ ".xml")
    (hfile : isDescriptionFile fs e = true)
    (hdoc : fs.xmlReadFile e.path = some doc)
    (hwf : doc.wellFormed = true)
    (hroot : rootIsPatchinfo (some doc) = true) :
    ∃ info : PatchInfo, info.id = rel ∧
      loadPatchInfosLoop keys fs dir failure (e :: rest) impl =
        loadPatchInfosLoop keys fs dir failure rest
          { impl with patchInfos := impl.patchInfos ++ [info] } := by
  obtain ⟨chain⟩ := doc
  cases chain with
  | nil => simp [rootIsPatchinfo] at hroot
  | cons root misc =>
    have hname : root.name = PatchInfoTagPatchinfo := by
      simpa [rootIsPatchinfo] using hroot
    refine ⟨(parsePatchInfoTagPatchinfo keys root {}).setId rel, rfl, ?_⟩
    rw [loadPatchInfosLoop_cons_some keys fs dir failure e rest impl _ hfile hdoc,
      loadPatchInfoXml_wellFormed keys fs _ _ impl _ hdoc hwf, hpath, pathId_eq]
    simp [descriptorsOf, hname]

theorem loadPatchInfos_identifier_is_relative_path_witness :
    (loadPatchInfos exampleKeys exampleNestedFileSystem
      (new "1.0" [] [])).impl.patchInfos.map (fun info => info.id) = ["x/patchinfos/b"] := by
  obtain ⟨info, hid, hstep⟩ := loadPatchInfos_identifier_is_relative_path exampleKeys
    exampleNestedFileSystem "/patchinfos/" "x/patchinfos/b" none
    { path := "/patchinfos/x/patchinfos/b.xml", isRegularFile := true } []
    (new "1.0" [] []) examplePatchinfoDoc (by decide) (by decide) rfl (by decide) (by decide)
  have hload : loadPatchInfos exampleKeys exampleNestedFileSystem (new "1.0" [] []) =
      loadPatchInfosLoop exampleKeys exampleNestedFileSystem "/patchinfos/" none
        [{ path := "/patchinfos/x/patchinfos/b.xml", isRegularFile := true }]
        (new "1.0" [] []) := by
    decide
  rw [hload, hstep]
  simp [loadPatchInfosLoop, hid, new, loadDefaultPatchers, loadDefaultDevices]

theorem descriptorsOf_ids_sublist (keys : PatchInfoKeys) (pathId : String) (doc : xmlDoc) :
    ((descriptorsOf keys pathId doc).map (fun info => info.id)).Sublist [pathId] := by
  obtain ⟨chain⟩ := doc
  cases chain with
  | nil => simp [descriptorsOf]
  | cons root misc =>
    by_cases hname : root.name = PatchInfoTagPatchinfo <;>
      simp [descriptorsOf, hname, PatchInfo.setId]

theorem loadPatchInfosLoop_ids (keys : PatchInfoKeys) (fs : FileSystem) (dir : String)
    (failure : Option String) (entries : List DirectoryEntry) (impl : Impl)
    (hwf : ∀ e ∈ entries, ∀ doc, fs.xmlReadFile e.path = some doc → doc.wellFormed = true) :
    ∃ ids : List String,
      ids.Sublist ((entries.filter (isDescriptionFile fs)).map
        (fun e => erase_tail (erase_first e.path dir) 4)) ∧
      (loadPatchInfosLoop keys fs dir failure entries impl).impl.patchInfos.map
          (fun info => info.id) =
        impl.patchInfos.map (fun info => info.id) ++ ids := by
  induction entries generalizing impl with
  | nil =>
    refine ⟨[], List.Sublist.refl _, ?_⟩
    cases failure <;> simp [loadPatchInfosLoop]
  | cons e rest ih =>
    have hwfRest : ∀ x ∈ rest, ∀ doc, fs.xmlReadFile x.path = some doc →
        doc.wellFormed = true := fun x hx => hwf x (List.mem_cons_of_mem _ hx)
    by_cases hfile : isDescriptionFile fs e = true
    · cases hdoc : fs.xmlReadFile e.path with
      | none =>
        rw [loadPatchInfosLoop_cons_none keys fs dir failure e rest impl hfile hdoc]
        exact ⟨[], List.nil_sublist _, by simp⟩
      | some doc =>
        rw [loadPatchInfosLoop_cons_some keys fs dir failure e rest impl doc hfile hdoc,
          loadPatchInfoXml_wellFormed keys fs _ _ impl doc hdoc
            (hwf e (List.mem_cons_self _ _) doc hdoc)]
        obtain ⟨ids, hsub, hids⟩ := ih
          { impl with patchInfos := impl.patchInfos ++
              descriptorsOf keys (erase_tail (erase_first e.path dir) 4) doc } hwfRest
        refine ⟨(descriptorsOf keys (erase_tail (erase_first e.path dir) 4) doc).map
          (fun info => info.id) ++ ids, ?_, ?_⟩
        · rw [List.filter_cons, if_pos hfile, List.map_cons]
          exact List.Sublist.append (descriptorsOf_ids_sublist keys _ doc) hsub
        · rw [hids, List.map_append, List.append_assoc]
    · have hfile2 : isDescriptionFile fs e = false := by simpa using hfile
      rw [loadPatchInfosLoop_cons_skip keys fs dir failure e rest impl hfile2]
      obtain ⟨ids, hsub, hids⟩ := ih impl hwfRest
      exact ⟨ids, by rw [List.filter_cons]; simpa [hfile2] using hsub, hids⟩

/-- C16 (as stated, refuted): two runs of the loader over a directory with distinct
file paths, from a fresh registry: the descriptor of `jflte/Default.xml` is registered
twice, under the same identifier. -/
theorem loadPatchInfos_twice_repeats_identifiers :
    ((exampleFileSystem.walk "/patchinfos/").entries.map (fun e => e.path)).Nodup ∧
      (loadPatchInfos exampleKeys exampleFileSystem
        (loadPatchInfos exampleKeys exampleFileSystem
          (new "1.0" [] [])).impl).impl.patchInfos.map (fun info => info.id) =
        ["jflte/Default", "jflte/Default"] ∧
      ¬((loadPatchInfos exampleKeys exampleFileSystem
        (loadPatchInfos exampleKeys exampleFileSystem
          (new "1.0" [] [])).impl).impl.patchInfos.map (fun info => info.id)).Nodup := by
  decide

/-- C16 (amended): after one run of the loader from a registry without descriptors (a
fresh registry, also after `reset`), over a walk with distinct paths whose description
files have paths `dir ++ rel ++ ".xml"` and well-formed documents, no two registered
descriptors have the same identifier. -/
theorem loadPatchInfos_once_identifiers_distinct (keys : PatchInfoKeys) (fs : FileSystem)
    (impl : Impl) (hempty : impl.patchInfos = [])
    (hdistinct : ((fs.walk (patchInfosDirectory impl ++ "/")).entries.map
      (fun e => e.path)).Nodup)
    (hform : ∀ e ∈ (fs.walk (patchInfosDirectory impl ++ "/")).entries,
      isDescriptionFile fs e = true →
        ∃ rel : String, e.path = patchInfosDirectory impl ++ "/" ++ rel ++ ".xml")
    (hwf : ∀ e ∈ (fs.walk (patchInfosDirectory impl ++ "/")).entries,
      ∀ doc, fs.xmlReadFile e.path = some doc → doc.wellFormed = true) :
    ((loadPatchInfos keys fs impl).impl.patchInfos.map (fun info => info.id)).Nodup := by
  obtain ⟨ids, hsub, hids⟩ := loadPatchInfosLoop_ids keys fs (patchInfosDirectory impl ++ "/")
    (fs.walk (patchInfosDirectory impl ++ "/")).failure
    (fs.walk (patchInfosDirectory impl ++ "/")).entries impl hwf
  have hload : (loadPatchInfos keys fs impl).impl.patchInfos.map (fun info => info.id) =
      ids := by
    simp only [loadPatchInfos]
    rw [hids, hempty]
    rfl
  rw [hload]
  refine List.Nodup.sublist hsub ?_
  refine List.Nodup.map_on ?_ ((List.Nodup.of_map _ hdistinct).filter _)
  intro x hx y hy hxy
  obtain ⟨hxmem, hxfile⟩ := List.mem_filter.1 hx
  obtain ⟨hymem, hyfile⟩ := List.mem_filter.1 hy
  obtain ⟨relx, hrelx⟩ := hform x hxmem hxfile
  obtain ⟨rely, hrely⟩ := hform y hymem hyfile
  simp only [hrelx, hrely, pathId_eq] at hxy
  have hpaths : x.path = y.path := by rw [hrelx, hrely, hxy]
  exact List.inj_on_of_nodup_map hdistinct hxmem hymem hpaths

theorem loadPatchInfos_once_identifiers_distinct_witness :
    (loadPatchInfos exampleKeys exampleTreeFileSystem
        (reset (new "1.0" [] []))).impl.patchInfos.map (fun info => info.id) =
        ["jflte/Default", "jflte/Rom", "klte/Default"] ∧
      ((loadPatchInfos exampleKeys exampleTreeFileSystem
        (reset (new "1.0" [] []))).impl.patchInfos.map (fun info => info.id)).Nodup :=
  ⟨by decide,
    loadPatchInfos_once_identifiers_distinct exampleKeys exampleTreeFileSystem
      (reset (new "1.0" [] [])) rfl (by decide)
      (by
        intro e he hfile
        have hmem : e ∈ [({ path := "/patchinfos/jflte", isRegularFile := false } :
            DirectoryEntry),
            { path := "/patchinfos/jflte/Default.xml", isRegularFile := true },
            { path := "/patchinfos/jflte/Rom.xml", isRegularFile := true },
            { path := "/patchinfos/README.txt", isRegularFile := true },
            { path := "/patchinfos/klte/Default.xml", isRegularFile := true }] := he
        simp only [List.mem_cons, List.mem_singleton, List.not_mem_nil, or_false] at hmem
        rcases hmem with h | h | h | h | h
        · rw [h] at hfile; exact absurd hfile (by decide)
        · exact ⟨"jflte/Default", by rw [h]; decide⟩
        · exact ⟨"jflte/Rom", by rw [h]; decide⟩
        · rw [h] at hfile; exact absurd hfile (by decide)
        · exact ⟨"klte/Default", by rw [h]; decide⟩)
      (by
        intro e _ doc hdoc
        by_cases hp : e.path = "/patchinfos/jflte/Rom.xml"
        · have hd : doc = exampleZipDoc := by
            have : exampleTreeFileSystem.xmlReadFile e.path = some exampleZipDoc := by
              simp [exampleTreeFileSystem, hp]
            rw [this] at hdoc
            exact (Option.some.inj hdoc).symm
          rw [hd]
          decide
        · have hd : doc = examplePatchinfoDoc := by
            have : exampleTreeFileSystem.xmlReadFile e.path = some examplePatchinfoDoc := by
              simp [exampleTreeFileSystem, hp]
            rw [this] at hdoc
            exact (Option.some.inj hdoc).symm
          rw [hd]
          decide)⟩

/-! ## Description-file parser -/

theorem foldl_invariant {α β : Type} (step : α → β → α) (P : α → Prop)
    (hstep : ∀ a b, P a → P (step a b)) (l : List β) (a : α) (ha : P a) :
    P (l.foldl step a) := by
  induction l generalizing a with
  | nil => exact ha
  | cons b rest ih => exact ih (step a b) (hstep a b ha)

theorem lookup_mapSet_same {α : Type} (m : List (String × α)) (key : String) (v : α) :
    (mapSet m key v).lookup key = some v := by
  simp [mapSet, List.lookup_cons]

theorem lookup_mapSet_other {α : Type} (m : List (String × α)) (key other : String)
    (v : α) (h : other ≠ key) :
    (mapSet m key v).lookup other = m.lookup other := by
  have hne : (other == key) = false := by simpa using h
  simp [mapSet, List.lookup_cons, hne, lookup_filter_ne m key other h]

/-- C26: a `<matches>` tag without a `regex` attribute leaves the descriptor as it
was, whatever its children are. -/
theorem parsePatchInfoTagMatches_no_regex_attribute (node : xmlNode) (info : PatchInfo)
    (hattr : xmlGetProp node PatchInfoAttrRegex = none) :
    parsePatchInfoTagMatches node info = info := by
  simp [parsePatchInfoTagMatches, hattr]

theorem parsePatchInfoTagMatches_no_regex_attribute_witness :
    parsePatchInfoTagMatches
        (element "matches" [("pattern", "rom")] [textElement "ramdisk" "jflte/AOSP/AOSP"])
        exampleZip = exampleZip :=
  parsePatchInfoTagMatches_no_regex_attribute _ exampleZip (by decide)

theorem ramdisk_setRamdisk (info : PatchInfo) (type value : String) :
    (info.setRamdisk type value).ramdisk type = value := by
  simp [PatchInfo.ramdisk, PatchInfo.setRamdisk, mapGet_mapSet_same]

theorem patchedInit_setPatchedInit (info : PatchInfo) (type value : String) :
    (info.setPatchedInit type value).patchedInit type = value := by
  simp [PatchInfo.patchedInit, PatchInfo.setPatchedInit, mapGet_mapSet_same]

theorem parsePatchInfoTagRamdisk_set (node : xmlNode) (info : PatchInfo) (type : String)
    (hset : info.ramdisk type ≠ "") : parsePatchInfoTagRamdisk node info type = info := by
  unfold parsePatchInfoTagRamdisk
  refine foldl_invariant _ (fun i => i = info) ?_ _ info rfl
  intro a b ha
  subst ha
  simp only [hset, if_false]
  split <;> rfl

theorem parsePatchInfoTagPatchedInit_set (node : xmlNode) (info : PatchInfo) (type : String)
    (hset : info.patchedInit type ≠ "") :
    parsePatchInfoTagPatchedInit node info type = info := by
  unfold parsePatchInfoTagPatchedInit
  refine foldl_invariant _ (fun i => i = info) ?_ _ info rfl
  intro a b ha
  subst ha
  simp only [hset, if_false]
  split <;> rfl

theorem parsePatchInfoTagName_set (node : xmlNode) (info : PatchInfo)
    (hset : info.name ≠ "") : parsePatchInfoTagName node info = info := by
  unfold parsePatchInfoTagName
  refine foldl_invariant _ (fun i => i = info) ?_ _ info rfl
  intro a b ha
  subst ha
  simp only [hset, if_false]
  split <;> rfl

theorem parsePatchInfoTagRamdisk_first (tag text : String) (info : PatchInfo) (type : String)
    (hunset : info.ramdisk type = "") :
    parsePatchInfoTagRamdisk (textElement tag text) info type =
      info.setRamdisk type text := by
  simp [parsePatchInfoTagRamdisk, textElement, textNode, xmlNode.children, xmlNode.type,
    xmlNode.content, xmlStringToStdString, hunset]

theorem parsePatchInfoTagPatchedInit_first (tag text : String) (info : PatchInfo)
    (type : String) (hunset : info.patchedInit type = "") :
    parsePatchInfoTagPatchedInit (textElement tag text) info type =
      info.setPatchedInit type text := by
  simp [parsePatchInfoTagPatchedInit, textElement, textNode, xmlNode.children,
    xmlNode.type, xmlNode.content, xmlStringToStdString, hunset]

theorem parsePatchInfoTagName_first (tag text : String) (info : PatchInfo)
    (hunset : info.name = "") :
    parsePatchInfoTagName (textElement tag text) info = info.setName text := by
  simp [parsePatchInfoTagName, textElement, textNode, xmlNode.children, xmlNode.type,
    xmlNode.content, xmlStringToStdString, hunset]

/-- C27: for the ramdisk tag and the patched-init tag of one bundle and for the name
tag: while the value is unset, an occurrence with the non-empty text `t` stores `t`;
once a value is stored, every further occurrence, whatever it holds, leaves the
descriptor as it is, so the value stays the text of the first occurrence with text. -/
theorem single_valued_tags_keep_first (info : PatchInfo) (type t : String) (later : xmlNode)
    (ht : t ≠ "") :
    (info.ramdisk type = "" →
      (parsePatchInfoTagRamdisk (textElement PatchInfoTagRamdisk t) info type).ramdisk type
          = t ∧
        (parsePatchInfoTagRamdisk later
          (parsePatchInfoTagRamdisk (textElement PatchInfoTagRamdisk t) info type)
          type).ramdisk type = t) ∧
    (info.ramdisk type ≠ "" → parsePatchInfoTagRamdisk later info type = info) ∧
    (info.patchedInit type = "" →
      (parsePatchInfoTagPatchedInit (textElement PatchInfoTagPatchedInit t) info
          type).patchedInit type = t ∧
        (parsePatchInfoTagPatchedInit later
          (parsePatchInfoTagPatchedInit (textElement PatchInfoTagPatchedInit t) info type)
          type).patchedInit type = t) ∧
    (info.patchedInit type ≠ "" → parsePatchInfoTagPatchedInit later info type = info) ∧
    (info.name = "" →
      (parsePatchInfoTagName (textElement PatchInfoTagName t) info).name = t ∧
        (parsePatchInfoTagName later
          (parsePatchInfoTagName (textElement PatchInfoTagName t) info)).name = t) ∧
    (info.name ≠ "" → parsePatchInfoTagName later info = info) := by
  refine ⟨fun h => ?_, parsePatchInfoTagRamdisk_set later info type, fun h => ?_,
    parsePatchInfoTagPatchedInit_set later info type, fun h => ?_,
    parsePatchInfoTagName_set later info⟩
  · have h1 := parsePatchInfoTagRamdisk_first PatchInfoTagRamdisk t info type h
    have h2 : (parsePatchInfoTagRamdisk (textElement PatchInfoTagRamdisk t) info
        type).ramdisk type = t := by rw [h1, ramdisk_setRamdisk]
    refine ⟨h2, ?_⟩
    rw [parsePatchInfoTagRamdisk_set later _ type (by rw [h2]; exact ht)]
    exact h2
  · have h1 := parsePatchInfoTagPatchedInit_first PatchInfoTagPatchedInit t info type h
    have h2 : (parsePatchInfoTagPatchedInit (textElement PatchInfoTagPatchedInit t) info
        type).patchedInit type = t := by rw [h1, patchedInit_setPatchedInit]
    refine ⟨h2, ?_⟩
    rw [parsePatchInfoTagPatchedInit_set later _ type (by rw [h2]; exact ht)]
    exact h2
  · have h1 := parsePatchInfoTagName_first PatchInfoTagName t info h
    have h2 : (parsePatchInfoTagName (textElement PatchInfoTagName t) info).name = t := by
      rw [h1]
      rfl
    refine ⟨h2, ?_⟩
    rw [parsePatchInfoTagName_set later _ (by rw [h2]; exact ht)]
    exact h2

theorem single_valued_tags_keep_first_witness :
    (parsePatchInfoTagRamdisk (textElement "ramdisk" "klte/AOSP/AOSP")
        (parsePatchInfoTagRamdisk (textElement "ramdisk" "jflte/AOSP/AOSP") {} "default")
        "default").ramdisk "default" = "jflte/AOSP/AOSP" ∧
      (parsePatchInfoTagName (textElement "name" "Second")
        (parsePatchInfoTagName (textElement "name" "First") {})).name = "First" :=
  have h := single_valued_tags_keep_first {} "default" "jflte/AOSP/AOSP"
    (textElement "ramdisk" "klte/AOSP/AOSP") (by decide)
  have h2 := single_valued_tags_keep_first {} "default" "First"
    (textElement "name" "Second") (by decide)
  ⟨(h.1 rfl).2, (h2.2.2.2.2.1 rfl).2⟩

/-- C28: for the has-boot-image tag and the device-check tag with the text `t`: the
text `true` stores `true` under the bundle's type tag, the text `false` stores `false`,
and every other text leaves the whole descriptor as it was. -/
theorem boolean_tags_accept_exact_literals (info : PatchInfo) (type t : String) :
    (t = "true" →
      (parsePatchInfoTagHasBootImage (textElement PatchInfoTagHasBootImage t) info
        type).hasBootImageMap.lookup type = some true) ∧
    (t = "false" →
      (parsePatchInfoTagHasBootImage (textElement PatchInfoTagHasBootImage t) info
        type).hasBootImageMap.lookup type = some false) ∧
    (t ≠ "true" → t ≠ "false" →
      parsePatchInfoTagHasBootImage (textElement PatchInfoTagHasBootImage t) info type =
        info) ∧
    (t = "true" →
      (parsePatchInfoTagDeviceCheck (textElement PatchInfoTagDeviceCheck t) info
        type).deviceCheckMap.lookup type = some true) ∧
    (t = "false" →
      (parsePatchInfoTagDeviceCheck (textElement PatchInfoTagDeviceCheck t) info
        type).deviceCheckMap.lookup type = some false) ∧
    (t ≠ "true" → t ≠ "false" →
      parsePatchInfoTagDeviceCheck (textElement PatchInfoTagDeviceCheck t) info type =
        info) := by
  refine ⟨?_, ?_, ?_, ?_, ?_, ?_⟩
  · rintro rfl
    simp [parsePatchInfoTagHasBootImage, textElement, textNode, xmlNode.children,
      xmlNode.type, xmlNode.content, XmlTextTrue, PatchInfo.setHasBootImage,
      lookup_mapSet_same]
  · rintro rfl
    simp [parsePatchInfoTagHasBootImage, textElement, textNode, xmlNode.children,
      xmlNode.type, xmlNode.content, XmlTextTrue, XmlTextFalse, PatchInfo.setHasBootImage,
      lookup_mapSet_same]
  · intro h1 h2
    simp [parsePatchInfoTagHasBootImage, textElement, textNode, xmlNode.children,
      xmlNode.type, xmlNode.content, XmlTextTrue, XmlTextFalse, h1, h2]
  · rintro rfl
    simp [parsePatchInfoTagDeviceCheck, textElement, textNode, xmlNode.children,
      xmlNode.type, xmlNode.content, XmlTextTrue, PatchInfo.setDeviceCheck,
      lookup_mapSet_same]
  · rintro rfl
    simp [parsePatchInfoTagDeviceCheck, textElement, textNode, xmlNode.children,
      xmlNode.type, xmlNode.content, XmlTextTrue, XmlTextFalse, PatchInfo.setDeviceCheck,
      lookup_mapSet_same]
  · intro h1 h2
    simp [parsePatchInfoTagDeviceCheck, textElement, textNode, xmlNode.children,
      xmlNode.type, xmlNode.content, XmlTextTrue, XmlTextFalse, h1, h2]

theorem boolean_tags_accept_exact_literals_witness :
    parsePatchInfoTagHasBootImage (textElement "has-boot-image" "True") exampleZip
        "default" = exampleZip ∧
      parsePatchInfoTagHasBootImage (textElement "has-boot-image" " true") exampleZip
        "default" = exampleZip ∧
      parsePatchInfoTagDeviceCheck (textElement "device-check" "1") exampleZip
        "default" = exampleZip ∧
      (parsePatchInfoTagDeviceCheck (textElement "device-check" "false") exampleZip
        "default").deviceCheckMap.lookup "default" = some false :=
  ⟨(boolean_tags_accept_exact_literals exampleZip "default" "True").2.2.1
      (by decide) (by decide),
    (boolean_tags_accept_exact_literals exampleZip "default" " true").2.2.1
      (by decide) (by decide),
    (boolean_tags_accept_exact_literals exampleZip "default" "1").2.2.2.2.2
      (by decide) (by decide),
    (boolean_tags_accept_exact_literals exampleZip "default" "false").2.2.2.2.1 rfl⟩

theorem parsePatchInfoTagRegex_regexes (node : xmlNode) (info : PatchInfo) :
    (parsePatchInfoTagRegex node info).regexes = info.regexes ++ textContents node := by
  unfold parsePatchInfoTagRegex textContents
  generalize node.children = nodes
  induction nodes generalizing info with
  | nil => simp
  | cons n rest ih =>
    rw [List.foldl_cons, ih]
    by_cases htext : n.type = xmlElementType.XML_TEXT_NODE
    · simp [htext, PatchInfo.setRegexes]
    · simp [htext]

theorem parsePatchInfoTagExcludeRegex_excludeRegexes (node : xmlNode) (info : PatchInfo) :
    (parsePatchInfoTagExcludeRegex node info).excludeRegexes =
      info.excludeRegexes ++ textContents node := by
  unfold parsePatchInfoTagExcludeRegex textContents
  generalize node.children = nodes
  induction nodes generalizing info with
  | nil => simp
  | cons n rest ih =>
    rw [List.foldl_cons, ih]
    by_cases htext : n.type = xmlElementType.XML_TEXT_NODE
    · simp [htext, PatchInfo.setExcludeRegexes]
    · simp [htext]

theorem autoPatchers_setAutoPatchers (info : PatchInfo) (type : String)
    (aps : AutoPatcherItems) : (info.setAutoPatchers type aps).autoPatchers type = aps := by
  simp [PatchInfo.autoPatchers, PatchInfo.setAutoPatchers, mapGet_mapSet_same]

theorem parsePatchInfoTagAutopatcher_autoPatchers (node : xmlNode) (info : PatchInfo)
    (type : String) :
    (parsePatchInfoTagAutopatcher node info type).autoPatchers type =
      info.autoPatchers type ++ (textContents node).map (fun t => (t, attributeArgs node)) := by
  unfold parsePatchInfoTagAutopatcher textContents
  simp only []
  change (List.foldl (fun info curNode =>
      if curNode.type ≠ xmlElementType.XML_TEXT_NODE then info
      else info.setAutoPatchers type (info.autoPatchers type ++
        [(xmlStringToStdString curNode.content, attributeArgs node)])) info
      node.children).autoPatchers type = _
  generalize attributeArgs node = args
  generalize node.children = nodes
  induction nodes generalizing info with
  | nil => simp
  | cons n rest ih =>
    rw [List.foldl_cons, ih]
    by_cases htext : n.type = xmlElementType.XML_TEXT_NODE
    · simp [htext, autoPatchers_setAutoPatchers]
    · simp [htext]

/-- C30 (as stated, refuted): a `<regex>` element whose text is divided by a comment
into the text nodes `rom` and `zip` appends two patterns, and an `<autopatcher>` entry
divided the same way appends two pairs. -/
theorem divided_text_appends_once_per_text_node :
    (parsePatchInfoTagRegex
        (element "regex" [] [textNode "rom", commentNode "c", textNode "zip"])
        {}).regexes = ["rom", "zip"] ∧
      ((parsePatchInfoTagAutopatcher
        (element "autopatcher" [] [textNode "Standard", commentNode "c", textNode "Patcher"])
        {} "default").autoPatchers "default").length = 2 := by
  decide

/-- C30 (amended): a `<regex>`, an `<exclude-regex>` and an `<autopatcher>` element
append one item for each of their text-node children, in order: the node's content as
pattern, or paired with the attribute arguments; so an element with one text node
appends exactly one item and an element without text node appends nothing. -/
theorem appends_once_per_text_node (node : xmlNode) (info : PatchInfo) (type : String) :
    (parsePatchInfoTagRegex node info).regexes = info.regexes ++ textContents node ∧
    (parsePatchInfoTagExcludeRegex node info).excludeRegexes =
      info.excludeRegexes ++ textContents node ∧
    (parsePatchInfoTagAutopatcher node info type).autoPatchers type =
      info.autoPatchers type ++ (textContents node).map (fun t => (t, attributeArgs node)) :=
  ⟨parsePatchInfoTagRegex_regexes node info,
    parsePatchInfoTagExcludeRegex_excludeRegexes node info,
    parsePatchInfoTagAutopatcher_autoPatchers node info type⟩

theorem lookup_of_mem_nodupKeys (attrs : List (String × String)) (name value : String)
    (hnodup : (attrs.map Prod.fst).Nodup) (hmem : (name, value) ∈ attrs) :
    attrs.lookup name = some value := by
  induction attrs with
  | nil => cases hmem
  | cons a rest ih =>
    obtain ⟨k, v⟩ := a
    rw [List.map_cons, List.nodup_cons] at hnodup
    rcases List.mem_cons.1 hmem with h | h
    · cases h
      simp [List.lookup_cons]
    · have hne : name ≠ k := by
        intro heq
        subst heq
        exact hnodup.1 (List.mem_map.2 ⟨(name, value), h, rfl⟩)
      have hbeq : (name == k) = false := by simpa using hne
      simp [List.lookup_cons, hbeq, ih hnodup.2 h]

theorem attributeArgs_loop (attrs : List (String × String))
    (hnodup : (attrs.map Prod.fst).Nodup) (before rest : List (String × String))
    (hsplit : attrs = before ++ rest) :
    rest.foldl (fun args attr =>
      argsInsert args attr.1 (xmlStringToStdString (attrs.lookup attr.1))) before = attrs := by
  induction rest generalizing before with
  | nil => simpa using hsplit.symm
  | cons a tail ih =>
    obtain ⟨k, v⟩ := a
    have hmem : (k, v) ∈ attrs := by
      rw [hsplit]
      exact List.mem_append_right _ (List.mem_cons_self _ _)
    have hlookup := lookup_of_mem_nodupKeys attrs k v hnodup hmem
    have hfresh : before.any (fun e => e.1 == k) = false := by
      rw [hsplit, List.map_append, List.nodup_append] at hnodup
      have hdisj := hnodup.2.2
      rw [Bool.eq_false_iff]
      intro hany
      obtain ⟨e, he, hek⟩ := List.any_eq_true.1 hany
      have hek2 : e.1 = k := by simpa using hek
      exact hdisj (List.mem_map.2 ⟨e, he, hek2⟩) (by simp)
    rw [List.foldl_cons]
    have hstep : argsInsert before k (xmlStringToStdString (attrs.lookup k)) =
        before ++ [(k, v)] := by
      simp [argsInsert, hfresh, hlookup, xmlStringToStdString]
    simp only [hstep]
    exact ih (before ++ [(k, v)]) (by rw [hsplit, List.append_assoc]; rfl)

theorem attributeArgs_element (tag : String) (attrs : List (String × String))
    (children : List xmlNode) (hnodup : (attrs.map Prod.fst).Nodup) :
    attributeArgs (element tag attrs children) = attrs :=
  attributeArgs_loop attrs hnodup [] attrs rfl

/-- C23: an auto-patcher list whose children are entries
`<autopatcher attrs>identifier</autopatcher>`, each with distinct attribute names,
appends to the bundle's auto-patcher sequence, after the entries already present and
in document order, one pair per entry: the identifier and the entry's attributes as
argument mapping. -/
theorem parsePatchInfoTagAutopatchers_appends_entries (info : PatchInfo) (type : String)
    (entries : List (String × AutoPatcherArgs))
    (hunique : ∀ e ∈ entries, (e.2.map Prod.fst).Nodup) :
    (parsePatchInfoTagAutopatchers
        (element PatchInfoTagAutopatchers []
          (entries.map (fun e => element PatchInfoTagAutopatcher e.2 [textNode e.1])))
        info type).autoPatchers type =
      info.autoPatchers type ++ entries := by
  unfold parsePatchInfoTagAutopatchers
  have hchildren : (element PatchInfoTagAutopatchers []
      (entries.map (fun e => element PatchInfoTagAutopatcher e.2 [textNode e.1]))).children =
      entries.map (fun e => element PatchInfoTagAutopatcher e.2 [textNode e.1]) := rfl
  rw [hchildren]
  clear hchildren
  induction entries generalizing info with
  | nil => simp
  | cons e rest ih =>
    have hrest : ∀ x ∈ rest, (x.2.map Prod.fst).Nodup :=
      fun x hx => hunique x (List.mem_cons_of_mem _ hx)
    rw [List.map_cons, List.foldl_cons, ih _ hrest]
    have hentry : (element PatchInfoTagAutopatcher e.2 [textNode e.1]).type =
        xmlElementType.XML_ELEMENT_NODE := rfl
    have hname : (element PatchInfoTagAutopatcher e.2 [textNode e.1]).name =
        PatchInfoTagAutopatcher := rfl
    have hne : PatchInfoTagAutopatcher ≠ PatchInfoTagAutopatchers := by decide
    simp only [hentry, hname, hne, ne_eq, not_true_eq_false, if_false, if_true]
    rw [parsePatchInfoTagAutopatcher_autoPatchers,
      attributeArgs_element _ _ _ (hunique e (List.mem_cons_self _ _))]
    simp [textContents, element, textNode, xmlNode.children, xmlNode.type, xmlNode.content,
      xmlStringToStdString]

theorem parsePatchInfoTagAutopatchers_appends_entries_witness :
    (parsePatchInfoTagAutopatchers
        (element "autopatchers" []
          [element "autopatcher" [("foo", "bar")] [textNode "MyPatcher"]])
        {} "default").autoPatchers "default" = [("MyPatcher", [("foo", "bar")])] :=
  parsePatchInfoTagAutopatchers_appends_entries {} "default"
    [("MyPatcher", [("foo", "bar")])]
    (by
      intro e he
      rw [List.mem_singleton.1 he]
      decide)

theorem bundle_setHasBootImage (info : PatchInfo) (type other : String) (b : Bool)
    (h : other ≠ type) : (info.setHasBootImage type b).bundle other = info.bundle other := by
  simp [PatchInfo.bundle, PatchInfo.setHasBootImage, PatchInfo.ramdisk, PatchInfo.patchedInit,
    PatchInfo.autoPatchers, PatchInfo.supportedConfigs, lookup_mapSet_other _ _ _ _ h,
    mapGet_mapSet_other _ _ _ _ _ h]

theorem bundle_setRamdisk (info : PatchInfo) (type other : String) (v : String)
    (h : other ≠ type) : (info.setRamdisk type v).bundle other = info.bundle other := by
  simp [PatchInfo.bundle, PatchInfo.setRamdisk, PatchInfo.ramdisk, PatchInfo.patchedInit,
    PatchInfo.autoPatchers, PatchInfo.supportedConfigs, lookup_mapSet_other _ _ _ _ h,
    mapGet_mapSet_other _ _ _ _ _ h]

theorem bundle_setPatchedInit (info : PatchInfo) (type other : String) (v : String)
    (h : other ≠ type) : (info.setPatchedInit type v).bundle other = info.bundle other := by
  simp [PatchInfo.bundle, PatchInfo.setPatchedInit, PatchInfo.ramdisk, PatchInfo.patchedInit,
    PatchInfo.autoPatchers, PatchInfo.supportedConfigs, lookup_mapSet_other _ _ _ _ h,
    mapGet_mapSet_other _ _ _ _ _ h]

theorem bundle_setAutoPatchers (info : PatchInfo) (type other : String) (v : AutoPatcherItems)
    (h : other ≠ type) : (info.setAutoPatchers type v).bundle other = info.bundle other := by
  simp [PatchInfo.bundle, PatchInfo.setAutoPatchers, PatchInfo.ramdisk, PatchInfo.patchedInit,
    PatchInfo.autoPatchers, PatchInfo.supportedConfigs, lookup_mapSet_other _ _ _ _ h,
    mapGet_mapSet_other _ _ _ _ _ h]

theorem bundle_setDeviceCheck (info : PatchInfo) (type other : String) (b : Bool)
    (h : other ≠ type) : (info.setDeviceCheck type b).bundle other = info.bundle other := by
  simp [PatchInfo.bundle, PatchInfo.setDeviceCheck, PatchInfo.ramdisk, PatchInfo.patchedInit,
    PatchInfo.autoPatchers, PatchInfo.supportedConfigs, lookup_mapSet_other _ _ _ _ h,
    mapGet_mapSet_other _ _ _ _ _ h]

theorem bundle_setSupportedConfigs (info : PatchInfo) (type other : String) (v : List String)
    (h : other ≠ type) : (info.setSupportedConfigs type v).bundle other = info.bundle other := by
  simp [PatchInfo.bundle, PatchInfo.setSupportedConfigs, PatchInfo.ramdisk, PatchInfo.patchedInit,
    PatchInfo.autoPatchers, PatchInfo.supportedConfigs, lookup_mapSet_other _ _ _ _ h,
    mapGet_mapSet_other _ _ _ _ _ h]

theorem parsePatchInfoTagHasBootImage_header (node : xmlNode) (info : PatchInfo) (type : String) :
    (parsePatchInfoTagHasBootImage node info type).header = info.header := by
  unfold parsePatchInfoTagHasBootImage
  refine foldl_invariant _ (fun i => i.header = info.header) ?_ _ info rfl
  intro a b ha
  try dsimp only
  split_ifs <;> exact ha

theorem parsePatchInfoTagHasBootImage_bundle (node : xmlNode) (info : PatchInfo) (type other : String)
    (h : other ≠ type) : (parsePatchInfoTagHasBootImage node info type).bundle other = info.bundle other := by
  unfold parsePatchInfoTagHasBootImage
  refine foldl_invariant _ (fun i => i.bundle other = info.bundle other) ?_ _ info rfl
  intro a b ha
  try dsimp only
  split_ifs <;> first | exact ha | (rw [bundle_setHasBootImage _ _ _ _ h]; exact ha)

theorem parsePatchInfoTagRamdisk_header (node : xmlNode) (info : PatchInfo) (type : String) :
    (parsePatchInfoTagRamdisk node info type).header = info.header := by
  unfold parsePatchInfoTagRamdisk
  refine foldl_invariant _ (fun i => i.header = info.header) ?_ _ info rfl
  intro a b ha
  try dsimp only
  split_ifs <;> exact ha

theorem parsePatchInfoTagRamdisk_bundle (node : xmlNode) (info : PatchInfo) (type other : String)
    (h : other ≠ type) : (parsePatchInfoTagRamdisk node info type).bundle other = info.bundle other := by
  unfold parsePatchInfoTagRamdisk
  refine foldl_invariant _ (fun i => i.bundle other = info.bundle other) ?_ _ info rfl
  intro a b ha
  try dsimp only
  split_ifs <;> first | exact ha | (rw [bundle_setRamdisk _ _ _ _ h]; exact ha)

theorem parsePatchInfoTagPatchedInit_header (node : xmlNode) (info : PatchInfo) (type : String) :
    (parsePatchInfoTagPatchedInit node info type).header = info.header := by
  unfold parsePatchInfoTagPatchedInit
  refine foldl_invariant _ (fun i => i.header = info.header) ?_ _ info rfl
  intro a b ha
  try dsimp only
  split_ifs <;> exact ha

theorem parsePatchInfoTagPatchedInit_bundle (node : xmlNode) (info : PatchInfo) (type other : String)
    (h : other ≠ type) : (parsePatchInfoTagPatchedInit node info type).bundle other = info.bundle other := by
  unfold parsePatchInfoTagPatchedInit
  refine foldl_invariant _ (fun i => i.bundle other = info.bundle other) ?_ _ info rfl
  intro a b ha
  try dsimp only
  split_ifs <;> first | exact ha | (rw [bundle_setPatchedInit _ _ _ _ h]; exact ha)

theorem parsePatchInfoTagAutopatcher_header (node : xmlNode) (info : PatchInfo) (type : String) :
    (parsePatchInfoTagAutopatcher node info type).header = info.header := by
  unfold parsePatchInfoTagAutopatcher
  refine foldl_invariant _ (fun i => i.header = info.header) ?_ _ info rfl
  intro a b ha
  try dsimp only
  split_ifs <;> exact ha

theorem parsePatchInfoTagAutopatcher_bundle (node : xmlNode) (info : PatchInfo) (type other : String)
    (h : other ≠ type) : (parsePatchInfoTagAutopatcher node info type).bundle other = info.bundle other := by
  unfold parsePatchInfoTagAutopatcher
  refine foldl_invariant _ (fun i => i.bundle other = info.bundle other) ?_ _ info rfl
  intro a b ha
  try dsimp only
  split_ifs <;> first | exact ha | (rw [bundle_setAutoPatchers _ _ _ _ h]; exact ha)

theorem parsePatchInfoTagDeviceCheck_header (node : xmlNode) (info : PatchInfo) (type : String) :
    (parsePatchInfoTagDeviceCheck node info type).header = info.header := by
  unfold parsePatchInfoTagDeviceCheck
  refine foldl_invariant _ (fun i => i.header = info.header) ?_ _ info rfl
  intro a b ha
  try dsimp only
  split_ifs <;> exact ha

theorem parsePatchInfoTagDeviceCheck_bundle (node : xmlNode) (info : PatchInfo) (type other : String)
    (h : other ≠ type) : (parsePatchInfoTagDeviceCheck node info type).bundle other = info.bundle other := by
  unfold parsePatchInfoTagDeviceCheck
  refine foldl_invariant _ (fun i => i.bundle other = info.bundle other) ?_ _ info rfl
  intro a b ha
  try dsimp only
  split_ifs <;> first | exact ha | (rw [bundle_setDeviceCheck _ _ _ _ h]; exact ha)

theorem parsePatchInfoTagExclude_header (node : xmlNode) (info : PatchInfo) (type : String) :
    (parsePatchInfoTagExclude node info type).header = info.header := by
  unfold parsePatchInfoTagExclude
  refine foldl_invariant _ (fun i => i.header = info.header) ?_ _ info rfl
  intro a b ha
  try dsimp only
  split_ifs <;> exact ha

theorem parsePatchInfoTagExclude_bundle (node : xmlNode) (info : PatchInfo) (type other : String)
    (h : other ≠ type) : (parsePatchInfoTagExclude node info type).bundle other = info.bundle other := by
  unfold parsePatchInfoTagExclude
  refine foldl_invariant _ (fun i => i.bundle other = info.bundle other) ?_ _ info rfl
  intro a b ha
  try dsimp only
  split_ifs <;> first | exact ha | (rw [bundle_setSupportedConfigs _ _ _ _ h]; exact ha)

theorem parsePatchInfoTagInclude_header (node : xmlNode) (info : PatchInfo) (type : String) :
    (parsePatchInfoTagInclude node info type).header = info.header := by
  unfold parsePatchInfoTagInclude
  refine foldl_invariant _ (fun i => i.header = info.header) ?_ _ info rfl
  intro a b ha
  try dsimp only
  split_ifs <;> exact ha

theorem parsePatchInfoTagInclude_bundle (node : xmlNode) (info : PatchInfo) (type other : String)
    (h : other ≠ type) : (parsePatchInfoTagInclude node info type).bundle other = info.bundle other := by
  unfold parsePatchInfoTagInclude
  refine foldl_invariant _ (fun i => i.bundle other = info.bundle other) ?_ _ info rfl
  intro a b ha
  try dsimp only
  split_ifs <;> first | exact ha | (rw [bundle_setSupportedConfigs _ _ _ _ h]; exact ha)

theorem parsePatchInfoTagAutopatchers_header (node : xmlNode) (info : PatchInfo)
    (type : String) : (parsePatchInfoTagAutopatchers node info type).header = info.header := by
  unfold parsePatchInfoTagAutopatchers
  refine foldl_invariant _ (fun i => i.header = info.header) ?_ _ info rfl
  intro a b ha
  try dsimp only
  split_ifs <;> first | exact ha | (rw [parsePatchInfoTagAutopatcher_header]; exact ha)

theorem parsePatchInfoTagAutopatchers_bundle (node : xmlNode) (info : PatchInfo)
    (type other : String) (h : other ≠ type) :
    (parsePatchInfoTagAutopatchers node info type).bundle other = info.bundle other := by
  unfold parsePatchInfoTagAutopatchers
  refine foldl_invariant _ (fun i => i.bundle other = info.bundle other) ?_ _ info rfl
  intro a b ha
  try dsimp only
  split_ifs <;>
    first | exact ha | (rw [parsePatchInfoTagAutopatcher_bundle _ _ _ _ h]; exact ha)

theorem parsePatchInfoTagPartconfigs_header (node : xmlNode) (info : PatchInfo)
    (type : String) : (parsePatchInfoTagPartconfigs node info type).header = info.header := by
  unfold parsePatchInfoTagPartconfigs
  dsimp only
  refine foldl_invariant _ (fun i : PatchInfo => i.header = info.header) ?_ _ _ rfl
  intro a b ha
  try dsimp only
  split_ifs <;>
    first
    | exact ha
    | (rw [parsePatchInfoTagExclude_header]; exact ha)
    | (rw [parsePatchInfoTagInclude_header]; exact ha)

theorem parsePatchInfoTagPartconfigs_bundle (node : xmlNode) (info : PatchInfo)
    (type other : String) (h : other ≠ type) :
    (parsePatchInfoTagPartconfigs node info type).bundle other = info.bundle other := by
  unfold parsePatchInfoTagPartconfigs
  dsimp only
  refine foldl_invariant _ (fun i : PatchInfo => i.bundle other = info.bundle other) ?_ _ _
    (bundle_setSupportedConfigs _ _ _ _ h)
  intro a b ha
  try dsimp only
  split_ifs <;>
    first
    | exact ha
    | (rw [parsePatchInfoTagExclude_bundle _ _ _ _ h]; exact ha)
    | (rw [parsePatchInfoTagInclude_bundle _ _ _ _ h]; exact ha)

theorem parsePatchInfoTagMatches_header (node : xmlNode) (info : PatchInfo) (R : String)
    (hattr : xmlGetProp node PatchInfoAttrRegex = some R) :
    (parsePatchInfoTagMatches node info).header =
      (info.id, info.name, info.regexes ++ [R], info.excludeRegexes,
        info.hasNotMatched) := by
  unfold parsePatchInfoTagMatches
  rw [hattr]
  dsimp only
  refine foldl_invariant _ (fun i : PatchInfo => i.header =
    (info.id, info.name, info.regexes ++ [R], info.excludeRegexes,
      info.hasNotMatched)) ?_ _ _ rfl
  intro a b ha
  try dsimp only
  split_ifs <;>
    first
    | exact ha
    | (rw [parsePatchInfoTagHasBootImage_header]; exact ha)
    | (rw [parsePatchInfoTagRamdisk_header]; exact ha)
    | (rw [parsePatchInfoTagPatchedInit_header]; exact ha)
    | (rw [parsePatchInfoTagAutopatchers_header]; exact ha)
    | (rw [parsePatchInfoTagDeviceCheck_header]; exact ha)
    | (rw [parsePatchInfoTagPartconfigs_header]; exact ha)

theorem parsePatchInfoTagMatches_bundle (node : xmlNode) (info : PatchInfo)
    (R other : String) (hattr : xmlGetProp node PatchInfoAttrRegex = some R)
    (h : other ≠ R) :
    (parsePatchInfoTagMatches node info).bundle other = info.bundle other := by
  unfold parsePatchInfoTagMatches
  rw [hattr]
  dsimp only
  refine foldl_invariant _ (fun i : PatchInfo => i.bundle other = info.bundle other)
    ?_ _ _ rfl
  intro a b ha
  try dsimp only
  split_ifs <;>
    first
    | exact ha
    | (rw [parsePatchInfoTagHasBootImage_bundle _ _ _ _ h]; exact ha)
    | (rw [parsePatchInfoTagRamdisk_bundle _ _ _ _ h]; exact ha)
    | (rw [parsePatchInfoTagPatchedInit_bundle _ _ _ _ h]; exact ha)
    | (rw [parsePatchInfoTagAutopatchers_bundle _ _ _ _ h]; exact ha)
    | (rw [parsePatchInfoTagDeviceCheck_bundle _ _ _ _ h]; exact ha)
    | (rw [parsePatchInfoTagPartconfigs_bundle _ _ _ _ h]; exact ha)

theorem parsePatchInfoTagNotMatched_bundle (keys : PatchInfoKeys) (node : xmlNode)
    (info : PatchInfo) (other : String) (h : other ≠ keys.NotMatched) :
    (parsePatchInfoTagNotMatched keys node info).bundle other = info.bundle other := by
  unfold parsePatchInfoTagNotMatched
  dsimp only
  refine foldl_invariant _ (fun i : PatchInfo => i.bundle other = info.bundle other)
    ?_ _ _ rfl
  intro a b ha
  try dsimp only
  split_ifs <;>
    first
    | exact ha
    | (rw [parsePatchInfoTagHasBootImage_bundle _ _ _ _ h]; exact ha)
    | (rw [parsePatchInfoTagRamdisk_bundle _ _ _ _ h]; exact ha)
    | (rw [parsePatchInfoTagPatchedInit_bundle _ _ _ _ h]; exact ha)
    | (rw [parsePatchInfoTagAutopatchers_bundle _ _ _ _ h]; exact ha)
    | (rw [parsePatchInfoTagDeviceCheck_bundle _ _ _ _ h]; exact ha)
    | (rw [parsePatchInfoTagPartconfigs_bundle _ _ _ _ h]; exact ha)

/-- C24: a `<matches>` tag with the `regex` attribute `R` appends `R` to the
selection-regex sequence of the descriptor, the sequence `findMatchingPatchInfo` tests
against the base name, and leaves the exclusion regexes as they were; so a descriptor
without exclusion regexes whose only regex is declared by such a tag is returned, when
it is the first applicable descriptor, for every file name whose base name `R`
searches. -/
theorem matches_regex_is_a_selection_regex
    (regex_search : String → String → Outcome Bool) (filename : String → String)
    (impl : Impl) (device : Device) (fileName : String)
    (node : xmlNode) (info : PatchInfo) (R : String)
    (hattr : xmlGetProp node PatchInfoAttrRegex = some R) :
    (parsePatchInfoTagMatches node info).regexes = info.regexes ++ [R] ∧
      (parsePatchInfoTagMatches node info).excludeRegexes = info.excludeRegexes ∧
      (info.regexes = [] → info.excludeRegexes = [] → fileName ≠ "" →
        (∃ after : List PatchInfo,
          patchInfos impl device = parsePatchInfoTagMatches node info :: after) →
        regex_search (filename fileName) R = Outcome.returned true →
        findMatchingPatchInfo regex_search filename impl (some device) fileName =
          Outcome.returned (some (parsePatchInfoTagMatches node info))) := by
  have h := parsePatchInfoTagMatches_header node info R hattr
  simp only [PatchInfo.header, Prod.mk.injEq] at h
  refine ⟨h.2.2.1, h.2.2.2.1, ?_⟩
  rintro hregexes hexclude hname ⟨after, hfirst⟩ hsearch
  simp only [findMatchingPatchInfo, hname, if_false, hfirst, infoLoop]
  rw [h.2.2.1, hregexes, List.nil_append]
  simp only [regexLoop, hsearch, h.2.2.2.1, hexclude, excludeLoop]

theorem matches_regex_is_a_selection_regex_witness :
    xmlGetProp (element "matches" [("regex", "rom")]
        [textElement "ramdisk" "jflte/AOSP/AOSP"]) PatchInfoAttrRegex = some "rom" ∧
      (loadPatchInfos exampleKeys (singleFileSystem exampleMatchesDoc)
        (new "1.0" [] [])).impl.patchInfos =
        [parsePatchInfoTagMatches
          (element "matches" [("regex", "rom")] [textElement "ramdisk" "jflte/AOSP/AOSP"])
          { id := "jflte/Default" }] ∧
      findMatchingPatchInfo literalSearch lastComponent
        (loadPatchInfos exampleKeys (singleFileSystem exampleMatchesDoc)
          (new "1.0" [] [])).impl
        (some exampleDevice) "rom.zip" =
        Outcome.returned (some (parsePatchInfoTagMatches
          (element "matches" [("regex", "rom")] [textElement "ramdisk" "jflte/AOSP/AOSP"])
          { id := "jflte/Default" })) :=
  ⟨by decide, by decide,
    (matches_regex_is_a_selection_regex literalSearch lastComponent
      (loadPatchInfos exampleKeys (singleFileSystem exampleMatchesDoc)
        (new "1.0" [] [])).impl
      exampleDevice "rom.zip"
      (element "matches" [("regex", "rom")] [textElement "ramdisk" "jflte/AOSP/AOSP"])
      { id := "jflte/Default" } "rom" (by decide)).2.2 rfl rfl (by decide)
      ⟨[], by decide⟩ (by decide)⟩

/-- C25 (as stated, refuted): the regex string may be the type tag of the default
bundle. With the tag `default`, `<matches regex="default">` with a ramdisk child
changes the ramdisk of the Default bundle; and whatever string the tag is, the
`<matches>` tag with that string as regex stores its ramdisk in the Default bundle. -/
theorem matches_with_reserved_tag_changes_default_bundle :
    (({} : PatchInfo).ramdisk exampleKeys.Default = "" ∧
      (parsePatchInfoTagMatches
        (element PatchInfoTagMatches [(PatchInfoAttrRegex, "default")]
          [textElement PatchInfoTagRamdisk "jflte/AOSP/AOSP"])
        {}).ramdisk exampleKeys.Default = "jflte/AOSP/AOSP") ∧
      ∀ keys : PatchInfoKeys,
        (parsePatchInfoTagMatches
          (element PatchInfoTagMatches [(PatchInfoAttrRegex, keys.Default)]
            [textElement PatchInfoTagRamdisk "jflte/AOSP/AOSP"])
          {}).ramdisk keys.Default = "jflte/AOSP/AOSP" := by
  refine ⟨by decide, fun keys => ?_⟩
  have hattr : xmlGetProp (element PatchInfoTagMatches [(PatchInfoAttrRegex, keys.Default)]
      [textElement PatchInfoTagRamdisk "jflte/AOSP/AOSP"]) PatchInfoAttrRegex =
      some keys.Default := by
    simp [xmlGetProp, element, xmlNode.properties, List.lookup_cons]
  have hchildren : (element PatchInfoTagMatches [(PatchInfoAttrRegex, keys.Default)]
      [textElement PatchInfoTagRamdisk "jflte/AOSP/AOSP"]).children =
      [textElement PatchInfoTagRamdisk "jflte/AOSP/AOSP"] := rfl
  have htype : (textElement PatchInfoTagRamdisk "jflte/AOSP/AOSP").type =
      xmlElementType.XML_ELEMENT_NODE := rfl
  have hname : (textElement PatchInfoTagRamdisk "jflte/AOSP/AOSP").name =
      PatchInfoTagRamdisk := rfl
  have hne1 : PatchInfoTagRamdisk ≠ PatchInfoTagMatches := by decide
  have hne2 : PatchInfoTagRamdisk ≠ PatchInfoTagHasBootImage := by decide
  unfold parsePatchInfoTagMatches
  rw [hattr]
  dsimp only
  rw [hchildren, List.foldl_cons, List.foldl_nil, hname, if_neg (by rw [htype]; simp),
    if_neg hne1, if_neg hne2, if_pos rfl,
    parsePatchInfoTagRamdisk_first PatchInfoTagRamdisk "jflte/AOSP/AOSP"
      (({} : PatchInfo).setCondRegexes (({} : PatchInfo).condRegexes ++ [keys.Default]))
      keys.Default rfl,
    ramdisk_setRamdisk]

/-- C25 (amended): the tags nested in `<matches regex=R>` change no bundle whose type
tag differs from `R`, so the Default and the NotMatched bundle are unchanged whenever
`R` is not one of their two type tags; the tags nested in the not-matched tag change
no bundle whose type tag differs from the NotMatched tag. -/
theorem nested_tags_change_only_their_bundle (keys : PatchInfoKeys) (node : xmlNode)
    (info : PatchInfo) (R : String)
    (hattr : xmlGetProp node PatchInfoAttrRegex = some R) :
    (∀ other : String, other ≠ R →
      (parsePatchInfoTagMatches node info).bundle other = info.bundle other) ∧
    (R ≠ keys.Default → R ≠ keys.NotMatched →
      (parsePatchInfoTagMatches node info).bundle keys.Default = info.bundle keys.Default ∧
      (parsePatchInfoTagMatches node info).bundle keys.NotMatched =
        info.bundle keys.NotMatched) ∧
    (∀ (tag : xmlNode) (other : String), other ≠ keys.NotMatched →
      (parsePatchInfoTagNotMatched keys tag info).bundle other = info.bundle other) :=
  ⟨fun other h => parsePatchInfoTagMatches_bundle node info R other hattr h,
    fun hD hN => ⟨parsePatchInfoTagMatches_bundle node info R _ hattr (Ne.symm hD),
      parsePatchInfoTagMatches_bundle node info R _ hattr (Ne.symm hN)⟩,
    fun tag other h => parsePatchInfoTagNotMatched_bundle keys tag info other h⟩

theorem nested_tags_change_only_their_bundle_witness :
    (parsePatchInfoTagMatches
        (element "matches" [("regex", "rom")] [textElement "ramdisk" "jflte/AOSP/AOSP"])
        exampleZip).bundle exampleKeys.Default = exampleZip.bundle exampleKeys.Default ∧
      (parsePatchInfoTagMatches
        (element "matches" [("regex", "rom")] [textElement "ramdisk" "jflte/AOSP/AOSP"])
        exampleZip).ramdisk "rom" = "jflte/AOSP/AOSP" :=
  ⟨((nested_tags_change_only_their_bundle exampleKeys
      (element "matches" [("regex", "rom")] [textElement "ramdisk" "jflte/AOSP/AOSP"])
      exampleZip "rom" (by decide)).2.1 (by decide) (by decide)).1,
    by decide⟩

theorem parsePatchInfoTagPartconfigs_no_children (info : PatchInfo) (type : String) :
    (parsePatchInfoTagPartconfigs (element PatchInfoTagPartconfigs [] []) info
      type).supportedConfigs type = seedTokens (info.supportedConfigs type) := by
  simp [parsePatchInfoTagPartconfigs, element, xmlNode.children,
    supportedConfigs_setSupportedConfigs]

theorem parsePatchInfoTagPartconfigs_exclude_child (info : PatchInfo) (type X : String) :
    (parsePatchInfoTagPartconfigs
      (element PatchInfoTagPartconfigs [] [textElement PatchInfoTagExclude X]) info
      type).supportedConfigs type =
      excludeTokens X (seedTokens (info.supportedConfigs type)) := by
  have hchildren : (element PatchInfoTagPartconfigs []
      [textElement PatchInfoTagExclude X]).children = [textElement PatchInfoTagExclude X] :=
    rfl
  have htype : (textElement PatchInfoTagExclude X).type = xmlElementType.XML_ELEMENT_NODE :=
    rfl
  have hname : (textElement PatchInfoTagExclude X).name = PatchInfoTagExclude := rfl
  have hne : PatchInfoTagExclude ≠ PatchInfoTagPartconfigs := by decide
  unfold parsePatchInfoTagPartconfigs
  dsimp only
  rw [hchildren, List.foldl_cons, List.foldl_nil, hname, if_neg (by rw [htype]; simp),
    if_neg hne, if_pos rfl, parsePatchInfoTagExclude_textElement,
    supportedConfigs_setSupportedConfigs]

/-- C29 (as stated, refuted): into a bundle without tokens, a partition-config list
tag whose only child is `<exclude>all</exclude>` yields `["!all"]`, not
`["all", "!all"]`: the exclude step erases the seeded token `all`. -/
theorem partconfigs_exclude_all_erases_seed :
    ({} : PatchInfo).supportedConfigs "default" = [] ∧
      (parsePatchInfoTagPartconfigs
        (element "partconfigs" [] [textElement "exclude" "all"]) {}
        "default").supportedConfigs "default" = ["!all"] := by
  decide

/-- C29 (amended): into a bundle whose token sequence is empty, a partition-config
list tag without children yields `["all"]`, and one whose only child is
`<exclude>X</exclude>` yields `["all", "!X"]` when `X` is not `all` and `["!all"]` when
it is; a bundle whose token sequence is not empty is not seeded. -/
theorem partconfigs_seeds_empty_bundle (info : PatchInfo) (type X : String) :
    (info.supportedConfigs type = [] →
      (parsePatchInfoTagPartconfigs (element PatchInfoTagPartconfigs [] []) info
        type).supportedConfigs type = ["all"] ∧
      (X ≠ "all" →
        (parsePatchInfoTagPartconfigs
          (element PatchInfoTagPartconfigs [] [textElement PatchInfoTagExclude X]) info
          type).supportedConfigs type = ["all", "!" ++ X]) ∧
      (X = "all" →
        (parsePatchInfoTagPartconfigs
          (element PatchInfoTagPartconfigs [] [textElement PatchInfoTagExclude X]) info
          type).supportedConfigs type = ["!all"])) ∧
    (info.supportedConfigs type ≠ [] →
      (parsePatchInfoTagPartconfigs (element PatchInfoTagPartconfigs [] []) info
        type).supportedConfigs type = info.supportedConfigs type) := by
  constructor
  · intro hempty
    refine ⟨?_, ?_, ?_⟩
    · rw [parsePatchInfoTagPartconfigs_no_children, hempty]
      rfl
    · intro hX
      rw [parsePatchInfoTagPartconfigs_exclude_child, hempty]
      have hseed : seedTokens [] = ["all"] := rfl
      have hne1 : ("all" : String) ≠ X := fun h => hX h.symm
      have hne2 : ("all" : String) ≠ "!" ++ X := by
        intro h
        have := congrArg String.data h
        simp [String.data_append] at this
      simp [hseed, excludeTokens, hne1, hne2]
    · rintro rfl
      rw [parsePatchInfoTagPartconfigs_exclude_child, hempty]
      decide
  · intro hne
    rw [parsePatchInfoTagPartconfigs_no_children]
    unfold seedTokens
    cases hcs : info.supportedConfigs type with
    | nil => exact absurd hcs hne
    | cons a rest => rfl

theorem partconfigs_seeds_empty_bundle_witness :
    (parsePatchInfoTagPartconfigs
        (element "partconfigs" [] [textElement "exclude" "dual"]) {}
        "default").supportedConfigs "default" = ["all", "!dual"] :=
  ((partconfigs_seeds_empty_bundle {} "default" "dual").1 rfl).2.1 (by decide)

/-! ## Scenarios -/

theorem loadPatchInfos_single_file (keys : PatchInfoKeys) (fs : FileSystem)
    (version : String) (configs1 configs2 : List PartitionConfig) (doc : xmlDoc)
    (hwalk : fs.walk "/patchinfos/" =
      { entries := [{ path := "/patchinfos/jflte/Default.xml", isRegularFile := true }],
        failure := none })
    (hext : fs.extension "/patchinfos/jflte/Default.xml" = ".xml")
    (hdoc : fs.xmlReadFile "/patchinfos/jflte/Default.xml" = some doc)
    (hwf : doc.wellFormed = true) :
    loadPatchInfos keys fs (new version configs1 configs2) =
      { impl := { new version configs1 configs2 with
          patchInfos := descriptorsOf keys "jflte/Default" doc },
        ok := true, warning := none } := by
  have hdir : patchInfosDirectory (new version configs1 configs2) ++ "/" = "/patchinfos/" :=
    rfl
  have hfile : isDescriptionFile fs
      { path := "/patchinfos/jflte/Default.xml", isRegularFile := true } = true := by
    simp [isDescriptionFile, hext]
  have hid : erase_tail (erase_first "/patchinfos/jflte/Default.xml" "/patchinfos/") 4 =
      "jflte/Default" := by decide
  simp only [loadPatchInfos, hdir, hwalk]
  rw [loadPatchInfosLoop_cons_some keys fs _ _ _ _ _ doc hfile hdoc,
    loadPatchInfoXml_wellFormed keys fs _ _ _ doc hdoc hwf, hid]
  rfl

theorem findMatchingPatchInfo_single (regex_search : String → String → Outcome Bool)
    (filename : String → String) (impl : Impl) (device : Device) (fileName : String)
    (d : PatchInfo) (honly : impl.patchInfos = [d])
    (hdevice : starts_with d.id device.codename = true) (hname : fileName ≠ "") :
    findMatchingPatchInfo regex_search filename impl (some device) fileName =
      infoLoop regex_search (filename fileName) [d] := by
  simp only [findMatchingPatchInfo, hname, if_false, patchInfos,
    patchInfosLoop_eq_filter, honly, List.nil_append]
  simp only [List.filter_cons, hdevice, Bool.true_or, if_true, List.filter_nil]

/-- C21: a fresh registry, a description-file directory holding the single file
`jflte/Default.xml` with the document `<patchinfo><regex>.*\.zip</regex></patchinfo>`,
and a regex engine for which `.*\.zip` searches `rom-update.zip`: the load succeeds and
registers the one descriptor with identifier `jflte/Default` and that selection regex,
`deviceFromCodename ("jflte")` is the built-in device, and `findMatchingPatchInfo` for
it and `rom-update.zip` returns that descriptor. -/
theorem scenario_zip_regex_matches (regex_search : String → String → Outcome Bool)
    (filename : String → String) (keys : PatchInfoKeys) (fs : FileSystem)
    (version : String) (configs1 configs2 : List PartitionConfig)
    (hwalk : fs.walk "/patchinfos/" =
      { entries := [{ path := "/patchinfos/jflte/Default.xml", isRegularFile := true }],
        failure := none })
    (hext : fs.extension "/patchinfos/jflte/Default.xml" = ".xml")
    (hdoc : fs.xmlReadFile "/patchinfos/jflte/Default.xml" =
      some { rootChain := [element "patchinfo" [] [textElement "regex" ".*\\.zip"]] })
    (hsearch : regex_search "rom-update.zip" ".*\\.zip" = Outcome.returned true)
    (hbase : filename "rom-update.zip" = "rom-update.zip") :
    (loadPatchInfos keys fs (new version configs1 configs2)).ok = true ∧
      (loadPatchInfos keys fs (new version configs1 configs2)).impl.patchInfos =
        [{ id := "jflte/Default", regexes := [".*\\.zip"] }] ∧
      (deviceFromCodename (loadPatchInfos keys fs (new version configs1 configs2)).impl
        "jflte").map (fun device => device.codename) = some "jflte" ∧
      findMatchingPatchInfo regex_search filename
        (loadPatchInfos keys fs (new version configs1 configs2)).impl
        (deviceFromCodename (loadPatchInfos keys fs (new version configs1 configs2)).impl
          "jflte")
        "rom-update.zip" =
        Outcome.returned (some { id := "jflte/Default", regexes := [".*\\.zip"] }) := by
  rw [loadPatchInfos_single_file keys fs version configs1 configs2 _ hwalk hext hdoc rfl]
  have hdesc : descriptorsOf keys "jflte/Default"
      { rootChain := [element "patchinfo" [] [textElement "regex" ".*\\.zip"]] } =
      [{ id := "jflte/Default", regexes := [".*\\.zip"] }] := rfl
  rw [hdesc]
  refine ⟨rfl, rfl, rfl, ?_⟩
  have hdev : deviceFromCodename
      { new version configs1 configs2 with
        patchInfos := [({ id := "jflte/Default", regexes := [".*\\.zip"] } : PatchInfo)] }
      "jflte" = (loadDefaultDevices {}).devices.head? := rfl
  rw [hdev]
  have hhead : (loadDefaultDevices {}).devices.head? =
      some ((loadDefaultDevices {}).devices.headD {}) := rfl
  rw [hhead, findMatchingPatchInfo_single regex_search filename _ _ "rom-update.zip"
    { id := "jflte/Default", regexes := [".*\\.zip"] } rfl (by decide) (by decide)]
  simp only [infoLoop, regexLoop, excludeLoop, hbase, hsearch]

theorem scenario_zip_regex_matches_witness :
    findMatchingPatchInfo exampleRegexSearch lastComponent
        (loadPatchInfos exampleKeys (singleFileSystem exampleZipDoc) (new "1.0" [] [])).impl
        (deviceFromCodename
          (loadPatchInfos exampleKeys (singleFileSystem exampleZipDoc) (new "1.0" [] [])).impl
          "jflte")
        "rom-update.zip" =
        Outcome.returned (some { id := "jflte/Default", regexes := [".*\\.zip"] }) :=
  (scenario_zip_regex_matches exampleRegexSearch lastComponent exampleKeys
    (singleFileSystem exampleZipDoc) "1.0" [] [] rfl (by decide) rfl (by decide)
    (by decide)).2.2.2

/-- C22 (as stated, refuted): with `<exclude-regex>nightly</exclude-regex>` next to the
`<regex>` tag, directly in the top-level container, the registered descriptor has no
exclusion regex, and `findMatchingPatchInfo` returns it for `rom-nightly-update.zip`
although `nightly` searches that name. -/
theorem scenario_top_level_exclude_regex_is_ignored :
    (loadPatchInfos exampleKeys (singleFileSystem exampleTopLevelExcludeDoc)
        (new "1.0" [] [])).impl.patchInfos =
        [{ id := "jflte/Default", regexes := [".*\\.zip"], excludeRegexes := [] }] ∧
      exampleRegexSearch (lastComponent "rom-nightly-update.zip") "nightly" =
        Outcome.returned true ∧
      findMatchingPatchInfo exampleRegexSearch lastComponent
        (loadPatchInfos exampleKeys (singleFileSystem exampleTopLevelExcludeDoc)
          (new "1.0" [] [])).impl
        (deviceFromCodename
          (loadPatchInfos exampleKeys (singleFileSystem exampleTopLevelExcludeDoc)
            (new "1.0" [] [])).impl "jflte")
        "rom-nightly-update.zip" =
        Outcome.returned (some { id := "jflte/Default", regexes := [".*\\.zip"] }) := by
  decide

/-- C22 (amended): when `jflte/Default.xml` carries, beside `<regex>.*\.zip</regex>`,
the tag `<exclude-regex>nightly</exclude-regex>` inside a `<regexes>` grouping tag,
the registered descriptor has the exclusion regex `nightly`, and with no other
descriptor registered `findMatchingPatchInfo (jflte, "rom-nightly-update.zip")`
returns `nullptr`, for a regex engine that accepts the pattern `.*\.zip` and for which
`nightly` searches that name. -/
theorem scenario_grouped_exclude_regex_vetoes
    (regex_search : String → String → Outcome Bool)
    (filename : String → String) (keys : PatchInfoKeys) (fs : FileSystem)
    (version : String) (configs1 configs2 : List PartitionConfig)
    (hwalk : fs.walk "/patchinfos/" =
      { entries := [{ path := "/patchinfos/jflte/Default.xml", isRegularFile := true }],
        failure := none })
    (hext : fs.extension "/patchinfos/jflte/Default.xml" = ".xml")
    (hdoc : fs.xmlReadFile "/patchinfos/jflte/Default.xml" =
      some { rootChain := [element "patchinfo" []
        [textElement "regex" ".*\\.zip",
          element "regexes" [] [textElement "exclude-regex" "nightly"]]] })
    (hvalid : regex_search "rom-nightly-update.zip" ".*\\.zip" ≠ Outcome.regex_error)
    (hsearch : regex_search "rom-nightly-update.zip" "nightly" = Outcome.returned true)
    (hbase : filename "rom-nightly-update.zip" = "rom-nightly-update.zip") :
    (loadPatchInfos keys fs (new version configs1 configs2)).impl.patchInfos =
        [{ id := "jflte/Default", regexes := [".*\\.zip"], excludeRegexes := ["nightly"] }] ∧
      findMatchingPatchInfo regex_search filename
        (loadPatchInfos keys fs (new version configs1 configs2)).impl
        (deviceFromCodename (loadPatchInfos keys fs (new version configs1 configs2)).impl
          "jflte")
        "rom-nightly-update.zip" = Outcome.returned none := by
  rw [loadPatchInfos_single_file keys fs version configs1 configs2 _ hwalk hext hdoc rfl]
  have hdesc : descriptorsOf keys "jflte/Default"
      { rootChain := [element "patchinfo" []
        [textElement "regex" ".*\\.zip",
          element "regexes" [] [textElement "exclude-regex" "nightly"]]] } =
      [{ id := "jflte/Default", regexes := [".*\\.zip"], excludeRegexes := ["nightly"] }] :=
    rfl
  rw [hdesc]
  refine ⟨rfl, ?_⟩
  have hdev : deviceFromCodename
      { new version configs1 configs2 with
        patchInfos :=
          [{ id := "jflte/Default", regexes := [".*\\.zip"], excludeRegexes := ["nightly"] }] }
      "jflte" = some ((loadDefaultDevices {}).devices.headD {}) := rfl
  rw [hdev, findMatchingPatchInfo_single regex_search filename _ _ "rom-nightly-update.zip"
    { id := "jflte/Default", regexes := [".*\\.zip"], excludeRegexes := ["nightly"] }
    rfl (by decide) (by decide)]
  simp only [infoLoop, regexLoop, hbase]
  cases hzip : regex_search "rom-nightly-update.zip" ".*\\.zip" with
  | regex_error => exact absurd hzip hvalid
  | returned b => cases b <;> simp only [excludeLoop, hsearch]

theorem scenario_grouped_exclude_regex_vetoes_witness :
    findMatchingPatchInfo exampleRegexSearch lastComponent
        (loadPatchInfos exampleKeys (singleFileSystem exampleGroupedExcludeDoc)
          (new "1.0" [] [])).impl
        (deviceFromCodename
          (loadPatchInfos exampleKeys (singleFileSystem exampleGroupedExcludeDoc)
            (new "1.0" [] [])).impl "jflte")
        "rom-nightly-update.zip" = Outcome.returned none :=
  (scenario_grouped_exclude_regex_vetoes exampleRegexSearch lastComponent exampleKeys
    (singleFileSystem exampleGroupedExcludeDoc) "1.0" [] [] rfl (by decide) rfl (by decide)
    (by decide) (by decide)).2

/-! ## Boolean tags and token sets over several tags -/

theorem parsePatchInfoTagHasBootImage_textElement (tag text : String) (info : PatchInfo)
    (type : String) :
    parsePatchInfoTagHasBootImage (textElement tag text) info type =
      match literalValue text with
      | some b => info.setHasBootImage type b
      | none => info := by
  by_cases h1 : text = XmlTextTrue
  · simp [parsePatchInfoTagHasBootImage, textElement, textNode, xmlNode.children,
      xmlNode.type, xmlNode.content, literalValue, h1]
  · by_cases h2 : text = XmlTextFalse
    · have h3 : XmlTextFalse ≠ XmlTextTrue := by decide
      simp [parsePatchInfoTagHasBootImage, textElement, textNode, xmlNode.children,
        xmlNode.type, xmlNode.content, literalValue, h2, h3]
    · simp [parsePatchInfoTagHasBootImage, textElement, textNode, xmlNode.children,
        xmlNode.type, xmlNode.content, literalValue, h1, h2]

theorem parsePatchInfoTagDeviceCheck_textElement (tag text : String) (info : PatchInfo)
    (type : String) :
    parsePatchInfoTagDeviceCheck (textElement tag text) info type =
      match literalValue text with
      | some b => info.setDeviceCheck type b
      | none => info := by
  by_cases h1 : text = XmlTextTrue
  · simp [parsePatchInfoTagDeviceCheck, textElement, textNode, xmlNode.children,
      xmlNode.type, xmlNode.content, literalValue, h1]
  · by_cases h2 : text = XmlTextFalse
    · have h3 : XmlTextFalse ≠ XmlTextTrue := by decide
      simp [parsePatchInfoTagDeviceCheck, textElement, textNode, xmlNode.children,
        xmlNode.type, xmlNode.content, literalValue, h2, h3]
    · simp [parsePatchInfoTagDeviceCheck, textElement, textNode, xmlNode.children,
        xmlNode.type, xmlNode.content, literalValue, h1, h2]

theorem hasBootImage_tags_last_literal (info : PatchInfo) (type : String)
    (texts : List String) :
    ((texts.map (textElement PatchInfoTagHasBootImage)).foldl
        (fun i n => parsePatchInfoTagHasBootImage n i type) info).hasBootImageMap.lookup type =
      ((texts.filterMap literalValue).getLast?).or (info.hasBootImageMap.lookup type) := by
  induction texts using List.reverseRecOn with
  | nil => simp
  | append_singleton init t ih =>
    rw [List.map_append, List.foldl_append, List.filterMap_append, List.getLast?_append]
    simp only [List.map_cons, List.map_nil, List.foldl_cons, List.foldl_nil]
    rw [parsePatchInfoTagHasBootImage_textElement]
    cases hlit : literalValue t with
    | none => simpa [List.filterMap_cons, hlit] using ih
    | some b =>
      simp [List.filterMap_cons, hlit, PatchInfo.setHasBootImage, lookup_mapSet_same]

theorem deviceCheck_tags_last_literal (info : PatchInfo) (type : String)
    (texts : List String) :
    ((texts.map (textElement PatchInfoTagDeviceCheck)).foldl
        (fun i n => parsePatchInfoTagDeviceCheck n i type) info).deviceCheckMap.lookup type =
      ((texts.filterMap literalValue).getLast?).or (info.deviceCheckMap.lookup type) := by
  induction texts using List.reverseRecOn with
  | nil => simp
  | append_singleton init t ih =>
    rw [List.map_append, List.foldl_append, List.filterMap_append, List.getLast?_append]
    simp only [List.map_cons, List.map_nil, List.foldl_cons, List.foldl_nil]
    rw [parsePatchInfoTagDeviceCheck_textElement]
    cases hlit : literalValue t with
    | none => simpa [List.filterMap_cons, hlit] using ih
    | some b =>
      simp [List.filterMap_cons, hlit, PatchInfo.setDeviceCheck, lookup_mapSet_same]

/-- C32: when one bundle receives has-boot-image tags (or device-check tags) with the
texts `texts`, in this order, the flag stored under the bundle's type tag ends as the
value of the last text that is `true` or `false`; texts that are neither change
nothing, and when no text is a valid literal the flag is as it was before. -/
theorem boolean_tags_last_writer_wins (info : PatchInfo) (type : String)
    (texts : List String) :
    ((texts.map (textElement PatchInfoTagHasBootImage)).foldl
        (fun i n => parsePatchInfoTagHasBootImage n i type) info).hasBootImageMap.lookup type =
      ((texts.filterMap literalValue).getLast?).or (info.hasBootImageMap.lookup type) ∧
    ((texts.map (textElement PatchInfoTagDeviceCheck)).foldl
        (fun i n => parsePatchInfoTagDeviceCheck n i type) info).deviceCheckMap.lookup type =
      ((texts.filterMap literalValue).getLast?).or (info.deviceCheckMap.lookup type) :=
  ⟨hasBootImage_tags_last_literal info type texts,
    deviceCheck_tags_last_literal info type texts⟩

theorem boolean_tags_last_writer_wins_witness :
    ((["true", "maybe", "false", "True"].map (textElement PatchInfoTagHasBootImage)).foldl
        (fun i n => parsePatchInfoTagHasBootImage n i "default")
        exampleZip).hasBootImageMap.lookup "default" = some false := by
  rw [(boolean_tags_last_writer_wins exampleZip "default"
    ["true", "maybe", "false", "True"]).1]
  decide

theorem negated_injective (a b : String) (h : "!" ++ a = "!" ++ b) : a = b := by
  have := congrArg String.data h
  simp only [String.data_append, List.append_cancel_left_eq] at this
  exact String.ext this

theorem signedSet_nil : SignedSet [] :=
  ⟨List.nodup_nil, fun _ _ h => absurd h (List.not_mem_nil _),
    fun _ h => absurd h (List.not_mem_nil _)⟩

theorem signedSet_seed (configs : List String) (h : SignedSet configs) :
    SignedSet (seedTokens configs) := by
  unfold seedTokens
  cases configs with
  | cons a rest => exact h
  | nil =>
    have hall : ∀ u : String, "!" ++ u ≠ "all" := by
      intro u hu
      have := congrArg String.data hu
      simp [String.data_append] at this
    refine ⟨by simp, ?_, ?_⟩
    · intro u v hmem
      have hu : "!" ++ u = "all" := by simpa using hmem
      exact absurd hu (hall u)
    · intro X hX hneg
      have hneg2 : "!" ++ X = "all" := by simpa using hneg
      exact hall X hneg2

theorem signedSet_exclude (text : String) (configs : List String) (h : SignedSet configs)
    (hplain : ∀ v : String, text ≠ "!" ++ v) : SignedSet (excludeTokens text configs) := by
  obtain ⟨hnodup, hshape, hsign⟩ := h
  refine ⟨excludeTokens_nodup text configs hnodup, ?_, ?_⟩
  · intro u v hmem
    rw [excludeTokens_eq_filter text configs hnodup] at hmem
    rcases List.mem_append.1 hmem with hold | hnew
    · exact hshape u v (List.mem_filter.1 hold).1
    · have hu : u = text := negated_injective u text (List.mem_singleton.1 hnew)
      rw [hu]
      exact hplain v
  · intro X hX hneg
    rw [excludeTokens_eq_filter text configs hnodup] at hX hneg
    rcases List.mem_append.1 hX with hXold | hXnew
    · rcases List.mem_append.1 hneg with hnegold | hnegnew
      · exact hsign X (List.mem_filter.1 hXold).1 (List.mem_filter.1 hnegold).1
      · have hXt : X = text := negated_injective X text (List.mem_singleton.1 hnegnew)
        have := (List.mem_filter.1 hXold).2
        simp [hXt] at this
    · have hXeq : X = "!" ++ text := List.mem_singleton.1 hXnew
      rcases List.mem_append.1 hneg with hnegold | hnegnew
      · have hmem := (List.mem_filter.1 hnegold).1
        rw [hXeq] at hmem
        exact hshape ("!" ++ text) text hmem rfl
      · have h2 : X = text := negated_injective X text (List.mem_singleton.1 hnegnew)
        rw [hXeq] at h2
        exact negated_ne text h2

theorem signedSet_include (text : String) (configs : List String) (h : SignedSet configs)
    (hplain : ∀ v : String, text ≠ "!" ++ v) : SignedSet (includeTokens text configs) := by
  obtain ⟨hnodup, hshape, hsign⟩ := h
  refine ⟨includeTokens_nodup text configs hnodup, ?_, ?_⟩
  · intro u v hmem
    rw [includeTokens_eq_filter text configs hnodup] at hmem
    rcases List.mem_append.1 hmem with hold | hnew
    · exact hshape u v (List.mem_filter.1 hold).1
    · exact absurd (List.mem_singleton.1 hnew).symm (hplain u)
  · intro X hX hneg
    rw [includeTokens_eq_filter text configs hnodup] at hX hneg
    rcases List.mem_append.1 hneg with hnegold | hnegnew
    · rcases List.mem_append.1 hX with hXold | hXnew
      · exact hsign X (List.mem_filter.1 hXold).1 (List.mem_filter.1 hnegold).1
      · have hXt : X = text := List.mem_singleton.1 hXnew
        have := (List.mem_filter.1 hnegold).2
        simp [hXt] at this
    · exact absurd (List.mem_singleton.1 hnegnew).symm (hplain X)

theorem parsePatchInfoTagExclude_signedSet (node : xmlNode) (info : PatchInfo)
    (type : String) (h : SignedSet (info.supportedConfigs type))
    (hplain : ∀ t ∈ textContents node, ∀ v : String, t ≠ "!" ++ v) :
    SignedSet ((parsePatchInfoTagExclude node info type).supportedConfigs type) := by
  unfold parsePatchInfoTagExclude
  unfold textContents at hplain
  generalize node.children = nodes at hplain
  induction nodes generalizing info with
  | nil => exact h
  | cons n rest ih =>
    rw [List.foldl_cons]
    by_cases htext : n.type = xmlElementType.XML_TEXT_NODE
    · apply ih
      · simp only [htext, ne_eq, not_true_eq_false, if_false]
        rw [supportedConfigs_setSupportedConfigs]
        exact signedSet_exclude _ _ h (hplain _ (by simp [htext]))
      · intro t ht
        exact hplain t (by
          rw [List.filter_cons]
          simp only [htext, decide_True, if_true, List.map_cons]
          exact List.mem_cons_of_mem _ ht)
    · apply ih
      · simpa [htext] using h
      · intro t ht
        exact hplain t (by
          rw [List.filter_cons]
          simpa [htext] using ht)

theorem parsePatchInfoTagInclude_signedSet (node : xmlNode) (info : PatchInfo)
    (type : String) (h : SignedSet (info.supportedConfigs type))
    (hplain : ∀ t ∈ textContents node, ∀ v : String, t ≠ "!" ++ v) :
    SignedSet ((parsePatchInfoTagInclude node info type).supportedConfigs type) := by
  unfold parsePatchInfoTagInclude
  unfold textContents at hplain
  generalize node.children = nodes at hplain
  induction nodes generalizing info with
  | nil => exact h
  | cons n rest ih =>
    rw [List.foldl_cons]
    by_cases htext : n.type = xmlElementType.XML_TEXT_NODE
    · apply ih
      · simp only [htext, ne_eq, not_true_eq_false, if_false]
        rw [supportedConfigs_setSupportedConfigs]
        exact signedSet_include _ _ h (hplain _ (by simp [htext]))
      · intro t ht
        exact hplain t (by
          rw [List.filter_cons]
          simp only [htext, decide_True, if_true, List.map_cons]
          exact List.mem_cons_of_mem _ ht)
    · apply ih
      · simpa [htext] using h
      · intro t ht
        exact hplain t (by
          rw [List.filter_cons]
          simpa [htext] using ht)

theorem parsePatchInfoTagPartconfigs_signedSet (node : xmlNode) (info : PatchInfo)
    (type : String) (h : SignedSet (info.supportedConfigs type))
    (hplain : ∀ c ∈ node.children, c.type = xmlElementType.XML_ELEMENT_NODE →
      (c.name = PatchInfoTagExclude ∨ c.name = PatchInfoTagInclude) →
      ∀ t ∈ textContents c, ∀ v : String, t ≠ "!" ++ v) :
    SignedSet ((parsePatchInfoTagPartconfigs node info type).supportedConfigs type) := by
  unfold parsePatchInfoTagPartconfigs
  have hseed : SignedSet ((info.setSupportedConfigs type
      (seedTokens (info.supportedConfigs type))).supportedConfigs type) := by
    rw [supportedConfigs_setSupportedConfigs]
    exact signedSet_seed _ h
  dsimp only
  generalize info.setSupportedConfigs type (seedTokens (info.supportedConfigs type)) = start
    at hseed ⊢
  generalize node.children = nodes at hplain
  induction nodes generalizing start with
  | nil => exact hseed
  | cons c rest ih =>
    rw [List.foldl_cons]
    apply ih
    · split
      · exact hseed
      · rename_i htype
        have htype2 : c.type = xmlElementType.XML_ELEMENT_NODE := by simpa using htype
        split
        · exact hseed
        · split
          · rename_i hname
            exact parsePatchInfoTagExclude_signedSet c start type hseed
              (hplain c (List.mem_cons_self _ _) htype2 (Or.inl hname))
          · split
            · rename_i hname
              exact parsePatchInfoTagInclude_signedSet c start type hseed
                (hplain c (List.mem_cons_self _ _) htype2 (Or.inr hname))
            · exact hseed
    · intro d hd
      exact hplain d (List.mem_cons_of_mem _ hd)

/-- C31: starting from a bundle without tokens, after any sequence of partition-config
list tags the token sequence of the bundle holds no token twice; and when no text of
an include or exclude child of these tags begins with `!`, the sequence never holds
both `X` and `!X`, for every `X`. -/
theorem token_sequence_is_signed_set (info : PatchInfo) (type : String)
    (tags : List xmlNode) (hempty : info.supportedConfigs type = []) :
    ((tags.foldl (fun i tag => parsePatchInfoTagPartconfigs tag i type)
        info).supportedConfigs type).Nodup ∧
    ((∀ tag ∈ tags, ∀ c ∈ tag.children, c.type = xmlElementType.XML_ELEMENT_NODE →
        (c.name = PatchInfoTagExclude ∨ c.name = PatchInfoTagInclude) →
        ∀ t ∈ textContents c, ∀ v : String, t ≠ "!" ++ v) →
      ∀ X : String,
        ¬(X ∈ (tags.foldl (fun i tag => parsePatchInfoTagPartconfigs tag i type)
              info).supportedConfigs type ∧
          "!" ++ X ∈ (tags.foldl (fun i tag => parsePatchInfoTagPartconfigs tag i type)
              info).supportedConfigs type)) := by
  constructor
  · refine LoaderTokens.nodup (foldl_invariant _
      (fun i : PatchInfo => LoaderTokens (i.supportedConfigs type)) ?_ tags info ?_)
    · intro a tag ha
      exact parsePatchInfoTagPartconfigs_loaderTokens tag a type type ha
    · show LoaderTokens (info.supportedConfigs type)
      rw [hempty]
      exact LoaderTokens.fresh
  · intro hplain X hboth
    have hstart : SignedSet (info.supportedConfigs type) := by
      rw [hempty]
      exact signedSet_nil
    have hfinal : SignedSet ((tags.foldl
        (fun i tag => parsePatchInfoTagPartconfigs tag i type) info).supportedConfigs
        type) := by
      clear hboth hempty
      induction tags generalizing info with
      | nil => exact hstart
      | cons tag rest ih =>
        rw [List.foldl_cons]
        exact ih _ (fun t ht => hplain t (List.mem_cons_of_mem _ ht))
          (parsePatchInfoTagPartconfigs_signedSet tag info type hstart
            (hplain tag (List.mem_cons_self _ _)))
    exact hfinal.2.2 X hboth.1 hboth.2

theorem token_sequence_is_signed_set_witness :
    ((([element "partconfigs" [] [textElement "exclude" "dual"],
        element "partconfigs" [] [textElement "include" "dual",
          textElement "exclude" "all"]] : List xmlNode).foldl
        (fun i tag => parsePatchInfoTagPartconfigs tag i "default")
        ({} : PatchInfo)).supportedConfigs "default").Nodup ∧
      (([element "partconfigs" [] [textElement "exclude" "dual"],
        element "partconfigs" [] [textElement "include" "dual",
          textElement "exclude" "all"]] : List xmlNode).foldl
        (fun i tag => parsePatchInfoTagPartconfigs tag i "default")
        ({} : PatchInfo)).supportedConfigs "default" = ["dual", "!all"] :=
  ⟨(token_sequence_is_signed_set {} "default"
      [element "partconfigs" [] [textElement "exclude" "dual"],
        element "partconfigs" [] [textElement "include" "dual",
          textElement "exclude" "all"]] rfl).1,
    by decide⟩

end PatcherPaths
